import Mathlib

/-!
# Rain prediction service: verification development

A shallow embedding of the decision logic of the backend
(`rainLogic.js`, `historicalData.js`, `mlModel.js`, `weatherController.js`,
`sectorIntelligence.js`) and theorems about it.

Conventions of the embedding

* JavaScript numbers are modelled by rationals `ℚ`; a property that may be
  absent (`undefined`) is an `Option`.
* `Math.sin`, `Math.cos` and `Math.exp` are taken as parameters (`JsMath`):
  no theorem below depends on what they compute.
* Calls that leave the process (HTTP, the generative model, the clock) are
  inputs of the embedded function: each carries the outcome of the call.
* A function that can throw returns an `Except String`, the error being the name
  of the exception (`"TypeError"`, `"RangeError"`).
* Where `Infinity` and `NaN` decide the outcome (`csvDataLoader.js`) a number is
  a `JsNumber` and the floating-point operations are parameters (`JsFloat`).
-/

namespace RainPredictor

/-! ## JavaScript helpers -/

/-- The transcendental functions of `Math` used by the code. -/
structure JsMath where
  sin : ℚ → ℚ
  cos : ℚ → ℚ
  exp : ℚ → ℚ

/-- The operator `x || d` on an optional number: `undefined` and `0` are falsy. -/
def orNum (x : Option ℚ) (d : ℚ) : ℚ :=
  match x with
  | some v => if v = 0 then d else v
  | none => d

/-- The function `Math.round`: nearest integer, halves rounded up. -/
def jsRound (x : ℚ) : Int := ⌊x + 1 / 2⌋

/-! ## rainLogic.js -/

/-- An object `{ '1h': volume }` as found under `rain` and `snow`. -/
structure Volume where
  oneHour : Option ℚ

/-- The expression `(e.rain && e.rain['1h']) || 0`. -/
def volumeOf (v : Option Volume) : ℚ :=
  match v with
  | some w => orNum w.oneHour 0
  | none => 0

/-- A weather descriptor `{ main, description }`. -/
structure Weather where
  main : String
  description : String
deriving DecidableEq

/-- The object `{ day, morn, eve, night }` of temperatures. -/
structure Temp where
  day : ℚ
  morn : ℚ
  eve : ℚ
  night : ℚ
deriving DecidableEq

/-- One entry of `weatherData.daily`; `dt` is in seconds since the epoch, `none`
when the entry carries no `dt` (a `null` acts as `0` in `dt * 1000` and in a
comparison). -/
structure DailyEntry where
  dt : Option Int
  pop : Option ℚ
  rain : Option Volume
  snow : Option Volume
  temp : Option Temp
  humidity : Option ℚ
  wind_speed : Option ℚ
  pressure : Option ℚ
  clouds : Option ℚ
  weather : Option (List Weather)

/-- One entry of `weatherData.hourly`; `dt` and the `weather` array may be
absent (`weather[0]` of an empty array is `undefined`). -/
structure HourlyEntry where
  dt : Option Int
  pop : Option ℚ
  rain : Option Volume
  snow : Option Volume
  temp : Option ℚ
  humidity : Option ℚ
  weather : Option (List Weather)

/-- The provider response read by `determineRainVerdict`: it has a `daily` list;
the `hourly` list may be absent. -/
structure WeatherData where
  lat : ℚ
  lon : ℚ
  daily : List DailyEntry
  hourly : Option (List HourlyEntry)

/-- A target date `"YYYY-MM-DD"`: `day` is its UTC calendar day counted from the
epoch (so `new Date(targetDate + 'T00:00:00Z').getTime() / 1000 = day * 86400`
when that day is within the range of `Date`, and the ISO date of a valid
timestamp `dt` equals the string exactly when `dt / 86400 = day`), `month` is
`new Date(targetDate).getMonth() + 1`. -/
structure TargetDate where
  day : Int
  month : Nat
deriving DecidableEq

/-- An element of `details.hourly`. -/
structure HourlyOut where
  time : Int
  pop : ℚ
  precipitation : ℚ
  temp : Option ℚ
  humidity : Option ℚ
  weather : Option Weather

/-- The object `details.daily`. -/
structure DailyOut where
  temp : Temp
  humidity : ℚ
  wind_speed : ℚ
  pressure : ℚ
  clouds : ℚ
  weather : Option Weather

/-- The template chosen for the `reasoning` text. -/
inductive Reasoning where
  | significantRainfall
  | likelihood
  | clearConditions
  | mixedPatterns
  | extendedForecast (daysAhead : Int)
deriving DecidableEq

/-- The record returned by `determineRainVerdict` and `generateSimplePrediction`. -/
structure RainPrediction where
  lat : ℚ
  lon : ℚ
  date : TargetDate
  verdict : String
  probability : ℚ
  confidence : String
  source : List String
  reasoning : Reasoning
  hourly : List HourlyOut
  daily : DailyOut

/-- The function `generateReasoning` (rainLogic.js:98-112), up to the text. -/
def generateReasoning (verdict : String) (precipitation : ℚ) : Reasoning :=
  if verdict = "Rain" then
    if precipitation > 2 then .significantRainfall else .likelihood
  else if verdict = "No rain" then .clearConditions
  else .mixedPatterns

/-- The probability computed by `generateSimplePrediction` (rainLogic.js:116-136). -/
def simpleProbability (lat lon : ℚ) (month : Nat) : ℚ :=
  let base : ℚ :=
    if month ≥ 6 ∧ month ≤ 9 then 0.4
    else if month ≥ 12 ∨ month ≤ 2 then 0.25
    else 0.3
  let base := if |lat| < 23.5 then base + 0.1 else base
  let base := if lat > 10 ∧ lat < 30 ∧ lon > 70 ∧ lon < 90 then base + 0.2 else base
  max 0.1 (min 0.8 base)

/-- The function `generateSimplePrediction` (rainLogic.js:115-174). -/
def generateSimplePrediction (M : JsMath) (lat lon : ℚ) (targetDate : TargetDate)
    (daysAhead : Int) : RainPrediction :=
  let baseProbability := simpleProbability lat lon targetDate.month
  let vc : String × String :=
    if baseProbability ≥ 0.6 then ("Rain", "medium")
    else if baseProbability ≥ 0.35 then ("Uncertain", "low")
    else ("No rain", "medium")
  { lat := lat
    lon := lon
    date := targetDate
    verdict := vc.1
    probability := baseProbability
    confidence := vc.2
    source := ["climate_forecast"]
    reasoning := .extendedForecast daysAhead
    hourly := []
    daily :=
      { temp :=
          { day := jsRound (25 + M.sin (lat * 0.1) * 10)
            morn := jsRound (22 + M.sin (lat * 0.1) * 10)
            eve := jsRound (24 + M.sin (lat * 0.1) * 10)
            night := jsRound (20 + M.sin (lat * 0.1) * 10) }
        humidity := jsRound (60 + baseProbability * 20)
        wind_speed := 5
        pressure := 1013
        clouds := jsRound (baseProbability * 70)
        weather := none } }

/-- The largest time value of a `Date`, in milliseconds from the epoch: beyond
it, and for `NaN`, `new Date(ms)` is an invalid date. -/
def maxTimeValue : Int := 8640000000000000

/-- The call `new Date(dt * 1000).toISOString()` on a timestamp in seconds
(`none` is an absent `dt`, for which `dt * 1000` is `NaN`): the instant in
seconds when the date is valid; an invalid date throws a `RangeError`. -/
def toISOString (dt : Option Int) : Except String Int :=
  match dt with
  | none => .error "RangeError"
  | some seconds =>
    if -maxTimeValue ≤ seconds * 1000 ∧ seconds * 1000 ≤ maxTimeValue then .ok seconds
    else .error "RangeError"

/-- The value `forecastDate` (rainLogic.js:12), the date part of the ISO text of
the entry, as the UTC calendar day counted from the epoch: the date part of the
text of an instant `s` equals the text of a target date exactly when
`s / 86400` is the target day. -/
def forecastDate (dt : Option Int) : Except String Int :=
  match toISOString dt with
  | .error e => .error e
  | .ok seconds => .ok (seconds / 86400)

/-- The search `daily.find(...)` (rainLogic.js:11-14) on the entries not yet
visited: the callback is run on the entries in order up to the first match, and
a `RangeError` raised by it ends the search. -/
def findForecast (targetDate : TargetDate) : List DailyEntry → Except String (Option DailyEntry)
  | [] => .ok none
  | day :: rest =>
    match forecastDate day.dt with
    | .error e => .error e
    | .ok date => if date = targetDate.day then .ok (some day) else findForecast targetDate rest

/-- The search `weatherData.daily.find(...)` (rainLogic.js:11-14). -/
def findTargetForecast (weatherData : WeatherData) (targetDate : TargetDate) :
    Except String (Option DailyEntry) :=
  findForecast targetDate weatherData.daily

/-- The value `targetDateStart` (rainLogic.js:37): the first second of the
target day, or `none` (`NaN`) when that day is outside the range of `Date`. -/
def targetDateStart (targetDate : TargetDate) : Option Int :=
  if -maxTimeValue ≤ targetDate.day * 86400000 ∧ targetDate.day * 86400000 ≤ maxTimeValue then
    some (targetDate.day * 86400)
  else none

/-- The test of the filter at rainLogic.js:40-41; a comparison with `undefined`
or `NaN` is false. -/
def inTargetDay (targetDate : TargetDate) (hour : HourlyEntry) : Bool :=
  match targetDateStart targetDate, hour.dt with
  | some start, some dt => decide (dt ≥ start) && decide (dt < start + 24 * 60 * 60)
  | _, _ => false

/-- The object built by the callback of `map` for one hourly entry
(rainLogic.js:42-49): `toISOString` may throw a `RangeError`, and `weather[0]`
of an absent `weather` throws a `TypeError`. -/
def hourlyOut (hour : HourlyEntry) : Except String HourlyOut :=
  match toISOString hour.dt with
  | .error e => .error e
  | .ok time =>
    match hour.weather with
    | none => .error "TypeError"
    | some weather =>
      .ok { time := time
            pop := orNum hour.pop 0
            precipitation := volumeOf hour.rain + volumeOf hour.snow
            temp := hour.temp
            humidity := hour.humidity
            weather := weather.head? }

/-- The call `.map(...)` of rainLogic.js:42: the callback is run on the entries
in order, and the first exception ends it. -/
def mapHourly : List HourlyEntry → Except String (List HourlyOut)
  | [] => .ok []
  | hour :: rest =>
    match hourlyOut hour with
    | .error e => .error e
    | .ok out =>
      match mapHourly rest with
      | .error e => .error e
      | .ok outs => .ok (out :: outs)

/-- The list `hourlyForDate` (rainLogic.js:37-49); `weatherData.hourly.filter`
throws a `TypeError` when the response has no `hourly` list. -/
def hourlyForDate (weatherData : WeatherData) (targetDate : TargetDate) :
    Except String (List HourlyOut) :=
  match weatherData.hourly with
  | none => .error "TypeError"
  | some hourly => mapHourly (hourly.filter (inTargetDay targetDate))

/-- The value `totalPrecip` (rainLogic.js:32-34). -/
def totalPrecip (targetForecast : DailyEntry) : ℚ :=
  volumeOf targetForecast.rain + volumeOf targetForecast.snow

/-- The value `combinedPop` (rainLogic.js:52-54). -/
def combinedPop (pop : ℚ) (hourly : List HourlyOut) : ℚ :=
  max pop (if hourly.length > 0
    then (hourly.foldl (fun sum h => sum + h.pop) 0) / hourly.length
    else pop)

/-- The verdict and confidence chosen by `determineRainVerdict` (rainLogic.js:59-71). -/
def verdictAndConfidence (combinedPop totalPrecip : ℚ) : String × String :=
  if combinedPop ≥ 0.7 ∨ totalPrecip > 2 then ("Rain", "high")
  else if combinedPop ≥ 0.4 ∨ totalPrecip > 0.5 then ("Rain", "medium")
  else if combinedPop ≥ 0.2 ∨ totalPrecip > 0.1 then ("Uncertain", "medium")
  else ("No rain", if combinedPop < 0.1 then "high" else "medium")

/-- The function `determineRainVerdict` (rainLogic.js:4-96). `daysAhead` is the
value computed from the clock at line 8. An exception thrown by the search of
the daily list or by the construction of `hourlyForDate` leaves the function. -/
def determineRainVerdict (M : JsMath) (weatherData : WeatherData) (targetDate : TargetDate)
    (daysAhead : Int) : Except String RainPrediction :=
  match findTargetForecast weatherData targetDate with
  | .error e => .error e
  | .ok none =>
    .ok (generateSimplePrediction M weatherData.lat weatherData.lon targetDate daysAhead)
  | .ok (some targetForecast) =>
    let temp := targetForecast.temp.getD { day := 20, morn := 15, eve := 18, night := 12 }
    let humidity := orNum targetForecast.humidity 60
    let wind_speed := orNum targetForecast.wind_speed 5
    let pressure := orNum targetForecast.pressure 1013
    let clouds := orNum targetForecast.clouds 30
    let pop := orNum targetForecast.pop 0
    let precip := totalPrecip targetForecast
    match hourlyForDate weatherData targetDate with
    | .error e => .error e
    | .ok hourly =>
      let p := combinedPop pop hourly
      let vc := verdictAndConfidence p precip
      .ok
        { lat := weatherData.lat
          lon := weatherData.lon
          date := targetDate
          verdict := vc.1
          probability := p
          confidence := vc.2
          source := ["openweathermap"]
          reasoning := generateReasoning vc.1 precip
          hourly := hourly
          daily :=
            { temp := temp
              humidity := orNum (some humidity) 60
              wind_speed := orNum (some wind_speed) 5
              pressure := orNum (some pressure) 1013
              clouds := orNum (some clouds) 30
              weather :=
                match targetForecast.weather with
                | some w => w.head?
                | none => some { main := "Clear", description := "clear sky" } } }

/-- The canonical verdict rule as the specification words it (§4.5), for a
probability `p` and a precipitation depth `d`. -/
def canonicalVerdict (p d : ℚ) : String × String :=
  if p ≥ 0.7 ∨ d > 2 then ("Rain", "high")
  else if p ≥ 0.4 ∨ d > 0.5 then ("Rain", "medium")
  else if p ≥ 0.2 ∨ d > 0.1 then ("Uncertain", "medium")
  else if p < 0.1 then ("No rain", "high")
  else ("No rain", "medium")

/-! ## historicalData.js -/

/-- The keys of `HISTORICAL_PATTERNS.climateZones`. -/
inductive ClimateZone where
  | equatorial
  | tropical
  | subtropical
  | temperate
  | polar
deriving DecidableEq

/-- The table `climateZones[zone].monthly` (historicalData.js:6-27). -/
def zoneMonthly : ClimateZone → List ℚ
  | .equatorial => [0.75, 0.70, 0.80, 0.85, 0.80, 0.65, 0.60, 0.65, 0.75, 0.85, 0.85, 0.80]
  | .tropical => [0.25, 0.20, 0.35, 0.45, 0.60, 0.75, 0.80, 0.75, 0.65, 0.50, 0.35, 0.30]
  | .subtropical => [0.15, 0.12, 0.20, 0.25, 0.18, 0.08, 0.05, 0.08, 0.15, 0.22, 0.25, 0.18]
  | .temperate => [0.25, 0.22, 0.30, 0.35, 0.40, 0.45, 0.50, 0.45, 0.35, 0.30, 0.28, 0.25]
  | .polar => [0.25, 0.20, 0.25, 0.30, 0.35, 0.45, 0.50, 0.45, 0.35, 0.30, 0.25, 0.25]

/-- The table `climateZones[zone].avgTemp` (historicalData.js:6-27). -/
def zoneAvgTemp : ClimateZone → List ℚ
  | .equatorial => [26, 27, 28, 28, 27, 26, 25, 25, 26, 27, 27, 26]
  | .tropical => [24, 25, 27, 29, 31, 32, 32, 31, 30, 28, 26, 24]
  | .subtropical => [18, 20, 23, 26, 30, 33, 35, 34, 31, 27, 22, 19]
  | .temperate => [5, 7, 12, 17, 22, 26, 28, 27, 23, 17, 11, 6]
  | .polar => [-15, -12, -8, -2, 4, 10, 12, 10, 5, -1, -7, -12]

/-- The table `regionalModifiers.monsoon.modifier` (historicalData.js:35-38). -/
def monsoonModifier : Nat → Option ℚ
  | 6 => some 3.5
  | 7 => some 4.0
  | 8 => some 3.8
  | 9 => some 2.8
  | 12 => some 0.2
  | 1 => some 0.15
  | 2 => some 0.18
  | 3 => some 0.25
  | 4 => some 0.8
  | 5 => some 1.5
  | _ => none

/-- The table `regionalModifiers.mediterranean.modifier` (historicalData.js:44-47). -/
def mediterraneanModifier : Nat → Option ℚ
  | 6 => some 0.2
  | 7 => some 0.1
  | 8 => some 0.1
  | 9 => some 0.4
  | 12 => some 1.5
  | 1 => some 1.4
  | 2 => some 1.3
  | 3 => some 1.2
  | 4 => some 0.8
  | 5 => some 0.5
  | _ => none

/-- A bounding box `{ lonRange, latRange }`. -/
structure Region where
  lonMin : ℚ
  lonMax : ℚ
  latMin : ℚ
  latMax : ℚ

/-- The test `lat >= latRange[0] && lat <= latRange[1] && lon >= lonRange[0] &&
lon <= lonRange[1]`. -/
def Region.contains (r : Region) (lat lon : ℚ) : Bool :=
  decide (lat ≥ r.latMin) && decide (lat ≤ r.latMax) &&
    decide (lon ≥ r.lonMin) && decide (lon ≤ r.lonMax)

/-- The box of `regionalModifiers.monsoon`. -/
def monsoonRegion : Region := { lonMin := 60, lonMax := 140, latMin := 5, latMax := 30 }

/-- The box of `regionalModifiers.mediterranean`. -/
def mediterraneanRegion : Region := { lonMin := -10, lonMax := 45, latMin := 30, latMax := 45 }

/-- The list `regionalModifiers.desert.regions` (historicalData.js:51-55). -/
def desertRegions : List Region :=
  [ { lonMin := -120, lonMax := -100, latMin := 20, latMax := 35 },
    { lonMin := 10, lonMax := 50, latMin := 15, latMax := 35 },
    { lonMin := 110, lonMax := 140, latMin := -35, latMax := -15 } ]

/-- The constant `regionalModifiers.desert.modifier`. -/
def desertModifier : ℚ := 0.15

/-- The function `getClimateZone` (historicalData.js:61-68). -/
def getClimateZone (lat : ℚ) : ClimateZone :=
  let absLat := |lat|
  if absLat ≤ 10 then .equatorial
  else if absLat ≤ 23.5 then .tropical
  else if absLat ≤ 35 then .subtropical
  else if absLat ≤ 60 then .temperate
  else .polar

/-- The function `getRegionalModifier` (historicalData.js:70-98). The loop over
the desert boxes multiplies once, at the first box that contains the point. -/
def getRegionalModifier (lat lon : ℚ) (month : Nat) : ℚ :=
  let modifier : ℚ := 1.0
  let modifier :=
    if monsoonRegion.contains lat lon then modifier * orNum (monsoonModifier month) 1.0
    else modifier
  let modifier :=
    if mediterraneanRegion.contains lat lon then
      modifier * orNum (mediterraneanModifier month) 1.0
    else modifier
  let modifier :=
    if desertRegions.any (fun desert => desert.contains lat lon) then
      modifier * desertModifier
    else modifier
  modifier

/-- The element `table[month - 1]` of a twelve-entry table; `none` is
`undefined`, which no month of a valid date gives. -/
def monthEntry (table : List ℚ) (month : Nat) : Option ℚ :=
  if month = 0 then none else table[month - 1]?

/-- The operator `a % b` on numbers: the remainder has the sign of `a`. -/
def jsRem (a b : ℚ) : ℚ :=
  a - b * (if 0 ≤ a / b then ⌊a / b⌋ else ⌈a / b⌉)

/-- The record returned by `predictFromHistoricalData`. -/
structure HistoricalPrediction where
  rainProbability : ℚ
  avgTemp : ℚ
  confidence : String
  dataSource : String

/-- The function `predictFromHistoricalData` (historicalData.js:100-139) for a
valid target date, given by its `month` (1..12) and the `dayOfYear` computed at
line 113; `pi` is `Math.PI` and `random` the value drawn by `Math.random()`.
The result is `none` when a table lookup is `undefined`. -/
def predictFromHistoricalData (M : JsMath) (pi : ℚ) (lat lon : ℚ) (month : Nat)
    (dayOfYear : Int) (random : ℚ) : Option HistoricalPrediction := do
  let climateZone := getClimateZone lat
  let baseProbability ← monthEntry (zoneMonthly climateZone) month
  let regionalModifier := getRegionalModifier lat lon month
  let baseProbability := baseProbability * regionalModifier
  let seasonalVariation := M.sin (dayOfYear * 2 * pi / 365) * 0.1
  let locationSeed := |M.sin (lat * 0.1) * M.cos (lon * 0.1)|
  let locationVariation := locationSeed * 0.3 - 0.15
  let coastalEffect : ℚ := if |jsRem lon 30| < 15 then 0.05 else -0.02
  let altitudeEffect : ℚ := if |lat| > 45 then 0.03 else 0
  let baseProbability :=
    baseProbability + (seasonalVariation + locationVariation + coastalEffect + altitudeEffect)
  let baseProbability := max 0.05 (min 0.85 baseProbability)
  let avgTemp ← monthEntry (zoneAvgTemp climateZone) month
  let avgTemp ← if lat < 0 then (zoneAvgTemp climateZone)[(month + 5) % 12]? else some avgTemp
  pure
    { rainProbability := baseProbability
      avgTemp := avgTemp + (random - 0.5) * 6
      confidence := if baseProbability > 0.6 ∨ baseProbability < 0.25 then "medium" else "low"
      dataSource := "historical-patterns" }

/-! ## mlModel.js -/

/-- An entry `{ mean, std }` of `this.stats`. -/
structure Stat where
  mean : ℚ
  std : ℚ

/-- The feature names passed to `normalize`. -/
inductive Feature where
  | lat
  | lon
  | temperature
  | humidity
  | pressure
  | windSpeed
deriving DecidableEq

/-- The object `this.weights` (mlModel.js:7-39). -/
structure Weights where
  lat : ℚ
  lon : ℚ
  month : ℚ
  dayOfYear : ℚ
  season : ℚ
  temperature : ℚ
  humidity : ℚ
  pressure : ℚ
  windSpeed : ℚ
  climateZone : ClimateZone → Option ℚ
  monsoon : ℚ
  mediterranean : ℚ
  desert : ℚ
  bias : ℚ

/-- The state of a `WeatherMLModel`: its weights and normalization statistics. -/
structure WeatherMLModel where
  weights : Weights
  stats : Feature → Option Stat

/-- The object built by the constructor (mlModel.js:5-50). -/
def WeatherMLModel.new : WeatherMLModel :=
  { weights :=
      { lat := -0.012
        lon := 0.003
        month := 0.15
        dayOfYear := -0.001
        season := 0.08
        temperature := -0.02
        humidity := 0.025
        pressure := -0.018
        windSpeed := 0.01
        climateZone := fun
          | .equatorial => some 0.6
          | .tropical => some 0.4
          | .subtropical => some 0.2
          | .temperate => some 0.3
          | .polar => some 0.15
        monsoon := 0.8
        mediterranean := -0.3
        desert := -0.7
        bias := 0.25 }
    stats := fun
      | .lat => some { mean := 0, std := 30 }
      | .lon => some { mean := 0, std := 60 }
      | .temperature => some { mean := 20, std := 15 }
      | .humidity => some { mean := 65, std := 20 }
      | .pressure => some { mean := 1013, std := 15 }
      | .windSpeed => some { mean := 5, std := 3 } }

/-- The method `normalize` (mlModel.js:52-56). -/
def WeatherMLModel.normalize (m : WeatherMLModel) (value : ℚ) (feature : Feature) : ℚ :=
  match m.stats feature with
  | none => value
  | some stat => (value - stat.mean) / stat.std

/-- The method `getClimateZone` (mlModel.js:58-65). -/
def WeatherMLModel.getClimateZone (lat : ℚ) : ClimateZone :=
  let absLat := |lat|
  if absLat ≤ 10 then .equatorial
  else if absLat ≤ 23.5 then .tropical
  else if absLat ≤ 35 then .subtropical
  else if absLat ≤ 60 then .temperate
  else .polar

/-- The object `{ monsoon, mediterranean, desert }` of flags. -/
structure RegionalFeatures where
  monsoon : ℚ
  mediterranean : ℚ
  desert : ℚ

/-- The method `getRegionalFeatures` (mlModel.js:67-96). -/
def WeatherMLModel.getRegionalFeatures (lat lon : ℚ) : RegionalFeatures :=
  { monsoon := if lat ≥ 5 ∧ lat ≤ 30 ∧ lon ≥ 60 ∧ lon ≤ 140 then 1 else 0
    mediterranean := if lat ≥ 30 ∧ lat ≤ 45 ∧ lon ≥ -10 ∧ lon ≤ 45 then 1 else 0
    desert :=
      if ([ (⟨-120, -100, 20, 35⟩ : Region), ⟨10, 50, 15, 35⟩, ⟨110, 140, -35, -15⟩ ]).any
          (fun desert => desert.contains lat lon) then 1
      else 0 }

/-- The argument of `predict`. -/
structure Features where
  lat : ℚ
  lon : ℚ
  month : ℚ
  dayOfYear : ℚ
  season : ℚ
  temperature : ℚ
  humidity : ℚ
  pressure : ℚ
  windSpeed : ℚ

/-- The object `features.normalized` of the result of `predict`. -/
structure Normalized where
  lat : ℚ
  lon : ℚ
  temperature : ℚ
  humidity : ℚ
  pressure : ℚ
  windSpeed : ℚ

/-- The record returned by `predict`. -/
structure MLPrediction where
  probability : ℚ
  confidence : String
  score : ℚ
  climateZone : ClimateZone
  regional : RegionalFeatures
  normalized : Normalized

/-- The value `score` of `predict` (mlModel.js:104-134). -/
def WeatherMLModel.score (m : WeatherMLModel) (features : Features) : ℚ :=
  let normLat := m.normalize features.lat .lat
  let normLon := m.normalize features.lon .lon
  let normTemp := m.normalize features.temperature .temperature
  let normHumidity := m.normalize features.humidity .humidity
  let normPressure := m.normalize features.pressure .pressure
  let normWind := m.normalize features.windSpeed .windSpeed
  let climateZone := WeatherMLModel.getClimateZone features.lat
  let regional := WeatherMLModel.getRegionalFeatures features.lat features.lon
  let score := m.weights.bias
  let score := score + normLat * m.weights.lat
  let score := score + normLon * m.weights.lon
  let score := score + (features.month / 12) * m.weights.month
  let score := score + (features.dayOfYear / 365) * m.weights.dayOfYear
  let score := score + (features.season / 4) * m.weights.season
  let score := score + normTemp * m.weights.temperature
  let score := score + normHumidity * m.weights.humidity
  let score := score + normPressure * m.weights.pressure
  let score := score + normWind * m.weights.windSpeed
  let score := score + orNum (m.weights.climateZone climateZone) 0.3
  let score := score + regional.monsoon * m.weights.monsoon
  let score := score + regional.mediterranean * m.weights.mediterranean
  let score := score + regional.desert * m.weights.desert
  score

/-- The method `predict` (mlModel.js:98-161). -/
def WeatherMLModel.predict (M : JsMath) (m : WeatherMLModel) (features : Features) :
    MLPrediction :=
  let score := m.score features
  let probability := 1 / (1 + M.exp (-score))
  let confidence :=
    if probability > 0.8 ∨ probability < 0.2 then "high"
    else if probability > 0.65 ∨ probability < 0.35 then "medium"
    else "low"
  { probability := max 0.05 (min 0.95 probability)
    confidence := confidence
    score := score
    climateZone := WeatherMLModel.getClimateZone features.lat
    regional := WeatherMLModel.getRegionalFeatures features.lat features.lon
    normalized :=
      { lat := m.normalize features.lat .lat
        lon := m.normalize features.lon .lon
        temperature := m.normalize features.temperature .temperature
        humidity := m.normalize features.humidity .humidity
        pressure := m.normalize features.pressure .pressure
        windSpeed := m.normalize features.windSpeed .windSpeed } }

/-! ## weatherController.js -/

/-- The object `req.query`: each parameter is a string or absent. -/
structure Query where
  lat : Option String
  lon : Option String
  date : Option String

/-- The test `!x` on a query parameter: absent and empty strings are falsy. -/
def isMissing (x : Option String) : Bool :=
  match x with
  | none => true
  | some v => v == ""

/-- The body of a successful current-weather response, with the fields the
controller reads (`name`, `sys.country`, `weather[0].description`, `main.temp`,
`main.humidity`, `main.pressure`, `wind.speed`). -/
structure CurrentWeather where
  name : String
  country : String
  description : String
  temp : ℚ
  humidity : ℚ
  pressure : Option ℚ
  windSpeed : Option ℚ

/-- The prediction record sent by `res.json`; `probability` is absent when the
code leaves it `undefined`. The `details` object (display values, two of them
drawn from `Math.random()`) is not part of the model. -/
structure Prediction where
  location : String
  date : String
  verdict : String
  probability : Option ℚ
  confidence : String
  source : List String
  reasoning : String
deriving DecidableEq

/-- The object parsed from the generative model's answer. -/
structure AiPrediction where
  probability : ℚ
  verdict : String
  confidence : String
  reasoning : String
  temperature : ℚ
  humidity : ℚ
  conditions : String

/-- The outcome of the request to `/api/ml/predict`: the promise rejected, the
body was falsy, the body had a truthy `error`, or the body was usable. -/
inductive MlOutcome where
  | rejected
  | noData
  | withError
  | ok (data : Prediction)

/-- What the world answers during one request: the outcome of each external
call, the builtins `parseFloat` and `JSON.parse` (`none` is `NaN`, resp. a thrown
error), the month `new Date(date).getMonth() + 1` and the clock comparison
`new Date(date) < new Date()`. -/
structure External where
  openWeather : Option CurrentWeather
  ml : MlOutcome
  gemini : Option String
  parseJSON : String → Option AiPrediction
  parseFloat : String → Option ℚ
  month : Nat
  isHistorical : Bool

/-- The external calls the controller can make. -/
inductive Call where
  | openWeather
  | mlPredict
  | gemini
deriving DecidableEq

/-- What the controller sends: status 400 with an error text, or a record. -/
inductive Response where
  | status400 (error : String)
  | json (body : Prediction)
deriving DecidableEq

/-- The source list of a response that carries a record. -/
def Response.source : Response → Option (List String)
  | .status400 _ => none
  | .json body => some body.source

/-- The match of `/\{[\s\S]*\}/` (weatherController.js:77,
recommendationsController.js:461): the leftmost match starts at the first `{`
and the greedy star extends it to the last `}` of the text; there is no match
when no `}` follows the first `{`. -/
def jsonMatch (text : List Char) : Option (List Char) :=
  let fromBrace := text.dropWhile (fun c => c != '{')
  let m := fromBrace.rdropWhile (fun c => c != '}')
  if m = [] then none else some m

/-- Comparison `a >= b` of a possibly-`NaN` number with a constant. -/
def geN (a : Option ℚ) (b : ℚ) : Bool :=
  match a with
  | some x => decide (x ≥ b)
  | none => false

/-- Comparison `a <= b` of a possibly-`NaN` number with a constant. -/
def leN (a : Option ℚ) (b : ℚ) : Bool :=
  match a with
  | some x => decide (x ≤ b)
  | none => false

/-- Comparison `a > b` of a possibly-`NaN` number with a constant. -/
def gtN (a : Option ℚ) (b : ℚ) : Bool :=
  match a with
  | some x => decide (x > b)
  | none => false

/-- Comparison `a < b` of a possibly-`NaN` number with a constant. -/
def ltN (a : Option ℚ) (b : ℚ) : Bool :=
  match a with
  | some x => decide (x < b)
  | none => false

/-- The value `baseProbability` of the climate fallback
(weatherController.js:121-148); `none` is `undefined`. -/
def fallbackProbability (latitude longitude : Option ℚ) (month : Nat) : Option ℚ :=
  let baseProbability : Option ℚ :=
    if geN latitude 23.5 && leN latitude 66.5 then
      monthEntry [0.4, 0.35, 0.45, 0.5, 0.4, 0.3, 0.25, 0.3, 0.4, 0.45, 0.4, 0.4] month
    else if leN latitude (-23.5) && geN latitude (-66.5) then
      monthEntry [0.3, 0.35, 0.4, 0.35, 0.3, 0.4, 0.45, 0.4, 0.35, 0.4, 0.35, 0.3] month
    else if ltN (latitude.map abs) 23.5 then
      if gtN latitude 10 && ltN latitude 30 && gtN longitude 70 && ltN longitude 90 then
        monthEntry [0.1, 0.15, 0.2, 0.3, 0.5, 0.8, 0.85, 0.8, 0.7, 0.4, 0.2, 0.1] month
      else if month ≥ 5 ∧ month ≤ 10 then some 0.6 else some 0.3
    else some 0.35
  if (gtN latitude 15 && ltN latitude 35 && gtN longitude (-15) && ltN longitude 50) ||
      (gtN latitude 20 && ltN latitude 40 && gtN longitude (-120) && ltN longitude (-100)) then
    some 0.08
  else baseProbability

/-- The verdict of the climate fallback (weatherController.js:150). -/
def fallbackVerdict (baseProbability : Option ℚ) : String :=
  if geN baseProbability 0.5 then "Rain"
  else if geN baseProbability 0.3 then "Uncertain"
  else "No rain"

/-- The text `location` of a record (weatherController.js:82, 153). -/
def locationText (weatherData : Option CurrentWeather) (lat lon : String) : String :=
  match weatherData with
  | some w => w.name ++ ", " ++ w.country
  | none => lat ++ ", " ++ lon

/-- The record of the climate fallback (weatherController.js:116-181). -/
def climateFallback (ext : External) (lat lon date : String) : Prediction :=
  let latitude := ext.parseFloat lat
  let longitude := ext.parseFloat lon
  let baseProbability := fallbackProbability latitude longitude ext.month
  { location := locationText ext.openWeather lat lon
    date := date
    verdict := fallbackVerdict baseProbability
    probability := baseProbability
    confidence := "medium"
    source := if ext.isHistorical then ["historical_analysis"] else ["climate_forecast"]
    reasoning :=
      if ext.isHistorical then "Historical climate analysis for this region and season"
      else "Climate-based prediction for this region and season" }

/-- The record built from the generative model's answer
(weatherController.js:81-108). -/
def aiRecord (ext : External) (lat lon date : String) (aiPrediction : AiPrediction) :
    Prediction :=
  { location := locationText ext.openWeather lat lon
    date := date
    verdict := aiPrediction.verdict
    probability := some aiPrediction.probability
    confidence := aiPrediction.confidence
    source :=
      if ext.isHistorical then ["historical_analysis", "gemini_ai"]
      else ["gemini_ai", "openweathermap"]
    reasoning := aiPrediction.reasoning }

/-- The object the generative tier obtains, if any (weatherController.js:72-79):
the call must resolve, the text must match the pattern and the match must parse. -/
def aiAnswer (ext : External) : Option AiPrediction := do
  let text ← ext.gemini
  let m ← jsonMatch text.toList
  ext.parseJSON (String.mk m)

/-- The handler `getWeatherPrediction` (weatherController.js:4-187): the calls it
attempted, in order, and the response it sent. The current-weather call comes
first and only fills `weatherData`; the outer `catch` (status 500) is not
reached on these inputs. -/
def getWeatherPrediction (ext : External) (query : Query) : List Call × Response :=
  if isMissing query.lat || isMissing query.lon || isMissing query.date then
    ([], .status400 "Missing required parameters: lat, lon, date")
  else
    let lat := query.lat.getD ""
    let lon := query.lon.getD ""
    let date := query.date.getD ""
    match ext.ml with
    | .ok data => ([.openWeather, .mlPredict], .json data)
    | _ =>
      match aiAnswer ext with
      | some aiPrediction =>
        ([.openWeather, .mlPredict, .gemini], .json (aiRecord ext lat lon date aiPrediction))
      | none =>
        ([.openWeather, .mlPredict, .gemini], .json (climateFallback ext lat lon date))

/-- The first balanced brace-delimited substring, as the specification words the
extraction: `balancedEnd rest depth` is the length of the shortest prefix of
`rest` that closes `depth` open braces. -/
def balancedEnd : List Char → Nat → Option Nat
  | [], _ => none
  | c :: rest, depth =>
    if c = '{' then (balancedEnd rest (depth + 1)).map (· + 1)
    else if c = '}' then
      if depth ≤ 1 then some 1 else (balancedEnd rest (depth - 1)).map (· + 1)
    else (balancedEnd rest depth).map (· + 1)

/-- The first balanced `{...}` substring of a text, scanning the opening braces
from the left. -/
def firstBalanced : List Char → Option (List Char)
  | [] => none
  | c :: rest =>
    if c = '{' then
      match balancedEnd rest 1 with
      | some n => some (c :: rest.take n)
      | none => firstBalanced rest
    else firstBalanced rest

/-! ## sectorIntelligence.js -/

/-- The eight keys of `SECTOR_INTELLIGENCE`; other sector strings (answered
`{ error: 'Sector not supported' }`) are not modelled. -/
inductive Sector where
  | agriculture
  | construction
  | logistics
  | energy
  | disaster
  | tourism
  | industrial
  | water
deriving DecidableEq

/-- The four values of `rainLevel`. -/
inductive RainLevel where
  | minimal
  | light
  | moderate
  | heavy
deriving DecidableEq

/-- The string of a rain level. -/
def RainLevel.key : RainLevel → String
  | .minimal => "minimal"
  | .light => "light"
  | .moderate => "moderate"
  | .heavy => "heavy"

/-- A temperature as `generateAdvancedRecommendations` may read it: a number, or
the object `{ day, morn, eve, night }` of a prediction record. -/
inductive TempValue where
  | num (v : ℚ)
  | obj (t : Temp)

/-- The comparison `temperature > c`: an object compares as `NaN`. -/
def TempValue.gt (t : TempValue) (c : ℚ) : Bool :=
  match t with
  | .num v => decide (v > c)
  | .obj _ => false

/-- The comparison `temperature < c`: an object compares as `NaN`. -/
def TempValue.lt (t : TempValue) (c : ℚ) : Bool :=
  match t with
  | .num v => decide (v < c)
  | .obj _ => false

/-- The parts of `weatherData` read by the engine: `probability`,
`details?.daily?.temp`, `details?.temperature`, `details?.daily?.humidity`,
`details?.daily?.windSpeed` and `details?.windSpeed`. -/
structure SectorWeather where
  probability : ℚ
  dailyTemp : Option TempValue
  detailsTemperature : Option ℚ
  dailyHumidity : Option ℚ
  dailyWindSpeed : Option ℚ
  detailsWindSpeed : Option ℚ

/-- The object `weatherParams` (sectorIntelligence.js:150-158). -/
structure WeatherParams where
  temperature : TempValue
  humidity : ℚ
  windSpeed : ℚ
  visibility : ℚ
  precipitation : ℚ
  rainLevel : RainLevel
  probability : ℚ

/-- One action item, without its `description` and `expectedOutcome` texts. -/
structure Recommendation where
  title : String
  priority : String
  timeframe : String
  riskLevel : String
deriving DecidableEq

/-- The object returned by `generateWorkStatus`, without its two texts. -/
structure WorkStatus where
  canWork : Bool
  rainLevel : RainLevel
  probability : Int
deriving DecidableEq

/-- The object returned by `generateAdvancedRecommendations`. -/
structure AdvancedRecommendations where
  workStatus : WorkStatus
  recommendations : List Recommendation
  season : String
  timeOfDay : String
  rainLevel : RainLevel

/-- A value passed where a function expects a rain level: the string of a level,
or the `weatherParams` object. -/
inductive LevelArg where
  | level (l : RainLevel)
  | params (p : WeatherParams)

/-- The property key a value is converted to by `table[value]`: an object gives
`"[object Object]"`. -/
def LevelArg.propertyKey : LevelArg → String
  | .level l => l.key
  | .params _ => "[object Object]"

/-- The function `getVisibilityFromWeather` (sectorIntelligence.js:625-632). -/
def getVisibilityFromWeather (rainLevel : RainLevel) (humidity : ℚ) : ℚ :=
  if rainLevel = .heavy then 2
  else if rainLevel = .moderate then 5
  else if rainLevel = .light ∧ humidity > 80 then 8
  else if humidity > 90 then 6
  else 15

/-- The function `getCurrentSeason` (sectorIntelligence.js:617-623), on the
month `new Date().getMonth()` (0..11). -/
def getCurrentSeason (month : Nat) : String :=
  if month ≥ 2 ∧ month ≤ 4 then "spring"
  else if month ≥ 5 ∧ month ≤ 7 then "summer"
  else if month ≥ 8 ∧ month ≤ 10 then "autumn"
  else "winter"

/-- The function `getTimeOfDayCategory` (sectorIntelligence.js:634-639). -/
def getTimeOfDayCategory (hour : Nat) : String :=
  if hour ≥ 6 ∧ hour < 12 then "morning"
  else if hour ≥ 12 ∧ hour < 18 then "afternoon"
  else if hour ≥ 18 ∧ hour < 22 then "evening"
  else "night"

/-- The table `canWorkMatrix` (sectorIntelligence.js:202-211). -/
def canWorkMatrix : Sector → RainLevel → Bool
  | .agriculture, .minimal => true
  | .agriculture, .light => true
  | .agriculture, .moderate => false
  | .agriculture, .heavy => false
  | .construction, .minimal => true
  | .construction, .light => true
  | .construction, .moderate => false
  | .construction, .heavy => false
  | .logistics, .minimal => true
  | .logistics, .light => true
  | .logistics, .moderate => true
  | .logistics, .heavy => false
  | .energy, _ => true
  | .disaster, _ => true
  | .tourism, .minimal => true
  | .tourism, .light => true
  | .tourism, .moderate => false
  | .tourism, .heavy => false
  | .industrial, .minimal => true
  | .industrial, .light => true
  | .industrial, .moderate => true
  | .industrial, .heavy => false
  | .water, _ => true

/-- The function `generateWorkStatus` (sectorIntelligence.js:201-230). -/
def generateWorkStatus (sector : Sector) (rainLevel : RainLevel) (weatherData : SectorWeather) :
    WorkStatus :=
  { canWork := canWorkMatrix sector rainLevel
    rainLevel := rainLevel
    probability := jsRound (weatherData.probability * 100) }

/-- A list holding `item` when `cond` holds: one guarded `recommendations.push`. -/
def pushIf (cond : Bool) (item : Recommendation) : List Recommendation :=
  if cond then [item] else []

/-- The function `generateAgricultureRecommendations` (sectorIntelligence.js:232-282). -/
def generateAgricultureRecommendations (w : WeatherParams) : List Recommendation :=
  (if w.precipitation < 2 then
      [⟨"Irrigation & Spraying Operations", "high", "today", "low"⟩]
    else if w.precipitation > 15 then
      [⟨"Flood Protection Protocol", "high", "immediate", "high"⟩]
    else []) ++
  pushIf (w.temperature.gt 35) ⟨"Heat Stress Management", "medium", "today", "medium"⟩ ++
  pushIf (decide (w.windSpeed > 15)) ⟨"Wind Damage Prevention", "high", "immediate", "high"⟩

/-- The function `generateConstructionRecommendations` (sectorIntelligence.js:284-346). -/
def generateConstructionRecommendations (w : WeatherParams) : List Recommendation :=
  pushIf (decide (w.windSpeed > 15))
    ⟨"High Wind Safety Protocol", "high", "immediate", "high"⟩ ++
  pushIf (decide (w.precipitation > 5))
    ⟨"Concrete & Material Protection", "high", "immediate", "high"⟩ ++
  (if w.temperature.gt 35 then
      [⟨"Heat Safety & Material Management", "medium", "today", "medium"⟩]
    else if w.temperature.lt 5 then
      [⟨"Cold Weather Construction Protocol", "medium", "today", "medium"⟩]
    else []) ++
  pushIf (decide (w.visibility < 5))
    ⟨"Equipment Operation Restriction", "high", "immediate", "high"⟩

/-- The function `generateLogisticsRecommendations` (sectorIntelligence.js:348-410). -/
def generateLogisticsRecommendations (w : WeatherParams) : List Recommendation :=
  (if w.visibility < 3 then
      [⟨"Critical Visibility Alert", "high", "immediate", "high"⟩]
    else if w.visibility < 8 then
      [⟨"Reduced Visibility Protocol", "high", "immediate", "medium"⟩]
    else []) ++
  pushIf (decide (w.windSpeed > 25))
    ⟨"High-Profile Vehicle Restriction", "high", "immediate", "high"⟩ ++
  pushIf (w.temperature.gt 35 || w.temperature.lt (-5))
    ⟨"Temperature-Sensitive Cargo Protocol", "medium", "today", "medium"⟩ ++
  pushIf (decide (w.precipitation > 20))
    ⟨"Flood Route Avoidance", "high", "immediate", "high"⟩

/-- The function `generateEnergyRecommendations` (sectorIntelligence.js:412-461). -/
def generateEnergyRecommendations (w : WeatherParams) : List Recommendation :=
  let solarEfficiency : ℚ :=
    if w.visibility > 10 then 100 else if w.visibility > 5 then 60
    else if w.visibility > 2 then 30 else 10
  [⟨"Solar Generation Forecast", if solarEfficiency < 50 then "high" else "medium",
      "immediate", if solarEfficiency < 30 then "high" else "medium"⟩] ++
  (if w.windSpeed > 25 then
      [⟨"Wind Turbine Safety Shutdown", "high", "immediate", "high"⟩]
    else if w.windSpeed > 15 then
      [⟨"Optimal Wind Generation", "medium", "today", "low"⟩]
    else []) ++
  pushIf (decide (w.precipitation > 15) || decide (w.windSpeed > 20))
    ⟨"Grid Infrastructure Alert", "high", "immediate", "high"⟩

/-- An entry `{ level, action }` of `SECTOR_INTELLIGENCE.disaster.alertLevels`. -/
structure AlertLevel where
  level : String
  action : String

/-- The lookup `SECTOR_INTELLIGENCE.disaster.alertLevels[key]`
(sectorIntelligence.js:70-75); `none` is `undefined`. -/
def alertLevels (key : String) : Option AlertLevel :=
  if key = "minimal" then some ⟨"green", "routine_monitoring"⟩
  else if key = "light" then some ⟨"yellow", "increased_awareness"⟩
  else if key = "moderate" then some ⟨"orange", "active_preparation"⟩
  else if key = "heavy" then some ⟨"red", "emergency_response"⟩
  else none

/-- The function `generateDisasterRecommendations(sectorData, rainLevel,
weatherData, context)` (sectorIntelligence.js:463-477), with `sectorData` the
disaster table. Reading `.level` of `undefined` raises a `TypeError`. -/
def generateDisasterRecommendations (rainLevel : LevelArg) :
    Except String (List Recommendation) :=
  match alertLevels rainLevel.propertyKey with
  | none => .error "TypeError: Cannot read properties of undefined (reading 'level')"
  | some alertLevel =>
    .ok [⟨"Alert Level " ++ alertLevel.level.toUpper, "high", "immediate",
      if rainLevel.propertyKey = "heavy" then "high" else "medium"⟩]

/-- The function `generateTourismRecommendations` (sectorIntelligence.js:479-538). -/
def generateTourismRecommendations (w : WeatherParams) : List Recommendation :=
  (if w.visibility < 5 ∨ w.windSpeed > 20 then
      [⟨"Flight Safety Alert", "high", "immediate", "high"⟩]
    else if w.visibility > 10 ∧ w.windSpeed < 10 then
      [⟨"Ideal Travel Conditions", "medium", "today", "low"⟩]
    else []) ++
  (if w.precipitation > 10 then
      [⟨"Tour Modification Required", "high", "immediate", "high"⟩]
    else if w.temperature.gt 40 || w.temperature.lt 0 then
      [⟨"Extreme Temperature Protocol", "high", "immediate", "high"⟩]
    else []) ++
  pushIf (decide (w.humidity > 80) && w.temperature.gt 25)
    ⟨"Comfort Enhancement Measures", "medium", "today", "medium"⟩

/-- An entry of `SECTOR_INTELLIGENCE.industrial.operationalImpact`. -/
structure OperationalImpact where
  outdoor_ops : String
  indoor_ops : String
  efficiency : Nat

/-- The lookup `SECTOR_INTELLIGENCE.industrial.operationalImpact[key]`
(sectorIntelligence.js:100-105); `none` is `undefined`. -/
def operationalImpact (key : String) : Option OperationalImpact :=
  if key = "minimal" then some ⟨"full", "normal", 100⟩
  else if key = "light" then some ⟨"protected", "normal", 95⟩
  else if key = "moderate" then some ⟨"limited", "focus", 80⟩
  else if key = "heavy" then some ⟨"suspended", "priority", 60⟩
  else none

/-- The function `generateIndustrialRecommendations(sectorData, rainLevel,
weatherData, context)` (sectorIntelligence.js:540-554), with `sectorData` the
industrial table. Reading `.outdoor_ops` of `undefined` raises a `TypeError`. -/
def generateIndustrialRecommendations (rainLevel : LevelArg) :
    Except String (List Recommendation) :=
  match operationalImpact rainLevel.propertyKey with
  | none => .error "TypeError: Cannot read properties of undefined (reading 'outdoor_ops')"
  | some _ => .ok [⟨"Production Optimization", "high", "today", "medium"⟩]

/-- The function `generateWaterRecommendations` (sectorIntelligence.js:556-615). -/
def generateWaterRecommendations (w : WeatherParams) : List Recommendation :=
  (if w.precipitation > 20 then
      [⟨"Flood Management Activation", "high", "immediate", "high"⟩]
    else if w.precipitation > 10 then
      [⟨"Reservoir Level Management", "medium", "today", "medium"⟩]
    else if w.precipitation < 1 then
      [⟨"Drought Management Protocol", "medium", "this_week", "medium"⟩]
    else []) ++
  pushIf (w.temperature.gt 30)
    ⟨"Water Quality Temperature Alert", "medium", "today", "medium"⟩ ++
  pushIf (decide (w.windSpeed > 20))
    ⟨"Infrastructure Protection", "high", "immediate", "high"⟩

/-- The value `rainLevel` (sectorIntelligence.js:132). -/
def rainLevelOf (probability : ℚ) : RainLevel :=
  if probability > 0.7 then .heavy
  else if probability > 0.4 then .moderate
  else if probability > 0.1 then .light
  else .minimal

/-- The value `temperature` (sectorIntelligence.js:135): a number `0` is falsy,
an object is truthy. -/
def temperatureOf (weatherData : SectorWeather) : TempValue :=
  match weatherData.dailyTemp with
  | some (.obj t) => .obj t
  | some (.num v) => if v = 0 then .num (orNum weatherData.detailsTemperature 25) else .num v
  | none => .num (orNum weatherData.detailsTemperature 25)

/-- The object `weatherParams` built at sectorIntelligence.js:131-158. -/
def weatherParamsOf (weatherData : SectorWeather) : WeatherParams :=
  let probability := weatherData.probability
  let rainLevel := rainLevelOf probability
  let humidity := orNum weatherData.dailyHumidity 60
  { temperature := temperatureOf weatherData
    humidity := humidity
    windSpeed :=
      match weatherData.dailyWindSpeed with
      | some v => if v = 0 then orNum weatherData.detailsWindSpeed 5 else v
      | none => orNum weatherData.detailsWindSpeed 5
    visibility := getVisibilityFromWeather rainLevel humidity
    precipitation := probability * 10
    rainLevel := rainLevel
    probability := probability }

/-- The function `generateAdvancedRecommendations` (sectorIntelligence.js:130-199)
for a supported sector; `clockMonth` and `clockHour` are `new Date().getMonth()`
and `new Date().getHours()`. An `error` is an exception leaving the function.
The calls for `disaster` and `industrial` pass `weatherParams` in the position
of the parameter `rainLevel`, as the source does at lines 175 and 181. -/
def generateAdvancedRecommendations (sector : Sector) (weatherData : SectorWeather)
    (clockMonth clockHour : Nat) : Except String AdvancedRecommendations := do
  let weatherParams := weatherParamsOf weatherData
  let rainLevel := weatherParams.rainLevel
  let recommendations ←
    match sector with
    | .agriculture => pure (generateAgricultureRecommendations weatherParams)
    | .construction => pure (generateConstructionRecommendations weatherParams)
    | .logistics => pure (generateLogisticsRecommendations weatherParams)
    | .energy => pure (generateEnergyRecommendations weatherParams)
    | .disaster => generateDisasterRecommendations (.params weatherParams)
    | .tourism => pure (generateTourismRecommendations weatherParams)
    | .industrial => generateIndustrialRecommendations (.params weatherParams)
    | .water => pure (generateWaterRecommendations weatherParams)
  pure
    { workStatus := generateWorkStatus sector rainLevel weatherData
      recommendations := recommendations.take 4
      season := getCurrentSeason clockMonth
      timeOfDay := getTimeOfDayCategory clockHour
      rainLevel := rainLevel }

/-! ## mlPredictor.js -/

/-- The constant `CACHE_TTL` (mlPredictor.js:7), in milliseconds. -/
def CACHE_TTL : Int := 60 * 60 * 1000

/-- The function `getClimateZone` of mlPredictor.js (lines 9-16). -/
def MlPredictor.getClimateZone (lat : ℚ) : ClimateZone :=
  let absLat := |lat|
  if absLat ≤ 10 then .equatorial
  else if absLat ≤ 23.5 then .tropical
  else if absLat ≤ 35 then .subtropical
  else if absLat ≤ 60 then .temperate
  else .polar

/-- The table `tempByZone` of `getSeasonalTemp` (mlPredictor.js:57-63). -/
def MlPredictor.tempByZone : ClimateZone → List ℚ
  | .equatorial => [26, 27, 28, 28, 27, 26, 25, 25, 26, 27, 27, 26]
  | .tropical => [24, 25, 27, 29, 31, 32, 32, 31, 30, 28, 26, 24]
  | .subtropical => [18, 20, 23, 26, 30, 33, 35, 34, 31, 27, 22, 19]
  | .temperate => [5, 7, 12, 17, 22, 26, 28, 27, 23, 17, 11, 6]
  | .polar => [-15, -12, -8, -2, 4, 10, 12, 10, 5, -1, -7, -12]

/-- The table entry `temp` chosen by `getSeasonalTemp` (mlPredictor.js:65-71),
before the random variation is added; `none` is `undefined`. -/
def MlPredictor.seasonalTempEntry (lat : ℚ) (month : Nat) : Option ℚ :=
  let zone := MlPredictor.getClimateZone lat
  let temp := monthEntry (MlPredictor.tempByZone zone) month
  if lat < 0 then (MlPredictor.tempByZone zone)[(month + 5) % 12]? else temp

/-- The function `getSeasonalTemp` (mlPredictor.js:55-74); `random` is the value
drawn by `Math.random()`, `none` is `NaN`. -/
def MlPredictor.getSeasonalTemp (lat : ℚ) (month : Nat) (random : ℚ) : Option ℚ :=
  (MlPredictor.seasonalTempEntry lat month).map (fun temp => temp + (random - 0.5) * 6)

/-- The record returned by `generateStatisticalPrediction`. -/
structure StatisticalPrediction where
  probability : ℚ
  confidence : String
  source : String
  method : String
deriving DecidableEq

/-- The table `baseProbabilities` (mlPredictor.js:154-160). -/
def MlPredictor.baseProbabilities : ClimateZone → List ℚ
  | .equatorial => [0.75, 0.70, 0.80, 0.85, 0.80, 0.65, 0.60, 0.65, 0.75, 0.85, 0.85, 0.80]
  | .tropical => [0.45, 0.40, 0.55, 0.65, 0.70, 0.80, 0.85, 0.80, 0.70, 0.60, 0.50, 0.45]
  | .subtropical => [0.35, 0.30, 0.40, 0.45, 0.25, 0.15, 0.10, 0.15, 0.25, 0.35, 0.40, 0.35]
  | .temperate => [0.40, 0.35, 0.45, 0.50, 0.55, 0.60, 0.65, 0.60, 0.50, 0.45, 0.45, 0.40]
  | .polar => [0.25, 0.20, 0.25, 0.30, 0.35, 0.45, 0.50, 0.45, 0.35, 0.30, 0.25, 0.25]

/-- The function `generateStatisticalPrediction` (mlPredictor.js:148-189) for a
date of month `month`; `random` is the value drawn by `Math.random()`, and the
result is `none` when the table lookup is `undefined`. -/
def MlPredictor.generateStatisticalPrediction (lat : ℚ) (month : Nat)
    (weatherData : Option WeatherData) (random : ℚ) : Option StatisticalPrediction := do
  let climateZone := MlPredictor.getClimateZone lat
  let probability ← monthEntry (MlPredictor.baseProbabilities climateZone) month
  let probability :=
    match weatherData.bind (fun w => w.daily.head?) with
    | some current =>
      let humidity := orNum current.humidity 60
      let pressure := orNum current.pressure 1013
      let probability :=
        if humidity > 80 then probability * 1.3
        else if humidity < 40 then probability * 0.7
        else probability
      if pressure < 1000 then probability * 1.2
      else if pressure > 1020 then probability * 0.8
      else probability
    | none => probability
  let probability := probability + (random - 0.5) * 0.15
  let probability := max 0.05 (min 0.90 probability)
  pure
    { probability := probability
      confidence := if probability > 0.7 ∨ probability < 0.3 then "medium" else "low"
      source := "statistical-model"
      method := "enhanced-climatology" }

/-- The object parsed from the output of the Python predictor. -/
structure PythonResult where
  json : String
deriving DecidableEq

/-- A value of `mlCache`: `{ data, timestamp }`. -/
structure MlCacheEntry where
  data : PythonResult
  timestamp : Int
deriving DecidableEq

/-- The cache key of `predictWithML`: the text `lat,lon,targetDate` determines
the triple and is determined by it, so the triple stands for the key. -/
abbrev MlKey := ℚ × ℚ × String

/-- The map `mlCache`. -/
abbrev MlCache := MlKey → Option MlCacheEntry

/-- What the world answers during one call of `predictWithML`: the clock read at
line 82, the outcome of `callPythonPredictor` (`none`: the promise rejected),
the clock read at line 98, and the month and random draw used by the
statistical fallback. -/
structure MlWorld where
  now : Int
  python : Option PythonResult
  storeTime : Int
  month : Nat
  random : ℚ

/-- What `predictWithML` resolves to. -/
inductive MlResult where
  | python (data : PythonResult)
  | statistical (prediction : Option StatisticalPrediction)
deriving DecidableEq

/-- The effect of one call of `predictWithML`: the cache afterwards, whether the
Python predictor was started, and the returned value. -/
structure MlCall where
  cache : MlCache
  spawned : Bool
  result : MlResult

/-- The `try` block of `predictWithML` and its `catch` (mlPredictor.js:88-108).
Building the feature vector (line 90) cannot raise. -/
def MlPredictor.lookup (cache : MlCache) (world : MlWorld) (lat lon : ℚ) (targetDate : String)
    (weatherData : Option WeatherData) : MlCall :=
  match world.python with
  | some prediction =>
    { cache := Function.update cache (lat, lon, targetDate)
        (some { data := prediction, timestamp := world.storeTime })
      spawned := true
      result := .python prediction }
  | none =>
    { cache := cache
      spawned := true
      result := .statistical
        (MlPredictor.generateStatisticalPrediction lat world.month weatherData world.random) }

/-- The function `predictWithML` (mlPredictor.js:76-109). -/
def predictWithML (cache : MlCache) (world : MlWorld) (lat lon : ℚ) (targetDate : String)
    (weatherData : Option WeatherData) : MlCall :=
  let cacheKey : MlKey := (lat, lon, targetDate)
  match cache cacheKey with
  | some cached =>
    if world.now - cached.timestamp < CACHE_TTL then
      { cache := cache, spawned := false, result := .python cached.data }
    else
      MlPredictor.lookup (Function.update cache cacheKey none) world lat lon targetDate
        weatherData
  | none => MlPredictor.lookup cache world lat lon targetDate weatherData

/-! ## geocodingController.js -/

/-- The constant `CACHE_DURATION` (geocodingController.js:8), in milliseconds. -/
def CACHE_DURATION : Int := 24 * 60 * 60 * 1000

/-- The object `geocodeResult`, without its `details`. -/
structure GeocodeResult where
  lat : ℚ
  lon : ℚ
  name : String
deriving DecidableEq

/-- A value of `geocodeCache`: `{ data, timestamp }`. -/
structure GeoCacheEntry where
  data : GeocodeResult
  timestamp : Int
deriving DecidableEq

/-- The map `geocodeCache`, keyed by text. -/
abbrev GeocodeCache := String → Option GeoCacheEntry

/-- What the world answers during one geocoding call: the clock read at the
cache test, the body of the HTTP response (`none`: the request rejected) and the
clock read when the result is stored. -/
structure GeoWorld (body : Type) where
  now : Int
  response : Option body
  storeTime : Int

/-- The effect of one geocoding call: the cache afterwards, whether the HTTP
request was made, and the returned value or the error thrown. -/
structure GeoCall where
  cache : GeocodeCache
  requested : Bool
  result : Except String GeocodeResult

/-- An element of `PostOffice` in the pincode response. -/
structure PostOffice where
  Name : String
  District : String
  State : String
  Division : String
  Region : String

/-- An element of the pincode response array. -/
structure PincodeRecord where
  Status : String
  PostOffice : List PostOffice

/-- The table `stateCoords` with its default (geocodingController.js:26-39). -/
def stateCoords (state : String) : ℚ × ℚ :=
  if state = "Maharashtra" then (19.7515, 75.7139)
  else if state = "Delhi" then (28.7041, 77.1025)
  else if state = "Karnataka" then (15.3173, 75.7139)
  else if state = "Tamil Nadu" then (11.1271, 78.6569)
  else if state = "Gujarat" then (22.2587, 71.1924)
  else if state = "Rajasthan" then (27.0238, 74.2179)
  else if state = "Uttar Pradesh" then (26.8467, 80.9462)
  else if state = "West Bengal" then (22.9868, 87.8550)
  else if state = "Madhya Pradesh" then (22.9734, 78.6569)
  else if state = "Bihar" then (25.0961, 85.3131)
  else (20.5937, 78.9629)

/-- The result computed from a pincode response (geocodingController.js:19-64),
or the error thrown. -/
def postOfficeResult (response : Option (List PincodeRecord)) : Except String GeocodeResult :=
  match response with
  | none => .error "request failed"
  | some [] => .error "Invalid pincode"
  | some (first :: _) =>
    if first.Status = "Success" then
      match first.PostOffice with
      | [] => .error "TypeError: Cannot read properties of undefined (reading 'State')"
      | postOffice :: _ =>
        .ok { lat := (stateCoords postOffice.State).1
              lon := (stateCoords postOffice.State).2
              name := postOffice.Name ++ ", " ++ postOffice.District ++ ", " ++ postOffice.State }
    else .error "Invalid pincode"

/-- The steps shared by the two cached geocoders after the key is computed: the
cache test (lines 12-16, 73-77), then the request, the `geocodeCache.set` on
success (lines 56-59, 101-104) and the rethrown error otherwise. -/
def geocodeCached (cache : GeocodeCache) (cacheKey : String) (now storeTime : Int)
    (outcome : Except String GeocodeResult) : GeoCall :=
  let fresh : Option GeocodeResult :=
    match cache cacheKey with
    | some cached => if now - cached.timestamp < CACHE_DURATION then some cached.data else none
    | none => none
  match fresh with
  | some data => { cache := cache, requested := false, result := .ok data }
  | none =>
    match outcome with
    | .ok geocodeResult =>
      { cache := Function.update cache cacheKey
          (some { data := geocodeResult, timestamp := storeTime })
        requested := true
        result := .ok geocodeResult }
    | .error e => { cache := cache, requested := true, result := .error e }

/-- The function `geocodeWithPostOffice` (geocodingController.js:10-69). -/
def geocodeWithPostOffice (cache : GeocodeCache) (world : GeoWorld (List PincodeRecord))
    (pincode : String) : GeoCall :=
  geocodeCached cache ("postoffice_" ++ pincode) world.now world.storeTime
    (postOfficeResult world.response)

/-- An element of `results` in the Google response. -/
structure GoogleResult where
  lat : ℚ
  lng : ℚ
  formatted_address : String
  place_id : String

/-- The body of the Google response. -/
structure GoogleBody where
  status : String
  results : List GoogleResult

/-- The result computed from a Google response (geocodingController.js:80-109),
or the error thrown. -/
def googleResult (response : Option GoogleBody) : Except String GeocodeResult :=
  match response with
  | none => .error "request failed"
  | some body =>
    match body.results with
    | result :: _ =>
      if body.status = "OK" then
        .ok { lat := result.lat, lon := result.lng, name := result.formatted_address }
      else .error ("Google Maps API error: " ++ body.status)
    | [] => .error ("Google Maps API error: " ++ body.status)

/-- The function `geocodeWithGoogle` (geocodingController.js:71-114);
`toLowerCase` is the string method of that name. -/
def geocodeWithGoogle (toLowerCase : String → String) (cache : GeocodeCache)
    (world : GeoWorld GoogleBody) (address : String) : GeoCall :=
  geocodeCached cache (toLowerCase address) world.now world.storeTime
    (googleResult world.response)

/-! ## trainingData.js -/

/-- The zone selected inside `getBaseTemperature` (trainingData.js:134-139):
`temperate` unless one of the other tests applies. -/
def TrainingData.baseTemperatureZone (lat : ℚ) : ClimateZone :=
  let absLat := |lat|
  if absLat ≤ 10 then .equatorial
  else if absLat ≤ 23.5 then .tropical
  else if absLat ≤ 35 then .subtropical
  else if absLat > 60 then .polar
  else .temperate

/-- The table `tempByZone` of `getBaseTemperature` (trainingData.js:126-132). -/
def TrainingData.tempByZone : ClimateZone → List ℚ
  | .equatorial => [26, 27, 28, 28, 27, 26, 25, 25, 26, 27, 27, 26]
  | .tropical => [24, 25, 27, 29, 31, 32, 32, 31, 30, 28, 26, 24]
  | .subtropical => [18, 20, 23, 26, 30, 33, 35, 34, 31, 27, 22, 19]
  | .temperate => [5, 7, 12, 17, 22, 26, 28, 27, 23, 17, 11, 6]
  | .polar => [-15, -12, -8, -2, 4, 10, 12, 10, 5, -1, -7, -12]

/-- The function `getBaseTemperature` (trainingData.js:125-149); `none` is
`undefined`. -/
def TrainingData.getBaseTemperature (lat : ℚ) (month : Nat) : Option ℚ :=
  let zone := TrainingData.baseTemperatureZone lat
  let temp := monthEntry (TrainingData.tempByZone zone) month
  if lat < 0 then (TrainingData.tempByZone zone)[(month + 5) % 12]? else temp

/-! ## modelTrainer.js -/

/-- The object returned by `initializeGradients`. -/
structure Gradients where
  lat : ℚ
  lon : ℚ
  month : ℚ
  dayOfYear : ℚ
  season : ℚ
  temperature : ℚ
  humidity : ℚ
  pressure : ℚ
  windSpeed : ℚ
  bias : ℚ

/-- An element of `trainData`: `{ features, target }`. -/
structure Sample where
  features : Features
  target : ℚ

/-- The state of a `ModelTrainer` (modelTrainer.js:6-10). -/
structure ModelTrainer where
  model : WeatherMLModel
  learningRate : ℚ
  epochs : Nat

/-- The object built by the constructor of `ModelTrainer`. -/
def ModelTrainer.new : ModelTrainer :=
  { model := WeatherMLModel.new, learningRate := 0.01, epochs := 100 }

/-- The method `initializeGradients` (modelTrainer.js:68-81). -/
def ModelTrainer.initializeGradients : Gradients :=
  { lat := 0, lon := 0, month := 0, dayOfYear := 0, season := 0, temperature := 0,
    humidity := 0, pressure := 0, windSpeed := 0, bias := 0 }

/-- The method `updateGradients` (modelTrainer.js:83-97): the gradient record
after the sample is added. -/
def ModelTrainer.updateGradients (t : ModelTrainer) (gradients : Gradients) (sample : Sample)
    (prediction : MLPrediction) : Gradients :=
  let error := prediction.probability - sample.target
  let sigmoid_derivative := prediction.probability * (1 - prediction.probability)
  let gradient_factor := 2 * error * sigmoid_derivative
  { gradients with
    lat := gradients.lat + gradient_factor * t.model.normalize sample.features.lat .lat
    lon := gradients.lon + gradient_factor * t.model.normalize sample.features.lon .lon
    month := gradients.month + gradient_factor * (sample.features.month / 12)
    temperature := gradients.temperature
      + gradient_factor * t.model.normalize sample.features.temperature .temperature
    humidity := gradients.humidity
      + gradient_factor * t.model.normalize sample.features.humidity .humidity
    pressure := gradients.pressure
      + gradient_factor * t.model.normalize sample.features.pressure .pressure
    windSpeed := gradients.windSpeed
      + gradient_factor * t.model.normalize sample.features.windSpeed .windSpeed
    bias := gradients.bias + gradient_factor }

/-- The method `updateWeights` (modelTrainer.js:99-109): the trainer after the
eight assignments. -/
def ModelTrainer.updateWeights (t : ModelTrainer) (gradients : Gradients) (sampleCount : Nat) :
    ModelTrainer :=
  { t with
    model :=
      { t.model with
        weights :=
          { t.model.weights with
            lat := t.model.weights.lat - t.learningRate * (gradients.lat / sampleCount)
            lon := t.model.weights.lon - t.learningRate * (gradients.lon / sampleCount)
            month := t.model.weights.month - t.learningRate * (gradients.month / sampleCount)
            temperature := t.model.weights.temperature
              - t.learningRate * (gradients.temperature / sampleCount)
            humidity := t.model.weights.humidity
              - t.learningRate * (gradients.humidity / sampleCount)
            pressure := t.model.weights.pressure
              - t.learningRate * (gradients.pressure / sampleCount)
            windSpeed := t.model.weights.windSpeed
              - t.learningRate * (gradients.windSpeed / sampleCount)
            bias := t.model.weights.bias - t.learningRate * (gradients.bias / sampleCount) } } }

/-- One pass of the loop body of `train` (modelTrainer.js:20-34): the gradients
are accumulated over the samples, then the weights are updated. -/
def ModelTrainer.epoch (M : JsMath) (t : ModelTrainer) (trainData : List Sample) : ModelTrainer :=
  let gradients := trainData.foldl
    (fun gradients sample =>
      t.updateGradients gradients sample (t.model.predict M sample.features))
    ModelTrainer.initializeGradients
  t.updateWeights gradients trainData.length

/-- The loop of `train` run `n` times. -/
def ModelTrainer.epochsLoop (M : JsMath) (trainData : List Sample) : Nat → ModelTrainer →
    ModelTrainer
  | 0, t => t
  | n + 1, t => ModelTrainer.epochsLoop M trainData n (t.epoch M trainData)

/-- The method `train` (modelTrainer.js:13-44) on the prepared data; the logging
and the evaluation that follows change nothing. -/
def ModelTrainer.train (M : JsMath) (t : ModelTrainer) (trainData : List Sample) :
    ModelTrainer :=
  ModelTrainer.epochsLoop M trainData t.epochs t

/-! ## csvDataLoader.js -/

/-- A JavaScript number: a finite value, `Infinity`, `-Infinity` or `NaN`. -/
inductive JsNumber where
  | finite (value : ℚ)
  | posInf
  | negInf
  | nan
deriving DecidableEq

/-- The function `isNaN` on a number. -/
def JsNumber.isNaN : JsNumber → Bool
  | .nan => true
  | _ => false

/-- The comparison `a < b` of two numbers; it is false when either is `NaN`. -/
def JsNumber.lt : JsNumber → JsNumber → Bool
  | .finite a, .finite b => decide (a < b)
  | .finite _, .posInf => true
  | .negInf, .finite _ => true
  | .negInf, .posInf => true
  | _, _ => false

/-- The floating-point operations used by `findNearestLocation`: `parseFloat`,
`a - b`, `a + b`, `Math.pow(a, 2)` and `Math.sqrt`. They are parameters: no
theorem below depends on how they round, overflow or propagate `NaN`. -/
structure JsFloat where
  parseFloat : String → JsNumber
  sub : JsNumber → JsNumber → JsNumber
  add : JsNumber → JsNumber → JsNumber
  powTwo : JsNumber → JsNumber
  sqrt : JsNumber → JsNumber

/-- The call `parseFloat(record.column)`: an absent column is `undefined`, which
parses to `NaN`. -/
def JsFloat.parseColumn (F : JsFloat) (column : Option String) : JsNumber :=
  match column with
  | none => .nan
  | some text => F.parseFloat text

/-- A record of the CSV data set: the two columns read by `findNearestLocation`
and the name of the place; a column may be absent. -/
structure CsvRecord where
  latitude : Option String
  longitude : Option String
  location_name : Option String
deriving DecidableEq

/-- The state of a `WeatherDataLoader`. -/
structure WeatherDataLoader where
  data : List CsvRecord
  loaded : Bool

/-- The value `distance` computed for a record (csvDataLoader.js:73-81), or
`none` when the record is skipped at line 76 because a coordinate is `NaN`. -/
def recordDistance (F : JsFloat) (targetLat targetLon : JsNumber) (record : CsvRecord) :
    Option JsNumber :=
  let lat := F.parseColumn record.latitude
  let lon := F.parseColumn record.longitude
  if lat.isNaN || lon.isNaN then none
  else some (F.sqrt (F.add (F.powTwo (F.sub lat targetLat)) (F.powTwo (F.sub lon targetLon))))

/-- One pass of the loop of `findNearestLocation` (csvDataLoader.js:72-87) on
the pair `(nearest, minDistance)`. -/
def nearestStep (F : JsFloat) (targetLat targetLon : JsNumber)
    (state : Option CsvRecord × JsNumber) (record : CsvRecord) : Option CsvRecord × JsNumber :=
  match recordDistance F targetLat targetLon record with
  | none => state
  | some distance => if distance.lt state.2 then (some record, distance) else state

/-- The method `findNearestLocation` (csvDataLoader.js:64-90); `none` is `null`,
and `minDistance` starts at `Infinity`. -/
def WeatherDataLoader.findNearestLocation (loader : WeatherDataLoader) (F : JsFloat)
    (targetLat targetLon : JsNumber) : Option CsvRecord :=
  if !loader.loaded || loader.data.length = 0 then none
  else (loader.data.foldl (nearestStep F targetLat targetLon) (none, .posInf)).1

/-! ## Order of rain intensity -/

/-- The position of a rain level in the order minimal < light < moderate < heavy. -/
def RainLevel.rank : RainLevel → Nat
  | .minimal => 0
  | .light => 1
  | .moderate => 2
  | .heavy => 3

/-! ## Sample inputs -/

/-- A `JsMath` whose functions are constantly zero, for concrete evaluations. -/
def zeroMath : JsMath := ⟨fun _ => 0, fun _ => 0, fun _ => 0⟩

/-- A daily entry at timestamp `dt` with no other property. -/
def bareDaily (dt : Int) : DailyEntry :=
  { dt := some dt, pop := none, rain := none, snow := none, temp := none, humidity := none,
    wind_speed := none, pressure := none, clouds := none, weather := none }

/-- A world in which every external call fails, for a future date in July. -/
def allFail : External :=
  { openWeather := none
    ml := .rejected
    gemini := none
    parseJSON := fun _ => none
    parseFloat := fun _ => none
    month := 7
    isHistorical := false }

/-- A current-weather body for Mumbai. -/
def mumbaiWeather : CurrentWeather :=
  { name := "Mumbai", country := "IN", description := "haze", temp := 30, humidity := 70,
    pressure := some 1008, windSpeed := some 3 }

/-- An answer of the generative model. -/
def sampleAi : AiPrediction :=
  { probability := 0.8, verdict := "Rain", confidence := "high", reasoning := "monsoon",
    temperature := 28, humidity := 85, conditions := "heavy rain" }

/-- A complete query. -/
def mumbaiQuery : Query :=
  { lat := some "19.0760", lon := some "72.8777", date := some "2030-07-15" }

/-- The values of `parseFloat` on the texts used in the sample requests. -/
def sampleParseFloat (text : String) : Option ℚ :=
  if text = "19.0760" then some 19.076
  else if text = "72.8777" then some 72.8777
  else if text = "50" then some 50
  else if text = "0" then some 0
  else none

/-- A world in which every external call fails, for a future date in July, with
`parseFloat` as on the sample texts. -/
def julyWorld : External := { allFail with parseFloat := sampleParseFloat }

/-- A world in which every external call fails, for a future date in January. -/
def januaryWorld : External := { allFail with parseFloat := sampleParseFloat, month := 1 }

/-- A cache of ML predictions holding one entry, stored at time `0`, for every key. -/
def staleMlCache : MlCache := fun _ => some { data := ⟨"stale"⟩, timestamp := 0 }

/-- A world, one hour after time `0`, in which the Python predictor answers. -/
def hourLaterWorld : MlWorld :=
  { now := 3600000, python := some ⟨"fresh"⟩, storeTime := 3600005, month := 7, random := 0.5 }

/-- A geocode cache holding one entry, stored at time `0`, for every key. -/
def staleGeocodeCache : GeocodeCache :=
  fun _ => some { data := { lat := 18.52, lon := 73.85, name := "Pune" }, timestamp := 0 }

/-- A forecast whose only daily entry falls on day `0` and has the given `pop`,
with no rain or snow volume and no hourly entry. -/
def popForecast (pop : ℚ) : WeatherData :=
  ⟨0, 0, [{ bareDaily 0 with pop := some pop }], some []⟩

/-- A forecast whose only daily entry falls on day `0` and reports a clear, calm
day: `clouds = 0` and `wind_speed = 0`. -/
def clearCalmForecast : WeatherData :=
  ⟨0, 0, [{ bareDaily 0 with clouds := some 0, wind_speed := some 0, humidity := some 45 }],
    some []⟩

/-- The weather record of the recommendations test (test-ai-recommendations.js):
probability 0.75, temperature 18, humidity 80, wind speed 5.2. -/
def testAgricultureWeather : SectorWeather :=
  { probability := 0.75, dailyTemp := some (.num 18), detailsTemperature := none,
    dailyHumidity := some 80, dailyWindSpeed := some 5.2, detailsWindSpeed := none }

/-- A loaded data set of three records, the last without a latitude. -/
def sampleLoader : WeatherDataLoader :=
  { data := [⟨some "50", some "0", some "North"⟩,
             ⟨some "19.0760", some "72.8777", some "Mumbai"⟩,
             ⟨none, some "0", some "Unknown"⟩]
    loaded := true }

/-- The least magnitude that rounds to `Infinity` in double precision
(`Number.MAX_VALUE` plus half a unit in the last place). -/
def overflowBound : ℚ := 2 ^ 1024 - 2 ^ 970

/-- The number for an exactly computed finite result: `Infinity` or `-Infinity`
when its magnitude reaches `overflowBound`. -/
def JsNumber.ofExact (q : ℚ) : JsNumber :=
  if q ≥ overflowBound then .posInf
  else if q ≤ -overflowBound then .negInf
  else .finite q

/-- The difference `a - b` with the rules for `NaN`, infinities and overflow. -/
def exactSub : JsNumber → JsNumber → JsNumber
  | .nan, _ => .nan
  | _, .nan => .nan
  | .finite a, .finite b => .ofExact (a - b)
  | .finite _, .posInf => .negInf
  | .finite _, .negInf => .posInf
  | .posInf, .posInf => .nan
  | .posInf, _ => .posInf
  | .negInf, .negInf => .nan
  | .negInf, _ => .negInf

/-- The sum `a + b` with the rules for `NaN`, infinities and overflow. -/
def exactAdd : JsNumber → JsNumber → JsNumber
  | .nan, _ => .nan
  | _, .nan => .nan
  | .finite a, .finite b => .ofExact (a + b)
  | .finite _, .posInf => .posInf
  | .finite _, .negInf => .negInf
  | .posInf, .negInf => .nan
  | .posInf, _ => .posInf
  | .negInf, .posInf => .nan
  | .negInf, _ => .negInf

/-- The square `Math.pow(a, 2)` with the rules for `NaN`, infinities and
overflow. -/
def exactPowTwo : JsNumber → JsNumber
  | .nan => .nan
  | .finite a => .ofExact (a ^ 2)
  | .posInf => .posInf
  | .negInf => .posInf

/-- The root `Math.sqrt(a)`: `NaN` below zero, and on a finite value the rational
root `Rat.sqrt`, which is the exact root of a square of a rational. -/
def exactSqrt : JsNumber → JsNumber
  | .nan => .nan
  | .finite a => if a < 0 then .nan else .finite (Rat.sqrt a)
  | .posInf => .posInf
  | .negInf => .nan

/-- An arithmetic for concrete evaluations: results are computed exactly and
overflow to an infinity as doubles do; `parseFloat` is given on the sample texts
and on `"1e200"`. -/
def sampleFloat : JsFloat :=
  { parseFloat := fun text =>
      if text = "1e200" then .finite (10 ^ 200)
      else
        match sampleParseFloat text with
        | some q => .finite q
        | none => .nan
    sub := exactSub
    add := exactAdd
    powTwo := exactPowTwo
    sqrt := exactSqrt }

/-! ## Theorems: rainLogic.js -/

theorem orNum_zero_bounds (x : Option ℚ) (h : ∀ q, x = some q → 0 ≤ q ∧ q ≤ 1) :
    0 ≤ orNum x 0 ∧ orNum x 0 ≤ 1 := by
  cases x with
  | none => simp [orNum]
  | some v =>
    have hv := h v rfl
    simp only [orNum]
    split_ifs <;> simp [hv.1, hv.2]

theorem foldl_pop_eq (l : List HourlyOut) (acc : ℚ) :
    l.foldl (fun sum h => sum + h.pop) acc = acc + (l.map (fun h => h.pop)).sum := by
  induction l generalizing acc with
  | nil => simp
  | cons a t ih => simp [ih, add_assoc]

theorem sum_bounds (l : List ℚ) (h : ∀ q ∈ l, 0 ≤ q ∧ q ≤ 1) :
    0 ≤ l.sum ∧ l.sum ≤ l.length := by
  induction l with
  | nil => simp
  | cons a t ih =>
    have ha := h a (by simp)
    have ht := ih (fun q hq => h q (by simp [hq]))
    simp only [List.sum_cons, List.length_cons, Nat.cast_add, Nat.cast_one]
    constructor <;> linarith [ha.1, ha.2, ht.1, ht.2]

theorem combinedPop_bounds (pop : ℚ) (hourly : List HourlyOut)
    (hp : 0 ≤ pop ∧ pop ≤ 1) (hh : ∀ h ∈ hourly, 0 ≤ h.pop ∧ h.pop ≤ 1) :
    0 ≤ combinedPop pop hourly ∧ combinedPop pop hourly ≤ 1 := by
  unfold combinedPop
  refine ⟨le_max_of_le_left hp.1, max_le hp.2 ?_⟩
  split_ifs with hlen
  · rw [foldl_pop_eq, zero_add]
    have hs := sum_bounds (hourly.map (fun h => h.pop)) (by
      intro q hq
      obtain ⟨h, hmem, rfl⟩ := List.mem_map.1 hq
      exact hh h hmem)
    have hpos : (0 : ℚ) < (hourly.length : ℚ) := by exact_mod_cast hlen
    rw [div_le_one hpos]
    simpa using hs.2
  · exact hp.2

theorem toISOString_error (dt : Option Int) (err : String)
    (h : toISOString dt = .error err) : err = "RangeError" := by
  unfold toISOString at h
  split at h
  · cases h
    rfl
  · split_ifs at h
    cases h
    rfl

theorem forecastDate_error (dt : Option Int) (err : String)
    (h : forecastDate dt = .error err) : err = "RangeError" := by
  unfold forecastDate at h
  split at h
  · next e he =>
    cases h
    exact toISOString_error dt _ he
  · cases h

theorem findForecast_match (targetDate : TargetDate) (before : List DailyEntry)
    (e : DailyEntry) (after : List DailyEntry)
    (hbefore : ∀ d ∈ before, ∃ date, forecastDate d.dt = .ok date ∧ date ≠ targetDate.day)
    (he : forecastDate e.dt = .ok targetDate.day) :
    findForecast targetDate (before ++ e :: after) = .ok (some e) := by
  induction before with
  | nil => simp [findForecast, he]
  | cons x t ih =>
    obtain ⟨date, hx, hne⟩ := hbefore x (by simp)
    have ht := ih (fun d hd => hbefore d (by simp [hd]))
    simp [findForecast, hx, hne, ht]

theorem findForecast_none (targetDate : TargetDate) (l : List DailyEntry)
    (h : ∀ d ∈ l, ∃ date, forecastDate d.dt = .ok date ∧ date ≠ targetDate.day) :
    findForecast targetDate l = .ok none := by
  induction l with
  | nil => rfl
  | cons x t ih =>
    obtain ⟨date, hx, hne⟩ := h x (by simp)
    have ht := ih (fun d hd => h d (by simp [hd]))
    simp [findForecast, hx, hne, ht]

theorem findForecast_error (targetDate : TargetDate) (before : List DailyEntry)
    (e : DailyEntry) (after : List DailyEntry) (err : String)
    (hbefore : ∀ d ∈ before, ∃ date, forecastDate d.dt = .ok date ∧ date ≠ targetDate.day)
    (he : forecastDate e.dt = .error err) :
    findForecast targetDate (before ++ e :: after) = .error err := by
  induction before with
  | nil => simp [findForecast, he]
  | cons x t ih =>
    obtain ⟨date, hx, hne⟩ := hbefore x (by simp)
    have ht := ih (fun d hd => hbefore d (by simp [hd]))
    simp [findForecast, hx, hne, ht]

theorem findForecast_some (targetDate : TargetDate) (l : List DailyEntry) (e : DailyEntry)
    (h : findForecast targetDate l = .ok (some e)) :
    ∃ before after, l = before ++ e :: after ∧
      (∀ d ∈ before, ∃ date, forecastDate d.dt = .ok date ∧ date ≠ targetDate.day) ∧
      forecastDate e.dt = .ok targetDate.day := by
  induction l with
  | nil => simp [findForecast] at h
  | cons x t ih =>
    unfold findForecast at h
    cases hx : forecastDate x.dt with
    | error err => simp [hx] at h
    | ok date =>
      simp only [hx] at h
      by_cases hd : date = targetDate.day
      · simp only [hd, if_true, Except.ok.injEq, Option.some.injEq] at h
        subst h
        refine ⟨[], t, rfl, ?_, by rw [hx, hd]⟩
        intro d hmem
        cases hmem
      · simp only [hd, if_false] at h
        obtain ⟨before, after, hsplit, hb, he⟩ := ih h
        refine ⟨x :: before, after, by rw [hsplit]; rfl, ?_, he⟩
        intro d hmem
        rcases List.mem_cons.1 hmem with hmem | hmem
        · subst hmem
          exact ⟨date, hx, hd⟩
        · exact hb d hmem

theorem hourlyOut_pop (hour : HourlyEntry) (out : HourlyOut) (h : hourlyOut hour = .ok out) :
    out.pop = orNum hour.pop 0 := by
  unfold hourlyOut at h
  cases ht : toISOString hour.dt with
  | error err => simp [ht] at h
  | ok time =>
    cases hw : hour.weather with
    | none => simp [ht, hw] at h
    | some weather =>
      simp only [ht, hw, Except.ok.injEq] at h
      rw [← h]

theorem hourlyOut_ok (hour : HourlyEntry)
    (h : (∃ s, toISOString hour.dt = .ok s) ∧ hour.weather ≠ none) :
    ∃ out, hourlyOut hour = .ok out := by
  obtain ⟨⟨s, hs⟩, hw⟩ := h
  cases hweather : hour.weather with
  | none => exact absurd hweather hw
  | some weather =>
    simp only [hourlyOut, hs, hweather]
    exact ⟨_, rfl⟩

theorem hourlyOut_error (hour : HourlyEntry)
    (h : (∀ s, toISOString hour.dt ≠ .ok s) ∨ hour.weather = none) :
    ∃ err, hourlyOut hour = .error err := by
  cases ht : toISOString hour.dt with
  | error err => exact ⟨err, by simp only [hourlyOut, ht]⟩
  | ok time =>
    rcases h with h | h
    · exact absurd ht (h time)
    · exact ⟨"TypeError", by simp only [hourlyOut, ht, h]⟩

theorem mapHourly_mem (l : List HourlyEntry) (outs : List HourlyOut)
    (h : mapHourly l = .ok outs) : ∀ o ∈ outs, ∃ hour ∈ l, hourlyOut hour = .ok o := by
  induction l generalizing outs with
  | nil =>
    simp only [mapHourly, Except.ok.injEq] at h
    subst h
    intro o ho
    cases ho
  | cons x t ih =>
    unfold mapHourly at h
    cases hx : hourlyOut x with
    | error err => simp [hx] at h
    | ok out =>
      cases ht : mapHourly t with
      | error err => simp [hx, ht] at h
      | ok rest =>
        simp only [hx, ht, Except.ok.injEq] at h
        subst h
        intro o ho
        rcases List.mem_cons.1 ho with ho | ho
        · subst ho
          exact ⟨x, by simp, hx⟩
        · obtain ⟨hour, hmem, hhour⟩ := ih rest ht o ho
          exact ⟨hour, by simp [hmem], hhour⟩

theorem mapHourly_ok (l : List HourlyEntry)
    (h : ∀ hour ∈ l, (∃ s, toISOString hour.dt = .ok s) ∧ hour.weather ≠ none) :
    ∃ outs, mapHourly l = .ok outs ∧ outs.length = l.length := by
  induction l with
  | nil => exact ⟨[], rfl, rfl⟩
  | cons x t ih =>
    obtain ⟨out, hx⟩ := hourlyOut_ok x (h x (by simp))
    obtain ⟨rest, ht, hlen⟩ := ih (fun hour hm => h hour (by simp [hm]))
    exact ⟨out :: rest, by simp only [mapHourly, hx, ht], by simp [hlen]⟩

theorem hourlyOut_error_kind (hour : HourlyEntry) (err : String)
    (h : hourlyOut hour = .error err) : err = "RangeError" ∨ err = "TypeError" := by
  unfold hourlyOut at h
  cases ht : toISOString hour.dt with
  | error e =>
    simp only [ht, Except.error.injEq] at h
    subst h
    exact Or.inl (toISOString_error hour.dt e ht)
  | ok time =>
    cases hw : hour.weather with
    | none =>
      simp only [ht, hw, Except.error.injEq] at h
      exact Or.inr h.symm
    | some weather => simp [ht, hw] at h

theorem mapHourly_error (l : List HourlyEntry)
    (h : ∃ hour ∈ l, (∀ s, toISOString hour.dt ≠ .ok s) ∨ hour.weather = none) :
    ∃ err, mapHourly l = .error err ∧ (err = "RangeError" ∨ err = "TypeError") := by
  induction l with
  | nil =>
    obtain ⟨hour, hm, _⟩ := h
    cases hm
  | cons x t ih =>
    cases hx : hourlyOut x with
    | error err => exact ⟨err, by simp only [mapHourly, hx], hourlyOut_error_kind x err hx⟩
    | ok out =>
      obtain ⟨hour, hm, hbad⟩ := h
      rcases List.mem_cons.1 hm with hm | hm
      · subst hm
        obtain ⟨err, herr⟩ := hourlyOut_error hour hbad
        rw [hx] at herr
        cases herr
      · obtain ⟨err, herr, hkind⟩ := ih ⟨hour, hm, hbad⟩
        exact ⟨err, by simp only [mapHourly, hx, herr], hkind⟩

theorem hourlyForDate_pop_bounds (weatherData : WeatherData) (targetDate : TargetDate)
    (hourly : List HourlyOut) (hhourly : hourlyForDate weatherData targetDate = .ok hourly)
    (hh : ∀ hs, weatherData.hourly = some hs →
      ∀ h ∈ hs, ∀ q, h.pop = some q → 0 ≤ q ∧ q ≤ 1) :
    ∀ o ∈ hourly, 0 ≤ o.pop ∧ o.pop ≤ 1 := by
  intro o ho
  unfold hourlyForDate at hhourly
  cases hs : weatherData.hourly with
  | none => simp [hs] at hhourly
  | some l =>
    simp only [hs] at hhourly
    obtain ⟨hour, hmem, hout⟩ := mapHourly_mem _ _ hhourly o ho
    rw [hourlyOut_pop hour o hout]
    exact orNum_zero_bounds hour.pop (hh l hs hour (List.mem_filter.1 hmem).1)

theorem determineRainVerdict_of_match (M : JsMath) (weatherData : WeatherData)
    (targetDate : TargetDate) (daysAhead : Int) (e : DailyEntry) (hourly : List HourlyOut)
    (hfind : findTargetForecast weatherData targetDate = .ok (some e))
    (hhourly : hourlyForDate weatherData targetDate = .ok hourly) :
    ∃ r, determineRainVerdict M weatherData targetDate daysAhead = .ok r ∧
      r.source = ["openweathermap"] ∧
      r.probability = combinedPop (orNum e.pop 0) hourly ∧
      (r.verdict, r.confidence)
        = verdictAndConfidence (combinedPop (orNum e.pop 0) hourly) (totalPrecip e) ∧
      r.daily.temp = e.temp.getD { day := 20, morn := 15, eve := 18, night := 12 } ∧
      r.daily.humidity = orNum (some (orNum e.humidity 60)) 60 ∧
      r.daily.wind_speed = orNum (some (orNum e.wind_speed 5)) 5 ∧
      r.daily.pressure = orNum (some (orNum e.pressure 1013)) 1013 ∧
      r.daily.clouds = orNum (some (orNum e.clouds 30)) 30 ∧
      r.hourly = hourly := by
  simp only [determineRainVerdict, hfind, hhourly]
  exact ⟨_, rfl, rfl, rfl, rfl, rfl, rfl, rfl, rfl, rfl, rfl⟩

theorem determineRainVerdict_of_hourly_error (M : JsMath) (weatherData : WeatherData)
    (targetDate : TargetDate) (daysAhead : Int) (e : DailyEntry) (err : String)
    (hfind : findTargetForecast weatherData targetDate = .ok (some e))
    (hhourly : hourlyForDate weatherData targetDate = .error err) :
    determineRainVerdict M weatherData targetDate daysAhead = .error err := by
  simp only [determineRainVerdict, hfind, hhourly]

theorem bareDaily_found (pop clouds wind_speed humidity : Option ℚ)
    (hourly : Option (List HourlyEntry)) :
    findTargetForecast
      ⟨0, 0, [{ bareDaily 0 with
        pop := pop, clouds := clouds, wind_speed := wind_speed, humidity := humidity }], hourly⟩
      ⟨0, 1⟩
      = .ok (some { bareDaily 0 with
        pop := pop, clouds := clouds, wind_speed := wind_speed, humidity := humidity }) := by
  simp [findTargetForecast, findForecast, forecastDate, toISOString, bareDaily, maxTimeValue]

/-- C1: for a matched forecast entry, with `p` the combined probability and `d`
the total precipitation, `determineRainVerdict` returns a record whose verdict
and confidence are Rain/high if `p ≥ 0.7` or `d > 2`; otherwise Rain/medium if
`p ≥ 0.4` or `d > 0.5`; otherwise Uncertain/medium if `p ≥ 0.2` or `d > 0.1`;
otherwise No rain, with confidence high if `p < 0.1` and medium if `p ≥ 0.1`. -/
theorem determineRainVerdict_verdict_rule (M : JsMath) (weatherData : WeatherData)
    (targetDate : TargetDate) (daysAhead : Int) (e : DailyEntry) (hourly : List HourlyOut)
    (hfind : findTargetForecast weatherData targetDate = .ok (some e))
    (hhourly : hourlyForDate weatherData targetDate = .ok hourly) :
    ∃ r, determineRainVerdict M weatherData targetDate daysAhead = .ok r ∧
      (let p := combinedPop (orNum e.pop 0) hourly
      let d := totalPrecip e
      r.probability = p ∧
      ((p ≥ 0.7 ∨ d > 2) → r.verdict = "Rain" ∧ r.confidence = "high") ∧
      (¬ (p ≥ 0.7 ∨ d > 2) → (p ≥ 0.4 ∨ d > 0.5) →
        r.verdict = "Rain" ∧ r.confidence = "medium") ∧
      (¬ (p ≥ 0.7 ∨ d > 2) → ¬ (p ≥ 0.4 ∨ d > 0.5) → (p ≥ 0.2 ∨ d > 0.1) →
        r.verdict = "Uncertain" ∧ r.confidence = "medium") ∧
      (¬ (p ≥ 0.7 ∨ d > 2) → ¬ (p ≥ 0.4 ∨ d > 0.5) → ¬ (p ≥ 0.2 ∨ d > 0.1) →
        r.verdict = "No rain" ∧ (p < 0.1 → r.confidence = "high") ∧
          (p ≥ 0.1 → r.confidence = "medium"))) := by
  obtain ⟨r, hr, _, hp, hvc, _⟩ :=
    determineRainVerdict_of_match M weatherData targetDate daysAhead e hourly hfind hhourly
  refine ⟨r, hr, ?_⟩
  intro p d
  have hv : r.verdict = (verdictAndConfidence p d).1 := congrArg Prod.fst hvc
  have hc : r.confidence = (verdictAndConfidence p d).2 := congrArg Prod.snd hvc
  refine ⟨hp, ?_, ?_, ?_, ?_⟩
  · intro h1
    simp [hv, hc, verdictAndConfidence, h1]
  · intro h1 h2
    simp [hv, hc, verdictAndConfidence, h1, h2]
  · intro h1 h2 h3
    simp [hv, hc, verdictAndConfidence, h1, h2, h3]
  · intro h1 h2 h3
    refine ⟨by simp [hv, verdictAndConfidence, h1, h2, h3], ?_, ?_⟩
    · intro h4
      simp [hc, verdictAndConfidence, h1, h2, h3, h4]
    · intro h4
      have h5 : ¬ p < 0.1 := not_lt.2 h4
      simp [hc, verdictAndConfidence, h1, h2, h3, h5]

/-- Witness for C1: a forecast whose only daily entry falls on the target day,
with an empty hourly list. -/
theorem determineRainVerdict_verdict_rule_witness :
    ∃ r, determineRainVerdict zeroMath ⟨0, 0, [bareDaily 0], some []⟩ ⟨0, 1⟩ 0 = .ok r ∧
      r.verdict = "No rain" := by
  obtain ⟨r, hr, h⟩ := determineRainVerdict_verdict_rule zeroMath
    ⟨0, 0, [bareDaily 0], some []⟩ ⟨0, 1⟩ 0 (bareDaily 0) []
    (bareDaily_found none none none none (some [])) rfl
  refine ⟨r, hr, (h.2.2.2.2 ?_ ?_ ?_).1⟩ <;>
    norm_num [combinedPop, totalPrecip, volumeOf, orNum, bareDaily]

/-- C2 (as stated, refuted): a matched daily entry without `pop` and no hourly
entry on the target day gives a record of probability `0`, outside
`[0.05, 0.95]`. -/
theorem determineRainVerdict_probability_not_clamped :
    findTargetForecast ⟨0, 0, [bareDaily 0], some []⟩ ⟨0, 1⟩ = .ok (some (bareDaily 0)) ∧
    ∃ r, determineRainVerdict zeroMath ⟨0, 0, [bareDaily 0], some []⟩ ⟨0, 1⟩ 0 = .ok r ∧
      r.probability = 0 ∧ ¬ (0.05 ≤ r.probability ∧ r.probability ≤ 0.95) := by
  have hfind := bareDaily_found none none none none (some [])
  obtain ⟨r, hr, _, hp, _⟩ := determineRainVerdict_of_match zeroMath
    ⟨0, 0, [bareDaily 0], some []⟩ ⟨0, 1⟩ 0 (bareDaily 0) [] hfind rfl
  have h0 : r.probability = 0 := by
    rw [hp]
    norm_num [combinedPop, orNum, bareDaily]
  refine ⟨hfind, r, hr, h0, ?_⟩
  rw [h0]
  norm_num

/-- C2 (amended): for a matched daily entry the probability field of the
returned record is the combined probability, the larger of the entry's `pop`
(counted `0` when absent) and the mean of the hourly `pop` values of the target
day; no clamp is applied, and the field lies in `[0, 1]` whenever every `pop` of
the provider lies in `[0, 1]`. -/
theorem determineRainVerdict_probability_unit_interval (M : JsMath)
    (weatherData : WeatherData) (targetDate : TargetDate) (daysAhead : Int) (e : DailyEntry)
    (hourly : List HourlyOut)
    (hfind : findTargetForecast weatherData targetDate = .ok (some e))
    (hhourly : hourlyForDate weatherData targetDate = .ok hourly)
    (hpop : ∀ q, e.pop = some q → 0 ≤ q ∧ q ≤ 1)
    (hpops : ∀ hs, weatherData.hourly = some hs →
      ∀ h ∈ hs, ∀ q, h.pop = some q → 0 ≤ q ∧ q ≤ 1) :
    ∃ r, determineRainVerdict M weatherData targetDate daysAhead = .ok r ∧
      r.probability = combinedPop (orNum e.pop 0) hourly ∧
      0 ≤ r.probability ∧ r.probability ≤ 1 := by
  obtain ⟨r, hr, _, hp, _⟩ :=
    determineRainVerdict_of_match M weatherData targetDate daysAhead e hourly hfind hhourly
  refine ⟨r, hr, hp, ?_⟩
  rw [hp]
  exact combinedPop_bounds _ _ (orNum_zero_bounds e.pop hpop)
    (hourlyForDate_pop_bounds weatherData targetDate hourly hhourly hpops)

/-- Witness for C2: a daily entry with `pop = 1/2` and one hourly entry with
`pop = 1` on the target day. -/
theorem determineRainVerdict_probability_unit_interval_witness :
    ∃ r, determineRainVerdict zeroMath
        ⟨0, 0, [{ bareDaily 0 with pop := some (1 / 2) }],
          some [⟨some 3600, some 1, none, none, none, none, some []⟩]⟩ ⟨0, 1⟩ 0 = .ok r ∧
      r.probability = 1 ∧ 0 ≤ r.probability ∧ r.probability ≤ 1 := by
  obtain ⟨r, hr, hp, h0, h1⟩ := determineRainVerdict_probability_unit_interval zeroMath
    ⟨0, 0, [{ bareDaily 0 with pop := some (1 / 2) }],
      some [⟨some 3600, some 1, none, none, none, none, some []⟩]⟩ ⟨0, 1⟩ 0
    { bareDaily 0 with pop := some (1 / 2) }
    [⟨3600, 1, 0, none, none, none⟩]
    (by simp [findTargetForecast, findForecast, forecastDate, toISOString, bareDaily,
      maxTimeValue])
    (by
      simp [hourlyForDate, mapHourly, hourlyOut, inTargetDay, targetDateStart, toISOString,
        maxTimeValue, orNum, volumeOf])
    (by intro q hq; simp only [Option.some.injEq] at hq; subst hq; norm_num)
    (by
      intro hs hhs h hh q hq
      simp only [Option.some.injEq] at hhs
      subst hhs
      simp only [List.mem_singleton] at hh
      subst hh
      simp only [Option.some.injEq] at hq
      subst hq
      norm_num)
  refine ⟨r, hr, ?_, h0, h1⟩
  rw [hp]
  norm_num [combinedPop, orNum]

theorem simpleProbability_ge (lat lon : ℚ) (month : Nat) :
    0.25 ≤ simpleProbability lat lon month := by
  unfold simpleProbability
  simp only []
  split_ifs <;> norm_num [le_max_iff, le_min_iff]

/-- C10 (as stated, refuted): for latitude 50, longitude 0 and a July date the
simple prediction has probability `0.4` and answers Uncertain/low, where the
canonical rule at depth `0` gives Rain/medium. -/
theorem generateSimplePrediction_not_canonical :
    ((generateSimplePrediction zeroMath 50 0 ⟨0, 7⟩ 0).verdict,
      (generateSimplePrediction zeroMath 50 0 ⟨0, 7⟩ 0).confidence)
      ≠ canonicalVerdict (generateSimplePrediction zeroMath 50 0 ⟨0, 7⟩ 0).probability 0 := by
  have hp : simpleProbability 50 0 7 = 0.4 := by
    norm_num [simpleProbability, abs_of_nonneg, max_def, min_def]
  simp only [generateSimplePrediction, hp, canonicalVerdict]
  norm_num
  intro h
  exact absurd h (by decide)

/-- C10 (amended): the verdict and confidence of `generateSimplePrediction` follow
its own thresholds on the probability `p` it returns: Rain/medium at `p ≥ 0.6`,
Uncertain/low at `0.35 ≤ p < 0.6`, otherwise No rain/medium; they coincide with
the canonical rule at depth `0` exactly when `0.6 ≤ p < 0.7`. -/
theorem generateSimplePrediction_own_thresholds (M : JsMath) (lat lon : ℚ)
    (targetDate : TargetDate) (daysAhead : Int) :
    let r := generateSimplePrediction M lat lon targetDate daysAhead
    let p := r.probability
    p = simpleProbability lat lon targetDate.month ∧
    (p ≥ 0.6 → r.verdict = "Rain" ∧ r.confidence = "medium") ∧
    (p < 0.6 → p ≥ 0.35 → r.verdict = "Uncertain" ∧ r.confidence = "low") ∧
    (p < 0.35 → r.verdict = "No rain" ∧ r.confidence = "medium") ∧
    ((r.verdict, r.confidence) = canonicalVerdict p 0 ↔ (0.6 ≤ p ∧ p < 0.7)) := by
  intro r p
  have hge := simpleProbability_ge lat lon targetDate.month
  have hp : p = simpleProbability lat lon targetDate.month := rfl
  have hv : (r.verdict, r.confidence) =
      (if p ≥ 0.6 then ("Rain", "medium")
        else if p ≥ 0.35 then ("Uncertain", "low") else ("No rain", "medium")) := rfl
  rw [← hp] at hge
  have hv1 := congrArg Prod.fst hv
  have hv2 := congrArg Prod.snd hv
  simp only [] at hv1 hv2
  refine ⟨hp, ?_, ?_, ?_, ?_⟩
  · intro h
    rw [hv1, hv2]
    simp [h]
  · intro h1 h2
    rw [hv1, hv2]
    simp [not_le.2 h1, h2]
  · intro h1
    have h2 : ¬ p ≥ 0.6 := not_le.2 (lt_trans h1 (by norm_num))
    rw [hv1, hv2]
    simp [h2, not_le.2 h1]
  · rw [hv]
    unfold canonicalVerdict
    constructor
    · intro h
      by_contra hcon
      split_ifs at h <;> simp_all
      linarith
    · rintro ⟨h1, h2⟩
      have h3 : ¬ (p ≥ 0.7 ∨ (0 : ℚ) > 2) := by
        rintro (h | h)
        · exact absurd h (not_le.2 h2)
        · norm_num at h
      have h4 : p ≥ 0.4 ∨ (0 : ℚ) > 0.5 := Or.inl (le_trans (by norm_num) h1)
      simp [h1, h3, h4]

/-! ## Theorems: historicalData.js -/

theorem zoneMonthly_length (z : ClimateZone) : (zoneMonthly z).length = 12 := by
  cases z <;> rfl

theorem zoneAvgTemp_length (z : ClimateZone) : (zoneAvgTemp z).length = 12 := by
  cases z <;> rfl

theorem monthEntry_defined (table : List ℚ) (month : Nat) (hlen : table.length = 12)
    (h1 : 1 ≤ month) (h12 : month ≤ 12) : ∃ v, monthEntry table month = some v := by
  have hne : month ≠ 0 := by omega
  have hlt : month - 1 < table.length := by omega
  exact ⟨table[month - 1], by simp [monthEntry, hne, List.getElem?_eq_getElem hlt]⟩

theorem shifted_defined (table : List ℚ) (month : Nat) (hlen : table.length = 12) :
    ∃ v, table[(month + 5) % 12]? = some v := by
  have hlt : (month + 5) % 12 < table.length := by
    rw [hlen]
    exact Nat.mod_lt _ (by norm_num)
  exact ⟨table[(month + 5) % 12], List.getElem?_eq_getElem hlt⟩

/-- C3: for every latitude and longitude (in particular those in `[-90, 90]` and
`[-180, 180]`) and every valid date (month 1..12), `predictFromHistoricalData`
returns a record whose `rainProbability` lies in `[0.05, 0.85]` and whose
confidence is one of low, medium, high, whatever `Math.sin`, `Math.cos` and the
other adjustments evaluate to. -/
theorem predictFromHistoricalData_bounds (M : JsMath) (pi lat lon : ℚ) (month : Nat)
    (dayOfYear : Int) (random : ℚ) (h1 : 1 ≤ month) (h12 : month ≤ 12) :
    ∃ r, predictFromHistoricalData M pi lat lon month dayOfYear random = some r ∧
      0.05 ≤ r.rainProbability ∧ r.rainProbability ≤ 0.85 ∧
      (r.confidence = "low" ∨ r.confidence = "medium" ∨ r.confidence = "high") := by
  obtain ⟨b, hb⟩ := monthEntry_defined (zoneMonthly (getClimateZone lat)) month
    (zoneMonthly_length _) h1 h12
  obtain ⟨t, ht⟩ := monthEntry_defined (zoneAvgTemp (getClimateZone lat)) month
    (zoneAvgTemp_length _) h1 h12
  obtain ⟨t2, ht2⟩ := shifted_defined (zoneAvgTemp (getClimateZone lat)) month
    (zoneAvgTemp_length _)
  by_cases hlat : lat < 0
  · refine ⟨_, by simp only [predictFromHistoricalData, hb, ht, ht2, hlat, if_true,
      Option.bind_eq_bind, Option.some_bind, Option.pure_def]; rfl, ?_, ?_, ?_⟩
    · exact le_max_left _ _
    · exact max_le (by norm_num) (min_le_left _ _)
    · simp only []
      split_ifs <;> simp
  · refine ⟨_, by simp only [predictFromHistoricalData, hb, ht, hlat, if_false,
      Option.bind_eq_bind, Option.some_bind, Option.pure_def]; rfl, ?_, ?_, ?_⟩
    · exact le_max_left _ _
    · exact max_le (by norm_num) (min_le_left _ _)
    · simp only []
      split_ifs <;> simp

/-- Witness for C3: latitude 19.076, longitude 72.8777, a July date. -/
theorem predictFromHistoricalData_bounds_witness :
    ∃ r, predictFromHistoricalData zeroMath 3 19.076 72.8777 7 190 0.5 = some r ∧
      0.05 ≤ r.rainProbability ∧ r.rainProbability ≤ 0.85 ∧
      (r.confidence = "low" ∨ r.confidence = "medium" ∨ r.confidence = "high") :=
  predictFromHistoricalData_bounds zeroMath 3 19.076 72.8777 7 190 0.5 (by decide) (by decide)

/-! ## Theorems: mlModel.js -/

/-- C4: for every feature vector and every weight setting, `predict` returns
`probability = min(0.95, max(0.05, 1 / (1 + exp(-score))))`, a value in
`[0.05, 0.95]`. -/
theorem predict_probability_clamped (M : JsMath) (m : WeatherMLModel) (features : Features) :
    (m.predict M features).score = m.score features ∧
    (m.predict M features).probability
      = min 0.95 (max 0.05 (1 / (1 + M.exp (-(m.predict M features).score)))) ∧
    0.05 ≤ (m.predict M features).probability ∧
    (m.predict M features).probability ≤ 0.95 := by
  have hs : (m.predict M features).score = m.score features := rfl
  have hp : (m.predict M features).probability
      = max 0.05 (min 0.95 (1 / (1 + M.exp (-(m.score features))))) := rfl
  refine ⟨hs, ?_, ?_, ?_⟩
  · rw [hp, hs]
    exact max_min_distrib_left _ _ _ |>.trans (by
      rw [max_eq_right (show (0.05 : ℚ) ≤ 0.95 by norm_num)])
  · rw [hp]
    exact le_max_left _ _
  · rw [hp]
    exact max_le (by norm_num) (min_le_left _ _)

/-! ## Theorems: weatherController.js -/

theorem getWeatherPrediction_of_complete (ext : External) (query : Query)
    (hq : (isMissing query.lat || isMissing query.lon || isMissing query.date) = false) :
    getWeatherPrediction ext query =
      match ext.ml with
      | .ok data => ([.openWeather, .mlPredict], .json data)
      | _ =>
        match aiAnswer ext with
        | some aiPrediction =>
          ([.openWeather, .mlPredict, .gemini],
            .json (aiRecord ext (query.lat.getD "") (query.lon.getD "") (query.date.getD "")
              aiPrediction))
        | none =>
          ([.openWeather, .mlPredict, .gemini],
            .json (climateFallback ext (query.lat.getD "") (query.lon.getD "")
              (query.date.getD ""))) := by
  unfold getWeatherPrediction
  rw [if_neg (by simp [hq])]

/-- C5 (as stated, refuted): the ML predictor fails, the live call succeeds, the
generative tier fails, the date is in the future: the returned source is
`["climate_forecast"]`, not the live forecast's tag. -/
theorem getWeatherPrediction_live_success_not_source :
    (getWeatherPrediction { allFail with openWeather := some mumbaiWeather } mumbaiQuery).2.source
      = some ["climate_forecast"] ∧
    (getWeatherPrediction { allFail with openWeather := some mumbaiWeather } mumbaiQuery).2.source
      ≠ some ["openweathermap"] := by
  have h : (getWeatherPrediction { allFail with openWeather := some mumbaiWeather }
      mumbaiQuery).2.source = some ["climate_forecast"] := by
    rw [getWeatherPrediction_of_complete _ _ (by simp [isMissing, mumbaiQuery])]
    simp [allFail, aiAnswer, Response.source, climateFallback]
  rw [h]
  exact ⟨rfl, by decide⟩

/-- C5 (amended): for a complete request the live call never ends the cascade;
the record is that of the first tier that succeeded in the order ML predictor,
generative model, climate fallback. The ML body is returned as it is; otherwise
a parsed generative answer gives the source `["historical_analysis",
"gemini_ai"]` for a past date and `["gemini_ai", "openweathermap"]` for a future
date with a successful live call; otherwise the climate fallback tags
`["historical_analysis"]` or `["climate_forecast"]`. When the ML predictor fails
the source is never `["openweathermap"]`. -/
theorem getWeatherPrediction_cascade (ext : External) (query : Query)
    (hq : (isMissing query.lat || isMissing query.lon || isMissing query.date) = false) :
    (∀ data, ext.ml = .ok data → (getWeatherPrediction ext query).2 = .json data) ∧
    ((∀ data, ext.ml ≠ .ok data) → ∀ ai, aiAnswer ext = some ai →
      (getWeatherPrediction ext query).2
        = .json (aiRecord ext (query.lat.getD "") (query.lon.getD "") (query.date.getD "") ai) ∧
      (ext.isHistorical = true → (getWeatherPrediction ext query).2.source
        = some ["historical_analysis", "gemini_ai"]) ∧
      (ext.isHistorical = false → ext.openWeather.isSome = true →
        (getWeatherPrediction ext query).2.source = some ["gemini_ai", "openweathermap"])) ∧
    ((∀ data, ext.ml ≠ .ok data) → aiAnswer ext = none →
      (getWeatherPrediction ext query).2
        = .json (climateFallback ext (query.lat.getD "") (query.lon.getD "")
            (query.date.getD "")) ∧
      (getWeatherPrediction ext query).2.source
        = some (if ext.isHistorical then ["historical_analysis"] else ["climate_forecast"])) ∧
    ((∀ data, ext.ml ≠ .ok data) →
      (getWeatherPrediction ext query).2.source ≠ some ["openweathermap"]) := by
  rw [getWeatherPrediction_of_complete ext query hq]
  refine ⟨?_, ?_, ?_, ?_⟩
  · intro data h
    simp [h]
  · intro hml ai hai
    cases hm : ext.ml with
    | ok data => exact absurd hm (hml data)
    | rejected | noData | withError =>
      exact ⟨by simp [hai], fun hh => by simp [hai, Response.source, aiRecord, hh],
        fun hh _ => by simp [hai, Response.source, aiRecord, hh]⟩
  · intro hml hai
    cases hm : ext.ml with
    | ok data => exact absurd hm (hml data)
    | rejected | noData | withError =>
      exact ⟨by simp [hai], by simp [hai, Response.source, climateFallback]⟩
  · intro hml
    cases hm : ext.ml with
    | ok data => exact absurd hm (hml data)
    | rejected | noData | withError =>
      cases hai : aiAnswer ext with
      | none =>
        cases hh : ext.isHistorical <;> simp [Response.source, climateFallback, hh]
      | some ai =>
        cases hh : ext.isHistorical <;> simp [Response.source, aiRecord, hh]

/-- Witness for C5: the ML predictor fails, the live call succeeds and the other
tiers fail, for a complete query. -/
theorem getWeatherPrediction_cascade_witness :
    (getWeatherPrediction { allFail with openWeather := some mumbaiWeather } mumbaiQuery).2.source
      ≠ some ["openweathermap"] :=
  (getWeatherPrediction_cascade { allFail with openWeather := some mumbaiWeather } mumbaiQuery
    (by simp [isMissing, mumbaiQuery])).2.2.2 (by intro data; simp [allFail])

/-- C6 (failing input): the live call and the ML predictor fail, the generative
model answers with an object, the date is in the future: the source list of the
record contains `"openweathermap"`. -/
theorem getWeatherPrediction_tags_failed_live_call :
    ({ allFail with gemini := some "\x7b\"probability\": 0.8\x7d",
                    parseJSON := fun _ => some sampleAi } : External).openWeather = none ∧
    (getWeatherPrediction
      { allFail with gemini := some "\x7b\"probability\": 0.8\x7d",
                     parseJSON := fun _ => some sampleAi } mumbaiQuery).2.source
      = some ["gemini_ai", "openweathermap"] := by
  refine ⟨rfl, ?_⟩
  rw [getWeatherPrediction_of_complete _ _ (by simp [isMissing, mumbaiQuery])]
  have ha : aiAnswer { allFail with gemini := some "\x7b\"probability\": 0.8\x7d",
                                    parseJSON := fun _ => some sampleAi } = some sampleAi := by
    have hm : jsonMatch "\x7b\"probability\": 0.8\x7d".toList
        = some "\x7b\"probability\": 0.8\x7d".toList := by decide
    simp only [aiAnswer, Option.bind_eq_bind, Option.some_bind, hm]
  rw [ha]
  simp [allFail, Response.source, aiRecord]

/-- C7 (as stated, refuted): with `lat = "abc"` (not a number) and `lon`, `date`
present, the request is not rejected: the three external calls are attempted and
a record is sent. -/
theorem getWeatherPrediction_accepts_non_numeric_lat :
    allFail.parseFloat "abc" = none ∧
    (getWeatherPrediction allFail ⟨some "abc", some "72.8777", some "2030-07-15"⟩).1
      = [.openWeather, .mlPredict, .gemini] ∧
    ∃ body, (getWeatherPrediction allFail ⟨some "abc", some "72.8777", some "2030-07-15"⟩).2
      = .json body := by
  rw [getWeatherPrediction_of_complete _ _ (by simp [isMissing])]
  simp [allFail, aiAnswer]

/-- C7 (amended): `getWeatherPrediction` answers status 400, before any external
call, exactly when `lat`, `lon` or `date` is missing (absent or empty); every
other request, a non-numeric `lat` or `lon` included, starts the cascade with
the live call and is answered with a record. -/
theorem getWeatherPrediction_rejects_missing (ext : External) (query : Query) :
    ((isMissing query.lat = true ∨ isMissing query.lon = true ∨ isMissing query.date = true) →
      getWeatherPrediction ext query
        = ([], .status400 "Missing required parameters: lat, lon, date")) ∧
    (¬ (isMissing query.lat = true ∨ isMissing query.lon = true ∨ isMissing query.date = true) →
      (getWeatherPrediction ext query).1.head? = some .openWeather ∧
      ∃ body, (getWeatherPrediction ext query).2 = .json body) := by
  constructor
  · intro h
    unfold getWeatherPrediction
    rw [if_pos (by simpa [or_assoc] using h)]
  · intro h
    rw [getWeatherPrediction_of_complete ext query (by
      simp only [not_or, Bool.not_eq_true] at h
      simp [h.1, h.2.1, h.2.2])]
    cases ext.ml <;> cases aiAnswer ext <;> simp

theorem rdropWhile_append_rtakeWhile (q : Char → Bool) (l : List Char) :
    l.rdropWhile q ++ l.rtakeWhile q = l := by
  simp only [List.rdropWhile, List.rtakeWhile, ← List.reverse_append,
    List.takeWhile_append_dropWhile, List.reverse_reverse]

theorem rdropWhile_append_of_pos (q : Char → Bool) (l post : List Char)
    (h : ∀ c ∈ post, q c = true) : (l ++ post).rdropWhile q = l.rdropWhile q := by
  simp only [List.rdropWhile, List.reverse_append]
  rw [List.dropWhile_append_of_pos (by simpa using h)]

theorem jsonMatch_prose (before text after : List Char) (hb : '{' ∉ before)
    (ha : '}' ∉ after) : jsonMatch (before ++ text ++ after) = jsonMatch text := by
  have hpre : ∀ a ∈ before, (fun c => c != '{') a = true := by
    intro a hmem
    have : a ≠ '{' := fun h0 => hb (h0 ▸ hmem)
    simpa using this
  have hpost : ∀ a ∈ after, (fun c => c != '}') a = true := by
    intro a hmem
    have : a ≠ '}' := fun h0 => ha (h0 ▸ hmem)
    simpa using this
  unfold jsonMatch
  simp only []
  rw [List.append_assoc, List.dropWhile_append_of_pos hpre, List.dropWhile_append]
  by_cases hnil : text.dropWhile (fun c => c != '{') = []
  · have h1 : List.rdropWhile (fun c => c != '}') (after.dropWhile (fun c => c != '{')) = [] := by
      rw [List.rdropWhile_eq_nil_iff]
      intro x hx
      exact hpost x ((List.dropWhile_suffix _).subset hx)
    simp [hnil, h1]
  · have hne : (text.dropWhile (fun c => c != '{')).isEmpty = false := by
      cases hd : text.dropWhile (fun c => c != '{') with
      | nil => exact absurd hd hnil
      | cons a t => rfl
    rw [hne]
    simp only [Bool.false_eq_true, if_false]
    rw [rdropWhile_append_of_pos _ _ _ hpost]

/-- C9 (as stated, refuted): the text `{a} {b}` contains the balanced substring
`{a}`, which is its first one, but the pattern matches the whole text. -/
theorem jsonMatch_not_first_balanced :
    firstBalanced ['{', 'a', '}', ' ', '{', 'b', '}'] = some ['{', 'a', '}'] ∧
    jsonMatch ['{', 'a', '}', ' ', '{', 'b', '}']
      = some ['{', 'a', '}', ' ', '{', 'b', '}'] ∧
    jsonMatch ['{', 'a', '}', ' ', '{', 'b', '}']
      ≠ firstBalanced ['{', 'a', '}', ' ', '{', 'b', '}'] := by
  decide

/-- C9 (amended): the extraction yields `m` exactly when the text is
`pre ++ m ++ post` with no `{` in `pre`, no `}` in `post`, and `m` beginning
with `{` and ending with `}`: the match runs from the first `{` to the last `}`
of the text, so prose before the first brace and after the last closing brace
does not change what is parsed (second part). -/
theorem jsonMatch_first_to_last (text m : List Char) :
    (jsonMatch text = some m ↔
      ∃ pre post, text = pre ++ m ++ post ∧ '{' ∉ pre ∧ '}' ∉ post ∧
        m.head? = some '{' ∧ m.getLast? = some '}') ∧
    (∀ before after : List Char, '{' ∉ before → '}' ∉ after →
      jsonMatch (before ++ text ++ after) = jsonMatch text) := by
  refine ⟨?_, fun before after hb ha => jsonMatch_prose before text after hb ha⟩
  constructor
  · intro h
    unfold jsonMatch at h
    simp only [] at h
    split_ifs at h with hnil
    have hm : List.rdropWhile (fun c => c != '}') (List.dropWhile (fun c => c != '{') text) = m :=
      Option.some.inj h
    refine ⟨text.takeWhile (fun c => c != '{'),
      (text.dropWhile (fun c => c != '{')).rtakeWhile (fun c => c != '}'), ?_, ?_, ?_, ?_, ?_⟩
    · rw [← hm, List.append_assoc, rdropWhile_append_rtakeWhile,
        List.takeWhile_append_dropWhile]
    · intro hmem
      simpa using List.mem_takeWhile_imp hmem
    · intro hmem
      rw [List.rtakeWhile, List.mem_reverse] at hmem
      simpa using List.mem_takeWhile_imp hmem
    · have hpre : m <+: text.dropWhile (fun c => c != '{') := hm ▸ List.rdropWhile_prefix _ _
      obtain ⟨post, hpost⟩ := hpre
      have hmne : m ≠ [] := hm ▸ hnil
      have htne : text.dropWhile (fun c => c != '{') ≠ [] := by
        intro h0
        rw [h0] at hpost
        exact hmne (List.append_eq_nil.1 hpost).1
      have hhead := List.head_dropWhile_not (fun c => c != '{') text htne
      have hh : (text.dropWhile (fun c => c != '{')).head htne = '{' := by
        simpa using hhead
      cases m with
      | nil => exact absurd rfl hmne
      | cons a m1 =>
        have : (text.dropWhile (fun c => c != '{')).head htne = a := by
          simp [← hpost]
        simp [← this, hh]
    · have hlast := List.rdropWhile_last_not (fun c => c != '}')
        (text.dropWhile (fun c => c != '{')) hnil
      have hl : (List.rdropWhile (fun c => c != '}')
          (List.dropWhile (fun c => c != '{') text)).getLast hnil = '}' := by
        simpa using hlast
      rw [← hm, List.getLast?_eq_getLast _ hnil, hl]
  · rintro ⟨pre, post, htext, hpre, hpost, hhead, hlast⟩
    have hmne : m ≠ [] := by
      intro h0
      simp [h0] at hhead
    obtain ⟨m1, rfl⟩ : ∃ m1, m = '{' :: m1 := by
      cases m with
      | nil => exact absurd rfl hmne
      | cons a m1 => exact ⟨m1, by simpa using hhead⟩
    have hd : text.dropWhile (fun c => c != '{') = '{' :: m1 ++ post := by
      rw [htext, List.append_assoc, List.dropWhile_append_of_pos (by
        intro a ha
        have : a ≠ '{' := fun h0 => hpre (h0 ▸ ha)
        simpa using this)]
      simp [List.dropWhile]
    have hr : ('{' :: m1 ++ post).rdropWhile (fun c => c != '}') = '{' :: m1 := by
      rw [rdropWhile_append_of_pos _ _ _ (by
        intro a ha
        have : a ≠ '}' := fun h0 => hpost (h0 ▸ ha)
        simpa using this)]
      rw [List.rdropWhile_eq_self_iff]
      intro hl
      rw [List.getLast?_eq_getLast _ hl] at hlast
      simp [Option.some.inj hlast]
    unfold jsonMatch
    simp only [hd, hr]
    simp

/-! ## Theorems: sectorIntelligence.js -/

/-- C8 (failing input): for the sector `disaster` and every prediction record,
`generateAdvancedRecommendations` raises a `TypeError` instead of returning a
record: the lookup `alertLevels[weatherParams]` is `undefined`. -/
theorem generateAdvancedRecommendations_disaster_raises (weatherData : SectorWeather)
    (clockMonth clockHour : Nat) :
    generateAdvancedRecommendations .disaster weatherData clockMonth clockHour
      = .error "TypeError: Cannot read properties of undefined (reading 'level')" := by
  have hk : alertLevels "[object Object]" = none := by simp [alertLevels]
  simp only [generateAdvancedRecommendations, generateDisasterRecommendations,
    LevelArg.propertyKey, hk]
  rfl

theorem generateAdvancedRecommendations_industrial_raises (weatherData : SectorWeather)
    (clockMonth clockHour : Nat) :
    generateAdvancedRecommendations .industrial weatherData clockMonth clockHour
      = .error "TypeError: Cannot read properties of undefined (reading 'outdoor_ops')" := by
  have hk : operationalImpact "[object Object]" = none := by simp [operationalImpact]
  simp only [generateAdvancedRecommendations, generateIndustrialRecommendations,
    LevelArg.propertyKey, hk]
  rfl

theorem generateAdvancedRecommendations_other_sectors (sector : Sector)
    (weatherData : SectorWeather) (clockMonth clockHour : Nat)
    (hd : sector ≠ .disaster) (hi : sector ≠ .industrial) :
    ∃ r, generateAdvancedRecommendations sector weatherData clockMonth clockHour = .ok r ∧
      r.workStatus = generateWorkStatus sector (rainLevelOf weatherData.probability) weatherData ∧
      r.recommendations.length ≤ 4 := by
  cases sector
  case disaster => exact absurd rfl hd
  case industrial => exact absurd rfl hi
  all_goals exact ⟨_, rfl, rfl, by simp [List.length_take]⟩

/-! ## Theorems: the climate fallback of weatherController.js -/

theorem fallbackProbability_defined (la lo : ℚ) (month : Nat) (h1 : 1 ≤ month)
    (h12 : month ≤ 12) : ∃ p, fallbackProbability (some la) (some lo) month = some p := by
  unfold fallbackProbability
  simp only []
  split_ifs <;> first | exact ⟨_, rfl⟩ | exact monthEntry_defined _ _ rfl h1 h12

theorem fallbackVerdict_some (p : ℚ) :
    fallbackVerdict (some p)
      = if p ≥ 0.5 then "Rain" else if p ≥ 0.3 then "Uncertain" else "No rain" := by
  simp [fallbackVerdict, geN]

theorem fallbackVerdict_canonical_iff (p : ℚ) :
    (fallbackVerdict (some p), "medium") = canonicalVerdict p 0 ↔
      (0.5 ≤ p ∧ p < 0.7) ∨ (0.3 ≤ p ∧ p < 0.4) ∨ (0.1 ≤ p ∧ p < 0.2) := by
  rw [fallbackVerdict_some]
  unfold canonicalVerdict
  have e1 : ¬ ((0 : ℚ) > 2) := by norm_num
  have e2 : ¬ ((0 : ℚ) > 0.5) := by norm_num
  have e3 : ¬ ((0 : ℚ) > 0.1) := by norm_num
  simp only [e1, e2, e3, or_false]
  constructor
  · intro h
    split_ifs at h <;> simp at h <;> first
      | (left; constructor <;> linarith)
      | (right; left; constructor <;> linarith)
      | (right; right; constructor <;> linarith)
  · rintro (⟨h1, h2⟩ | ⟨h1, h2⟩ | ⟨h1, h2⟩)
    · have a : ¬ p ≥ 0.7 := not_le.2 h2
      have b : p ≥ 0.4 := le_trans (by norm_num) h1
      simp [a, b, h1]
    · have a : ¬ p ≥ 0.7 := not_le.2 (lt_trans h2 (by norm_num))
      have b : ¬ p ≥ 0.4 := not_le.2 h2
      have c : ¬ p ≥ 0.5 := not_le.2 (lt_trans h2 (by norm_num))
      have d : p ≥ 0.2 := le_trans (by norm_num) h1
      simp [a, b, c, d, h1]
    · have a : ¬ p ≥ 0.7 := not_le.2 (lt_trans h2 (by norm_num))
      have b : ¬ p ≥ 0.4 := not_le.2 (lt_trans h2 (by norm_num))
      have c : ¬ p ≥ 0.5 := not_le.2 (lt_trans h2 (by norm_num))
      have d : ¬ p ≥ 0.2 := not_le.2 h2
      have e : ¬ p ≥ 0.3 := not_le.2 (lt_trans h2 (by norm_num))
      have f : ¬ p < 0.1 := not_lt.2 h1
      simp [a, b, c, d, e, f]

/-- C11 (as stated, refuted): for latitude 50, longitude 0 and a January date
the climate fallback has `baseProbability = 0.4` and answers Uncertain/medium,
where the canonical rule at depth `0` gives Rain/medium. -/
theorem climateFallback_not_canonical :
    (climateFallback januaryWorld "50" "0" "2030-01-15").probability = some 0.4 ∧
    ((climateFallback januaryWorld "50" "0" "2030-01-15").verdict,
      (climateFallback januaryWorld "50" "0" "2030-01-15").confidence)
      = ("Uncertain", "medium") ∧
    ((climateFallback januaryWorld "50" "0" "2030-01-15").verdict,
      (climateFallback januaryWorld "50" "0" "2030-01-15").confidence)
      ≠ canonicalVerdict 0.4 0 := by
  have hp : fallbackProbability (some 50) (some 0) 1 = some 0.4 := by
    norm_num [fallbackProbability, geN, leN, gtN, ltN, monthEntry]
  have hr : (climateFallback januaryWorld "50" "0" "2030-01-15").probability = some 0.4 := by
    simp only [climateFallback, januaryWorld, sampleParseFloat]
    simpa using hp
  have hv : (climateFallback januaryWorld "50" "0" "2030-01-15").verdict = "Uncertain" := by
    have : (climateFallback januaryWorld "50" "0" "2030-01-15").verdict
        = fallbackVerdict (climateFallback januaryWorld "50" "0" "2030-01-15").probability := rfl
    rw [this, hr, fallbackVerdict_some]
    norm_num
  have hc : (climateFallback januaryWorld "50" "0" "2030-01-15").confidence = "medium" := rfl
  refine ⟨hr, by rw [hv, hc], ?_⟩
  have hcan : canonicalVerdict 0.4 0 = ("Rain", "medium") := by
    norm_num [canonicalVerdict]
  rw [hv, hc, hcan]
  decide

/-- C11 (amended): for numeric latitude and longitude and a month in 1..12, the
climate fallback has a defined `baseProbability` `p`, a constant confidence
`medium` and a verdict given by its own thresholds: Rain at `p ≥ 0.5`, Uncertain
at `0.3 ≤ p < 0.5`, otherwise No rain. It coincides with the canonical rule at
depth `0` exactly when `0.5 ≤ p < 0.7`, `0.3 ≤ p < 0.4` or `0.1 ≤ p < 0.2`. -/
theorem climateFallback_own_thresholds (ext : External) (lat lon date : String) (la lo : ℚ)
    (hlat : ext.parseFloat lat = some la) (hlon : ext.parseFloat lon = some lo)
    (h1 : 1 ≤ ext.month) (h12 : ext.month ≤ 12) :
    ∃ p, (climateFallback ext lat lon date).probability = some p ∧
      fallbackProbability (some la) (some lo) ext.month = some p ∧
      (climateFallback ext lat lon date).confidence = "medium" ∧
      (p ≥ 0.5 → (climateFallback ext lat lon date).verdict = "Rain") ∧
      (p < 0.5 → p ≥ 0.3 → (climateFallback ext lat lon date).verdict = "Uncertain") ∧
      (p < 0.3 → (climateFallback ext lat lon date).verdict = "No rain") ∧
      (((climateFallback ext lat lon date).verdict, (climateFallback ext lat lon date).confidence)
          = canonicalVerdict p 0 ↔
        (0.5 ≤ p ∧ p < 0.7) ∨ (0.3 ≤ p ∧ p < 0.4) ∨ (0.1 ≤ p ∧ p < 0.2)) := by
  obtain ⟨p, hp⟩ := fallbackProbability_defined la lo ext.month h1 h12
  have hr : (climateFallback ext lat lon date).probability = some p := by
    simp only [climateFallback, hlat, hlon, hp]
  have hv : (climateFallback ext lat lon date).verdict = fallbackVerdict (some p) := by
    simp only [climateFallback, hlat, hlon, hp]
  have hc : (climateFallback ext lat lon date).confidence = "medium" := rfl
  refine ⟨p, hr, hp, hc, ?_, ?_, ?_, ?_⟩
  · intro h
    rw [hv, fallbackVerdict_some, if_pos h]
  · intro h5 h3
    rw [hv, fallbackVerdict_some, if_neg (not_le.2 h5), if_pos h3]
  · intro h3
    rw [hv, fallbackVerdict_some, if_neg (not_le.2 (lt_trans h3 (by norm_num))),
      if_neg (not_le.2 h3)]
  · rw [hv, hc]
    exact fallbackVerdict_canonical_iff p

/-- Witness for C11: latitude 50, longitude 0, January. -/
theorem climateFallback_own_thresholds_witness :
    ∃ p, (climateFallback januaryWorld "50" "0" "2030-01-15").probability = some p ∧
      (climateFallback januaryWorld "50" "0" "2030-01-15").confidence = "medium" := by
  obtain ⟨p, h, _, hc, _⟩ := climateFallback_own_thresholds januaryWorld "50" "0" "2030-01-15"
    50 0 (by simp [januaryWorld, sampleParseFloat]) (by simp [januaryWorld, sampleParseFloat])
    (by simp [januaryWorld]) (by simp [januaryWorld])
  exact ⟨p, h, hc⟩

theorem fallbackProbability_monsoon (la lo : ℚ) (month : Nat) (hla : 10 < la)
    (hla2 : la < 23.5) (hlo : 70 < lo) (hlo2 : lo < 90) (h6 : 6 ≤ month) (h9 : month ≤ 9) :
    ∃ p, fallbackProbability (some la) (some lo) month = some p ∧ 0.7 ≤ p := by
  have a1 : ¬ la ≥ 23.5 := not_le.2 hla2
  have a2 : ¬ la ≤ -23.5 := not_le.2 (lt_trans (by norm_num) hla)
  have a3 : |la| < 23.5 := by
    rw [abs_of_pos (lt_trans (by norm_num) hla)]
    exact hla2
  have a4 : la < 30 := lt_trans hla2 (by norm_num)
  have a5 : ¬ lo < 50 := not_lt.2 (le_of_lt (lt_trans (by norm_num) hlo))
  have a6 : ¬ lo < -100 := not_lt.2 (le_of_lt (lt_trans (by norm_num) hlo))
  have hp : fallbackProbability (some la) (some lo) month
      = monthEntry [0.1, 0.15, 0.2, 0.3, 0.5, 0.8, 0.85, 0.8, 0.7, 0.4, 0.2, 0.1] month := by
    simp [fallbackProbability, geN, leN, gtN, ltN, a1, a2, a3, a4, a5, a6, hla, hlo, hlo2]
  rw [hp]
  interval_cases month <;> norm_num [monthEntry]

/-- C12: when the ML predictor and the generative tier fail (whatever the live
call did), a complete request with latitude strictly between 10 and 23.5,
longitude strictly between 70 and 90 and a month from June to September, in
particular lat = 19.0760, lon = 72.8777 in July, is answered with the fallback
record: source `["historical_analysis"]` for a past date and
`["climate_forecast"]` otherwise, verdict Rain. -/
theorem getWeatherPrediction_monsoon_fallback (ext : External) (query : Query) (la lo : ℚ)
    (hq : (isMissing query.lat || isMissing query.lon || isMissing query.date) = false)
    (hml : ∀ data, ext.ml ≠ .ok data) (hai : aiAnswer ext = none)
    (hlat : ext.parseFloat (query.lat.getD "") = some la)
    (hlon : ext.parseFloat (query.lon.getD "") = some lo)
    (hla : 10 < la) (hla2 : la < 23.5) (hlo : 70 < lo) (hlo2 : lo < 90)
    (h6 : 6 ≤ ext.month) (h9 : ext.month ≤ 9) :
    ∃ r, (getWeatherPrediction ext query).2 = .json r ∧ r.verdict = "Rain" ∧
      r.source = (if ext.isHistorical then ["historical_analysis"] else ["climate_forecast"]) := by
  obtain ⟨p, hp, hp7⟩ := fallbackProbability_monsoon la lo ext.month hla hla2 hlo hlo2 h6 h9
  refine ⟨climateFallback ext (query.lat.getD "") (query.lon.getD "") (query.date.getD ""),
    ?_, ?_, rfl⟩
  · rw [getWeatherPrediction_of_complete ext query hq]
    cases hm : ext.ml with
    | ok data => exact absurd hm (hml data)
    | rejected | noData | withError => simp [hai]
  · have hv : (climateFallback ext (query.lat.getD "") (query.lon.getD "")
        (query.date.getD "")).verdict = fallbackVerdict (some p) := by
      simp only [climateFallback, hlat, hlon, hp]
    rw [hv, fallbackVerdict_some, if_pos (le_trans (by norm_num) hp7)]

/-- Witness for C12: lat = 19.0760, lon = 72.8777, a future July date, every
external call failing. -/
theorem getWeatherPrediction_monsoon_fallback_witness :
    ∃ r, (getWeatherPrediction julyWorld mumbaiQuery).2 = .json r ∧ r.verdict = "Rain" ∧
      r.source = ["climate_forecast"] := by
  obtain ⟨r, h1, h2, h3⟩ := getWeatherPrediction_monsoon_fallback julyWorld mumbaiQuery
    19.076 72.8777 (by simp [isMissing, mumbaiQuery])
    (by intro data; simp [julyWorld, allFail]) (by simp [aiAnswer, julyWorld, allFail])
    (by simp [julyWorld, sampleParseFloat, mumbaiQuery])
    (by simp [julyWorld, sampleParseFloat, mumbaiQuery])
    (by norm_num) (by norm_num) (by norm_num) (by norm_num)
    (by simp [julyWorld, allFail]) (by simp [julyWorld, allFail])
  exact ⟨r, h1, h2, by simpa [julyWorld, allFail] using h3⟩

/-! ## Theorems: mlPredictor.js -/

/-- C13: with an entry for the key in the cache, `predictWithML` returns the
cached object without starting the predictor and leaves the cache as it is when
the entry is younger than 3,600,000 ms; otherwise it behaves exactly as if the
entry had been absent: the predictor is started, the result is the fresh
prediction or the statistical fallback (never the stale object), and the key
holds the fresh prediction with the new timestamp, or nothing after a failure. -/
theorem predictWithML_cache (cache : MlCache) (world : MlWorld) (lat lon : ℚ)
    (targetDate : String) (weatherData : Option WeatherData) (cached : MlCacheEntry)
    (hc : cache (lat, lon, targetDate) = some cached) :
    CACHE_TTL = 3600000 ∧
    (world.now - cached.timestamp < CACHE_TTL →
      (predictWithML cache world lat lon targetDate weatherData).result = .python cached.data ∧
      (predictWithML cache world lat lon targetDate weatherData).spawned = false ∧
      (predictWithML cache world lat lon targetDate weatherData).cache = cache) ∧
    (¬ (world.now - cached.timestamp < CACHE_TTL) →
      (predictWithML cache world lat lon targetDate weatherData).spawned = true ∧
      (predictWithML cache world lat lon targetDate weatherData).result
        = (match world.python with
          | some prediction => .python prediction
          | none => .statistical (MlPredictor.generateStatisticalPrediction lat world.month
              weatherData world.random)) ∧
      (predictWithML cache world lat lon targetDate weatherData).cache (lat, lon, targetDate)
        = world.python.map (fun prediction => { data := prediction, timestamp := world.storeTime }) ∧
      (∀ key, key ≠ (lat, lon, targetDate) →
        (predictWithML cache world lat lon targetDate weatherData).cache key = cache key) ∧
      (predictWithML cache world lat lon targetDate weatherData).result
        = (predictWithML (Function.update cache (lat, lon, targetDate) none) world lat lon
            targetDate weatherData).result) := by
  refine ⟨by norm_num [CACHE_TTL], ?_, ?_⟩
  · intro h
    refine ⟨?_, ?_, ?_⟩ <;> simp only [predictWithML, hc, if_pos h]
  · intro h
    have e : predictWithML cache world lat lon targetDate weatherData
        = MlPredictor.lookup (Function.update cache (lat, lon, targetDate) none) world lat lon
            targetDate weatherData := by
      simp only [predictWithML, hc, if_neg h]
    have e2 : predictWithML (Function.update cache (lat, lon, targetDate) none) world lat lon
          targetDate weatherData
        = MlPredictor.lookup (Function.update cache (lat, lon, targetDate) none) world lat lon
            targetDate weatherData := by
      simp only [predictWithML, Function.update_same]
    rw [e, e2]
    cases hpy : world.python with
    | none =>
      refine ⟨?_, ?_, ?_, fun key hk => ?_, rfl⟩
      · simp only [MlPredictor.lookup, hpy]
      · simp only [MlPredictor.lookup, hpy]
      · simp only [MlPredictor.lookup, hpy, Function.update_same, Option.map_none']
      · simp only [MlPredictor.lookup, hpy]
        exact Function.update_noteq hk _ _
    | some prediction =>
      refine ⟨?_, ?_, ?_, fun key hk => ?_, rfl⟩
      · simp only [MlPredictor.lookup, hpy]
      · simp only [MlPredictor.lookup, hpy]
      · simp only [MlPredictor.lookup, hpy, Function.update_same, Option.map_some']
      · simp only [MlPredictor.lookup, hpy]
        rw [Function.update_noteq hk, Function.update_noteq hk]

/-- Witness for C13: an entry stored at time `0`, read exactly one hour later. -/
theorem predictWithML_cache_witness :
    (predictWithML staleMlCache hourLaterWorld 19.076 72.8777 "2030-07-15" none).result
      = .python ⟨"fresh"⟩ :=
  ((predictWithML_cache staleMlCache hourLaterWorld 19.076 72.8777 "2030-07-15" none
    { data := ⟨"stale"⟩, timestamp := 0 } rfl).2.2
      (by norm_num [hourLaterWorld, CACHE_TTL])).2.1

/-! ## Theorems: geocodingController.js -/

theorem geocodeCached_fresh (cache : GeocodeCache) (cacheKey : String) (now storeTime : Int)
    (outcome : Except String GeocodeResult) (e : GeoCacheEntry) (hc : cache cacheKey = some e)
    (hf : now - e.timestamp < CACHE_DURATION) :
    geocodeCached cache cacheKey now storeTime outcome
      = { cache := cache, requested := false, result := .ok e.data } := by
  simp only [geocodeCached, hc, if_pos hf]

theorem geocodeCached_miss (cache : GeocodeCache) (cacheKey : String) (now storeTime : Int)
    (outcome : Except String GeocodeResult)
    (hs : ∀ e, cache cacheKey = some e → ¬ (now - e.timestamp < CACHE_DURATION)) :
    geocodeCached cache cacheKey now storeTime outcome =
      match outcome with
      | .ok geocodeResult =>
        { cache := Function.update cache cacheKey
            (some { data := geocodeResult, timestamp := storeTime })
          requested := true
          result := .ok geocodeResult }
      | .error err => { cache := cache, requested := true, result := .error err } := by
  cases hc : cache cacheKey with
  | none => simp only [geocodeCached, hc]
  | some e => simp only [geocodeCached, hc, if_neg (hs e hc)]

/-- C14 (as stated, refuted): an entry stored at time `0` is read 86,400,000 ms
later by `geocodeWithGoogle` and by `geocodeWithPostOffice` while the fresh
lookup fails: the call throws, and the cache still holds the stale entry. -/
theorem geocode_stale_entry_kept :
    (∃ e, (geocodeWithGoogle id staleGeocodeCache ⟨86400000, none, 86400000⟩ "pune").cache "pune"
        = some e ∧ 86400000 - e.timestamp ≥ 86400000) ∧
    (∃ e, (geocodeWithPostOffice staleGeocodeCache ⟨86400000, none, 86400000⟩ "411001").cache
        "postoffice_411001" = some e ∧ 86400000 - e.timestamp ≥ 86400000) := by
  have hs : ∀ key e, staleGeocodeCache key = some e →
      ¬ ((86400000 : Int) - e.timestamp < CACHE_DURATION) := by
    intro key e he
    simp only [staleGeocodeCache, Option.some.injEq] at he
    subst he
    norm_num [CACHE_DURATION]
  constructor
  · refine ⟨{ data := { lat := 18.52, lon := 73.85, name := "Pune" }, timestamp := 0 }, ?_,
      by norm_num⟩
    simp only [geocodeWithGoogle, id]
    rw [geocodeCached_miss _ _ _ _ _ (hs _)]
    rfl
  · refine ⟨{ data := { lat := 18.52, lon := 73.85, name := "Pune" }, timestamp := 0 }, ?_,
      by norm_num⟩
    simp only [geocodeWithPostOffice]
    rw [geocodeCached_miss _ _ _ _ _ (hs _)]
    rfl

/-- C14 (amended): for the geocode cache (`CACHE_DURATION` = 86,400,000 ms), a
read by `geocodeWithGoogle` or `geocodeWithPostOffice` returns the cached data
without a request and leaves the cache unchanged when the entry is younger than
the duration; otherwise (entry stale or absent) the request is made and the
stale data is never returned: on success the key is overwritten with the fresh
result and the new timestamp, on failure the error is thrown and the cache is
left as it was. No entry is removed by a read. -/
theorem geocode_cache_read (toLowerCase : String → String) (cache : GeocodeCache)
    (googleWorld : GeoWorld GoogleBody) (postWorld : GeoWorld (List PincodeRecord))
    (address pincode : String) :
    CACHE_DURATION = 86400000 ∧
    ((∀ e, cache (toLowerCase address) = some e →
        googleWorld.now - e.timestamp < CACHE_DURATION →
        geocodeWithGoogle toLowerCase cache googleWorld address
          = { cache := cache, requested := false, result := .ok e.data }) ∧
      ((∀ e, cache (toLowerCase address) = some e →
          ¬ (googleWorld.now - e.timestamp < CACHE_DURATION)) →
        (geocodeWithGoogle toLowerCase cache googleWorld address).requested = true ∧
        (geocodeWithGoogle toLowerCase cache googleWorld address).result
          = googleResult googleWorld.response ∧
        (∀ r, googleResult googleWorld.response = .ok r →
          (geocodeWithGoogle toLowerCase cache googleWorld address).cache
            = Function.update cache (toLowerCase address)
                (some { data := r, timestamp := googleWorld.storeTime })) ∧
        (∀ err, googleResult googleWorld.response = .error err →
          (geocodeWithGoogle toLowerCase cache googleWorld address).cache = cache))) ∧
    ((∀ e, cache ("postoffice_" ++ pincode) = some e →
        postWorld.now - e.timestamp < CACHE_DURATION →
        geocodeWithPostOffice cache postWorld pincode
          = { cache := cache, requested := false, result := .ok e.data }) ∧
      ((∀ e, cache ("postoffice_" ++ pincode) = some e →
          ¬ (postWorld.now - e.timestamp < CACHE_DURATION)) →
        (geocodeWithPostOffice cache postWorld pincode).requested = true ∧
        (geocodeWithPostOffice cache postWorld pincode).result
          = postOfficeResult postWorld.response ∧
        (∀ r, postOfficeResult postWorld.response = .ok r →
          (geocodeWithPostOffice cache postWorld pincode).cache
            = Function.update cache ("postoffice_" ++ pincode)
                (some { data := r, timestamp := postWorld.storeTime })) ∧
        (∀ err, postOfficeResult postWorld.response = .error err →
          (geocodeWithPostOffice cache postWorld pincode).cache = cache))) := by
  refine ⟨by norm_num [CACHE_DURATION], ⟨?_, ?_⟩, ⟨?_, ?_⟩⟩
  · intro e hc hf
    exact geocodeCached_fresh _ _ _ _ _ e hc hf
  · intro hs
    simp only [geocodeWithGoogle]
    rw [geocodeCached_miss _ _ _ _ _ hs]
    cases h : googleResult googleWorld.response with
    | ok r =>
      refine ⟨rfl, rfl, fun r2 h2 => ?_, fun err h2 => ?_⟩
      · cases h2
        rfl
      · cases h2
    | error err =>
      refine ⟨rfl, rfl, fun r2 h2 => ?_, fun err2 h2 => rfl⟩
      cases h2
  · intro e hc hf
    exact geocodeCached_fresh _ _ _ _ _ e hc hf
  · intro hs
    simp only [geocodeWithPostOffice]
    rw [geocodeCached_miss _ _ _ _ _ hs]
    cases h : postOfficeResult postWorld.response with
    | ok r =>
      refine ⟨rfl, rfl, fun r2 h2 => ?_, fun err h2 => ?_⟩
      · cases h2
        rfl
      · cases h2
    | error err =>
      refine ⟨rfl, rfl, fun r2 h2 => ?_, fun err2 h2 => rfl⟩
      cases h2

/-! ## Theorems: verdict boundaries and the simple prediction (rainLogic.js) -/

theorem popForecast_record (M : JsMath) (pop : ℚ) (hpop : pop ≠ 0) :
    ∃ r, determineRainVerdict M (popForecast pop) ⟨0, 1⟩ 0 = .ok r ∧
      r.probability = pop ∧ (r.verdict, r.confidence) = verdictAndConfidence pop 0 := by
  have hfind : findTargetForecast (popForecast pop) ⟨0, 1⟩
      = .ok (some { bareDaily 0 with pop := some pop }) :=
    bareDaily_found (some pop) none none none (some [])
  have hh : hourlyForDate (popForecast pop) ⟨0, 1⟩ = .ok [] := rfl
  have hp : combinedPop (orNum (some pop) 0) [] = pop := by
    simp [combinedPop, orNum, hpop]
  have ht : totalPrecip { bareDaily 0 with pop := some pop } = 0 := by
    simp [totalPrecip, volumeOf, bareDaily]
  obtain ⟨r, hr, _, h1, h2, _⟩ :=
    determineRainVerdict_of_match M (popForecast pop) ⟨0, 1⟩ 0 _ [] hfind hh
  rw [ht] at h2
  rw [hp] at h1 h2
  exact ⟨r, hr, h1, h2⟩

/-- C15 (as stated, refuted): at `p = 0.19999` and depth `0` the rule of
`determineRainVerdict` answers No rain with confidence medium, not Uncertain:
`0.19999` is below the inclusive threshold `0.2`. -/
theorem verdict_boundary_below_uncertain :
    verdictAndConfidence 0.19999 0 = ("No rain", "medium") ∧
    verdictAndConfidence 0.19999 0 ≠ ("Uncertain", "medium") ∧
    ∃ r, determineRainVerdict zeroMath (popForecast 0.19999) ⟨0, 1⟩ 0 = .ok r ∧
      (r.verdict, r.confidence) = ("No rain", "medium") := by
  have h3 : verdictAndConfidence 0.19999 0 = ("No rain", "medium") := by
    norm_num [verdictAndConfidence]
  refine ⟨h3, ?_, ?_⟩
  · rw [h3]
    decide
  · obtain ⟨r, hr, _, hvc⟩ := popForecast_record zeroMath 0.19999 (by norm_num)
    exact ⟨r, hr, by rw [hvc, h3]⟩

/-- C15 (amended): with precipitation depth `0`, the verdict rule of
`determineRainVerdict` gives Rain/high at `p = 0.7`, Rain/medium at
`p = 0.69999`, Uncertain/medium at `p = 0.2`, No rain/medium at `p = 0.19999`
and No rain/high at `p = 0.05`, both as the rule alone and in the record
returned for a forecast whose matched entry has that `pop`. -/
theorem verdict_boundaries (M : JsMath) :
    verdictAndConfidence 0.7 0 = ("Rain", "high") ∧
    verdictAndConfidence 0.69999 0 = ("Rain", "medium") ∧
    verdictAndConfidence 0.2 0 = ("Uncertain", "medium") ∧
    verdictAndConfidence 0.19999 0 = ("No rain", "medium") ∧
    verdictAndConfidence 0.05 0 = ("No rain", "high") ∧
    (∃ r, determineRainVerdict M (popForecast 0.7) ⟨0, 1⟩ 0 = .ok r ∧
      (r.verdict, r.confidence) = ("Rain", "high")) ∧
    (∃ r, determineRainVerdict M (popForecast 0.69999) ⟨0, 1⟩ 0 = .ok r ∧
      (r.verdict, r.confidence) = ("Rain", "medium")) ∧
    (∃ r, determineRainVerdict M (popForecast 0.2) ⟨0, 1⟩ 0 = .ok r ∧
      (r.verdict, r.confidence) = ("Uncertain", "medium")) ∧
    (∃ r, determineRainVerdict M (popForecast 0.19999) ⟨0, 1⟩ 0 = .ok r ∧
      (r.verdict, r.confidence) = ("No rain", "medium")) ∧
    (∃ r, determineRainVerdict M (popForecast 0.05) ⟨0, 1⟩ 0 = .ok r ∧
      (r.verdict, r.confidence) = ("No rain", "high")) := by
  have h1 : verdictAndConfidence 0.7 0 = ("Rain", "high") := by
    norm_num [verdictAndConfidence]
  have h2 : verdictAndConfidence 0.69999 0 = ("Rain", "medium") := by
    norm_num [verdictAndConfidence]
  have h3 : verdictAndConfidence 0.2 0 = ("Uncertain", "medium") := by
    norm_num [verdictAndConfidence]
  have h4 : verdictAndConfidence 0.19999 0 = ("No rain", "medium") := by
    norm_num [verdictAndConfidence]
  have h5 : verdictAndConfidence 0.05 0 = ("No rain", "high") := by
    norm_num [verdictAndConfidence]
  have key : ∀ pop : ℚ, pop ≠ 0 → ∀ vc, verdictAndConfidence pop 0 = vc →
      ∃ r, determineRainVerdict M (popForecast pop) ⟨0, 1⟩ 0 = .ok r ∧
        (r.verdict, r.confidence) = vc := by
    intro pop hpop vc hvc
    obtain ⟨r, hr, _, h⟩ := popForecast_record M pop hpop
    exact ⟨r, hr, by rw [h, hvc]⟩
  exact ⟨h1, h2, h3, h4, h5, key _ (by norm_num) _ h1, key _ (by norm_num) _ h2,
    key _ (by norm_num) _ h3, key _ (by norm_num) _ h4, key _ (by norm_num) _ h5⟩

/-- C20: for a target date with month in 1..12, `generateSimplePrediction`
returns the seasonal base (0.4 for months 6-9, 0.25 for months 12, 1, 2,
otherwise 0.3) plus 0.1 when `|lat| < 23.5` plus 0.2 when `10 < lat < 30` and
`70 < lon < 90`; the clamp never alters this sum, which lies in `[0.1, 0.8]`. -/
theorem generateSimplePrediction_probability (M : JsMath) (lat lon : ℚ)
    (targetDate : TargetDate) (daysAhead : Int) (h1 : 1 ≤ targetDate.month)
    (h12 : targetDate.month ≤ 12) :
    (generateSimplePrediction M lat lon targetDate daysAhead).probability
      = (if 6 ≤ targetDate.month ∧ targetDate.month ≤ 9 then (0.4 : ℚ)
          else if targetDate.month = 12 ∨ targetDate.month = 1 ∨ targetDate.month = 2 then 0.25
          else 0.3)
        + (if |lat| < 23.5 then 0.1 else 0)
        + (if 10 < lat ∧ lat < 30 ∧ 70 < lon ∧ lon < 90 then 0.2 else 0) ∧
    0.1 ≤ (generateSimplePrediction M lat lon targetDate daysAhead).probability ∧
    (generateSimplePrediction M lat lon targetDate daysAhead).probability ≤ 0.8 := by
  have hp : (generateSimplePrediction M lat lon targetDate daysAhead).probability
      = simpleProbability lat lon targetDate.month := rfl
  rw [hp]
  have hm : (targetDate.month ≥ 12 ∨ targetDate.month ≤ 2) ↔
      (targetDate.month = 12 ∨ targetDate.month = 1 ∨ targetDate.month = 2) := by omega
  have hs : (targetDate.month ≥ 6 ∧ targetDate.month ≤ 9) ↔
      (6 ≤ targetDate.month ∧ targetDate.month ≤ 9) := Iff.rfl
  have hb : (lat > 10 ∧ lat < 30 ∧ lon > 70 ∧ lon < 90) ↔
      (10 < lat ∧ lat < 30 ∧ 70 < lon ∧ lon < 90) := Iff.rfl
  unfold simpleProbability
  simp only [hm, hs, hb]
  split_ifs <;> norm_num [max_def, min_def]

/-- Witness for C20: latitude 19.076, longitude 72.8777, July. -/
theorem generateSimplePrediction_probability_witness :
    0.1 ≤ (generateSimplePrediction zeroMath 19.076 72.8777 ⟨0, 7⟩ 0).probability ∧
    (generateSimplePrediction zeroMath 19.076 72.8777 ⟨0, 7⟩ 0).probability ≤ 0.8 :=
  (generateSimplePrediction_probability zeroMath 19.076 72.8777 ⟨0, 7⟩ 0 (by decide)
    (by decide)).2

/-! ## Theorems: confidence of the statistical estimator (mlModel.js) -/

theorem clamp_gt_iff (x t : ℚ) (h1 : 0.05 ≤ t) (h2 : t < 0.95) :
    max 0.05 (min 0.95 x) > t ↔ x > t := by
  simp only [gt_iff_lt, lt_max_iff, lt_min_iff]
  constructor
  · rintro (h | ⟨_, h⟩)
    · exact absurd h (not_lt.2 h1)
    · exact h
  · intro h
    exact Or.inr ⟨h2, h⟩

theorem clamp_lt_iff (x t : ℚ) (h1 : 0.05 < t) (h2 : t ≤ 0.95) :
    max 0.05 (min 0.95 x) < t ↔ x < t := by
  simp only [max_lt_iff, min_lt_iff]
  constructor
  · rintro ⟨_, h | h⟩
    · exact absurd h (not_lt.2 h2)
    · exact h
  · intro h
    exact ⟨h1, Or.inr h⟩

/-- C19: the confidence returned by `predict` is the bucket of the probability
it returns: high if that probability is `> 0.8` or `< 0.2`, otherwise medium if
it is `> 0.65` or `< 0.35`, otherwise low; the buckets of the unclamped sigmoid
and of the clamped value agree. -/
theorem predict_confidence_of_returned (M : JsMath) (m : WeatherMLModel) (features : Features) :
    (m.predict M features).confidence
      = (if (m.predict M features).probability > 0.8 ∨ (m.predict M features).probability < 0.2
          then "high"
        else if (m.predict M features).probability > 0.65 ∨
            (m.predict M features).probability < 0.35 then "medium"
        else "low") := by
  have hp : (m.predict M features).probability
      = max 0.05 (min 0.95 (1 / (1 + M.exp (-(m.score features))))) := rfl
  have hc : (m.predict M features).confidence
      = (if 1 / (1 + M.exp (-(m.score features))) > 0.8 ∨
            1 / (1 + M.exp (-(m.score features))) < 0.2 then "high"
        else if 1 / (1 + M.exp (-(m.score features))) > 0.65 ∨
            1 / (1 + M.exp (-(m.score features))) < 0.35 then "medium"
        else "low") := rfl
  have h80 := clamp_gt_iff (1 / (1 + M.exp (-(m.score features)))) 0.8 (by norm_num)
    (by norm_num)
  have h20 := clamp_lt_iff (1 / (1 + M.exp (-(m.score features)))) 0.2 (by norm_num)
    (by norm_num)
  have h65 := clamp_gt_iff (1 / (1 + M.exp (-(m.score features)))) 0.65 (by norm_num)
    (by norm_num)
  have h35 := clamp_lt_iff (1 / (1 + M.exp (-(m.score features)))) 0.35 (by norm_num)
    (by norm_num)
  rw [hc, hp]
  simp only [h80, h20, h65, h35]

/-! ## Theorems: regional modifier and table lookups (historicalData.js) -/

theorem predictFromHistoricalData_some (M : JsMath) (pi lat lon : ℚ) (month : Nat)
    (dayOfYear : Int) (random : ℚ) (h1 : 1 ≤ month) (h12 : month ≤ 12) :
    ∃ base t r, monthEntry (zoneMonthly (getClimateZone lat)) month = some base ∧
      (if lat < 0 then (zoneAvgTemp (getClimateZone lat))[(month + 5) % 12]?
        else monthEntry (zoneAvgTemp (getClimateZone lat)) month) = some t ∧
      predictFromHistoricalData M pi lat lon month dayOfYear random = some r ∧
      r.rainProbability = max 0.05 (min 0.85 (base * getRegionalModifier lat lon month
        + (M.sin (dayOfYear * 2 * pi / 365) * 0.1
          + (|M.sin (lat * 0.1) * M.cos (lon * 0.1)| * 0.3 - 0.15)
          + (if |jsRem lon 30| < 15 then 0.05 else -0.02)
          + (if |lat| > 45 then 0.03 else 0)))) ∧
      r.avgTemp = t + (random - 0.5) * 6 := by
  obtain ⟨b, hb⟩ := monthEntry_defined (zoneMonthly (getClimateZone lat)) month
    (zoneMonthly_length _) h1 h12
  obtain ⟨t, ht⟩ := monthEntry_defined (zoneAvgTemp (getClimateZone lat)) month
    (zoneAvgTemp_length _) h1 h12
  obtain ⟨t2, ht2⟩ := shifted_defined (zoneAvgTemp (getClimateZone lat)) month
    (zoneAvgTemp_length _)
  by_cases hlat : lat < 0
  · refine ⟨b, t2, _, hb, by simp only [hlat, if_true, ht2], by
      simp only [predictFromHistoricalData, hb, ht, ht2, hlat, if_true,
        Option.bind_eq_bind, Option.some_bind, Option.pure_def]; rfl, rfl, rfl⟩
  · refine ⟨b, t, _, hb, by simp only [hlat, if_false, ht], by
      simp only [predictFromHistoricalData, hb, ht, hlat, if_false,
        Option.bind_eq_bind, Option.some_bind, Option.pure_def]; rfl, rfl, rfl⟩

theorem desert_cases (lat lon : ℚ)
    (hd : desertRegions.any (fun desert => desert.contains lat lon) = true) :
    (20 ≤ lat ∧ lat ≤ 35 ∧ -120 ≤ lon ∧ lon ≤ -100) ∨
    (15 ≤ lat ∧ lat ≤ 35 ∧ 10 ≤ lon ∧ lon ≤ 50) ∨
    (-35 ≤ lat ∧ lat ≤ -15 ∧ 110 ≤ lon ∧ lon ≤ 140) := by
  simpa [desertRegions, Region.contains, and_assoc] using hd

theorem desert_not_monsoon (lat lon : ℚ)
    (hd : desertRegions.any (fun desert => desert.contains lat lon) = true) :
    monsoonRegion.contains lat lon = false := by
  have h := desert_cases lat lon hd
  by_contra hc
  have hm : 5 ≤ lat ∧ lat ≤ 30 ∧ 60 ≤ lon ∧ lon ≤ 140 := by
    simpa [monsoonRegion, Region.contains, and_assoc] using hc
  rcases h with h | h | h
  · linarith [h.2.2.2, hm.2.2.1]
  · linarith [h.2.2.2, hm.2.2.1]
  · linarith [h.2.1, hm.1]

theorem getRegionalModifier_desert (lat lon : ℚ) (month : Nat)
    (hd : desertRegions.any (fun desert => desert.contains lat lon) = true) :
    getRegionalModifier lat lon month
      = (if mediterraneanRegion.contains lat lon then orNum (mediterraneanModifier month) 1
          else 1) * 0.15 := by
  have hm := desert_not_monsoon lat lon hd
  unfold getRegionalModifier
  simp only [hm, hd, Bool.false_eq_true, if_false, if_true, desertModifier]
  split_ifs <;> norm_num

/-- C16 (as stated, refuted): the point lat 32, lon 20 lies in the second desert
box and January is outside the monsoon season, but `getRegionalModifier` returns
`0.21` (the Mediterranean factor `1.4` times `0.15`), not `0.15`. -/
theorem getRegionalModifier_desert_not_exact :
    desertRegions.any (fun desert => desert.contains 32 20) = true ∧
    monsoonRegion.contains 32 20 = false ∧
    getRegionalModifier 32 20 1 = 0.21 ∧
    getRegionalModifier 32 20 1 ≠ 0.15 := by
  have hd : desertRegions.any (fun desert => desert.contains 32 20) = true := by
    norm_num [desertRegions, Region.contains]
  have hmed : mediterraneanRegion.contains 32 20 = true := by
    norm_num [mediterraneanRegion, Region.contains]
  have hv : getRegionalModifier 32 20 1 = 0.21 := by
    rw [getRegionalModifier_desert 32 20 1 hd, hmed]
    norm_num [mediterraneanModifier, orNum]
  refine ⟨hd, desert_not_monsoon 32 20 hd, hv, ?_⟩
  rw [hv]
  norm_num

/-- C16 (amended): for every coordinate inside one of the three desert boxes and
every month, the point is outside the monsoon band and `getRegionalModifier`
returns `0.15` times the Mediterranean factor of the month when the point is
also in the Mediterranean band (lat 30..45, lon -10..45), and exactly `0.15`
otherwise; for a month in 1..12, `predictFromHistoricalData` then clamps the
zone/month baseline times that modifier plus the additive adjustments. -/
theorem getRegionalModifier_desert_factor (M : JsMath) (pi lat lon : ℚ) (month : Nat)
    (dayOfYear : Int) (random : ℚ) (h1 : 1 ≤ month) (h12 : month ≤ 12)
    (hd : desertRegions.any (fun desert => desert.contains lat lon) = true) :
    monsoonRegion.contains lat lon = false ∧
    getRegionalModifier lat lon month
      = (if mediterraneanRegion.contains lat lon then orNum (mediterraneanModifier month) 1
          else 1) * 0.15 ∧
    (mediterraneanRegion.contains lat lon = false → getRegionalModifier lat lon month = 0.15) ∧
    ∃ base r, monthEntry (zoneMonthly (getClimateZone lat)) month = some base ∧
      predictFromHistoricalData M pi lat lon month dayOfYear random = some r ∧
      r.rainProbability = max 0.05 (min 0.85 (base * getRegionalModifier lat lon month
        + (M.sin (dayOfYear * 2 * pi / 365) * 0.1
          + (|M.sin (lat * 0.1) * M.cos (lon * 0.1)| * 0.3 - 0.15)
          + (if |jsRem lon 30| < 15 then 0.05 else -0.02)
          + (if |lat| > 45 then 0.03 else 0)))) := by
  have hg := getRegionalModifier_desert lat lon month hd
  obtain ⟨base, t, r, hb, _, hr, hrain, _⟩ :=
    predictFromHistoricalData_some M pi lat lon month dayOfYear random h1 h12
  refine ⟨desert_not_monsoon lat lon hd, hg, ?_, base, r, hb, hr, hrain⟩
  intro hmed
  rw [hg, hmed]
  norm_num

/-- Witness for C16: lat 25, lon -110 (first desert box), January. -/
theorem getRegionalModifier_desert_factor_witness : getRegionalModifier 25 (-110) 1 = 0.15 :=
  (getRegionalModifier_desert_factor zeroMath 3 25 (-110) 1 15 0.5 (by decide) (by decide)
    (by norm_num [desertRegions, Region.contains])).2.2.1
    (by norm_num [mediterraneanRegion, Region.contains])

theorem tempByZone_eq (z : ClimateZone) : MlPredictor.tempByZone z = zoneAvgTemp z := by
  cases z <;> rfl

/-- C17: for a southern-hemisphere latitude and a month `m` in 1..12, the
temperature lookup of `predictFromHistoricalData` and of `getSeasonalTemp` uses
index `(m + 5) mod 12`, which lies in 0..11 and is the index of the month six
months after `m`; for lat = -33.87 and `m = 1` the index is 6 and the entry is
the subtropical July value 35, not the January value 18. -/
theorem southern_temperature_lookup (M : JsMath) (pi lat lon : ℚ) (month : Nat)
    (dayOfYear : Int) (random : ℚ) (hlat : lat < 0) (h1 : 1 ≤ month) (h12 : month ≤ 12) :
    (month + 5) % 12 < 12 ∧ (month + 5) % 12 = (month - 1 + 6) % 12 ∧
    (∃ t r, (zoneAvgTemp (getClimateZone lat))[(month + 5) % 12]? = some t ∧
      predictFromHistoricalData M pi lat lon month dayOfYear random = some r ∧
      r.avgTemp = t + (random - 0.5) * 6 ∧
      MlPredictor.seasonalTempEntry lat month = some t ∧
      MlPredictor.getSeasonalTemp lat month random = some (t + (random - 0.5) * 6)) ∧
    getClimateZone (-33.87) = .subtropical ∧
    (zoneAvgTemp (getClimateZone (-33.87)))[(1 + 5) % 12]? = some 35 ∧
    MlPredictor.seasonalTempEntry (-33.87) 1 = some 35 ∧
    monthEntry (zoneAvgTemp (getClimateZone (-33.87))) 1 = some 18 := by
  obtain ⟨base, t, r, _, ht, hr, _, havg⟩ :=
    predictFromHistoricalData_some M pi lat lon month dayOfYear random h1 h12
  rw [if_pos hlat] at ht
  have hzone : MlPredictor.getClimateZone lat = getClimateZone lat := rfl
  have hentry : MlPredictor.seasonalTempEntry lat month = some t := by
    simp only [MlPredictor.seasonalTempEntry, hzone, tempByZone_eq, if_pos hlat, ht]
  have hz : getClimateZone (-33.87) = .subtropical := by
    norm_num [getClimateZone, abs_of_neg]
  have hz2 : MlPredictor.getClimateZone (-33.87) = .subtropical := hz
  refine ⟨Nat.mod_lt _ (by norm_num), by omega, ⟨t, r, ht, hr, havg, hentry, ?_⟩, hz, ?_, ?_, ?_⟩
  · simp only [MlPredictor.getSeasonalTemp, hentry, Option.map_some']
  · rw [hz]
    rfl
  · have hneg : ((-33.87 : ℚ) < 0) := by norm_num
    simp only [MlPredictor.seasonalTempEntry, hz2, if_pos hneg]
    rfl
  · rw [hz]
    rfl

/-- Witness for C17: lat = -33.87, January. -/
theorem southern_temperature_lookup_witness :
    MlPredictor.seasonalTempEntry (-33.87) 1 = some 35 :=
  (southern_temperature_lookup zeroMath 3 (-33.87) 151.2 1 15 0.5 (by norm_num) (by decide)
    (by decide)).2.2.2.2.2.1

/-- C18: `getClimateZone` returns the zone given by the absolute-value
thresholds (equatorial up to 10, tropical up to 23.5, subtropical up to 35,
temperate up to 60, polar above), exactly one zone for every latitude; for every
month in 1..12 the zone's rain-probability and temperature lookups are defined
and `predictFromHistoricalData` returns a record. -/
theorem getClimateZone_thresholds (M : JsMath) (pi lat lon : ℚ) (month : Nat)
    (dayOfYear : Int) (random : ℚ) (h1 : 1 ≤ month) (h12 : month ≤ 12) :
    (getClimateZone lat = .equatorial ↔ |lat| ≤ 10) ∧
    (getClimateZone lat = .tropical ↔ 10 < |lat| ∧ |lat| ≤ 23.5) ∧
    (getClimateZone lat = .subtropical ↔ 23.5 < |lat| ∧ |lat| ≤ 35) ∧
    (getClimateZone lat = .temperate ↔ 35 < |lat| ∧ |lat| ≤ 60) ∧
    (getClimateZone lat = .polar ↔ 60 < |lat|) ∧
    (∃ v, monthEntry (zoneMonthly (getClimateZone lat)) month = some v) ∧
    (∃ t, monthEntry (zoneAvgTemp (getClimateZone lat)) month = some t) ∧
    (∃ t, (zoneAvgTemp (getClimateZone lat))[(month + 5) % 12]? = some t) ∧
    (∃ r, predictFromHistoricalData M pi lat lon month dayOfYear random = some r) := by
  obtain ⟨base, t, r, hb, _, hr, _, _⟩ :=
    predictFromHistoricalData_some M pi lat lon month dayOfYear random h1 h12
  refine ⟨?_, ?_, ?_, ?_, ?_, ⟨base, hb⟩,
    monthEntry_defined _ _ (zoneAvgTemp_length _) h1 h12,
    shifted_defined _ _ (zoneAvgTemp_length _), ⟨r, hr⟩⟩
  all_goals
    unfold getClimateZone
    simp only []
    split_ifs <;> constructor <;> intro h <;>
      first
        | rfl
        | exact absurd h (by decide)
        | (constructor <;> linarith)
        | linarith

/-- Witness for C18: latitude 19.076 (tropical), July. -/
theorem getClimateZone_thresholds_witness :
    ∃ r, predictFromHistoricalData zeroMath 3 19.076 72.8777 7 196 0.5 = some r :=
  (getClimateZone_thresholds zeroMath 3 19.076 72.8777 7 196 0.5 (by decide)
    (by decide)).2.2.2.2.2.2.2.2

/-! ## Theorems: the matched entry and its details (rainLogic.js) -/

theorem orNum_orNum (x : Option ℚ) (d : ℚ) (hd : d ≠ 0) :
    orNum (some (orNum x d)) d = orNum x d := by
  cases x with
  | none => simp [orNum, hd]
  | some v =>
    by_cases hv : v = 0
    · simp [orNum, hv, hd]
    · simp [orNum, hv]

theorem hourlyForDate_ok (weatherData : WeatherData) (targetDate : TargetDate)
    (hs : List HourlyEntry) (hhs : weatherData.hourly = some hs)
    (h : ∀ hour ∈ hs, inTargetDay targetDate hour = true →
      (∃ s, toISOString hour.dt = .ok s) ∧ hour.weather ≠ none) :
    ∃ hourly, hourlyForDate weatherData targetDate = .ok hourly ∧
      hourly.length = (hs.filter (inTargetDay targetDate)).length := by
  simp only [hourlyForDate, hhs]
  exact mapHourly_ok _ (fun hour hm => h hour (List.mem_filter.1 hm).1 (List.mem_filter.1 hm).2)

theorem hourlyForDate_error (weatherData : WeatherData) (targetDate : TargetDate)
    (hs : List HourlyEntry) (hhs : weatherData.hourly = some hs)
    (h : ∃ hour ∈ hs, inTargetDay targetDate hour = true ∧
      ((∀ s, toISOString hour.dt ≠ .ok s) ∨ hour.weather = none)) :
    ∃ err, hourlyForDate weatherData targetDate = .error err ∧
      (err = "RangeError" ∨ err = "TypeError") := by
  simp only [hourlyForDate, hhs]
  obtain ⟨hour, hm, hday, hbad⟩ := h
  exact mapHourly_error _ ⟨hour, List.mem_filter.2 ⟨hm, hday⟩, hbad⟩

/-- C21 (as stated, refuted): a response whose only daily entry falls on the
target day but which has no `hourly` list gives no record, the call throws a
`TypeError`; so does a response with an hourly entry of the target day that has
no `weather`; and a daily entry whose `dt` is beyond the range of `Date`, placed
before the entry of the target day, makes the call throw a `RangeError`. -/
theorem determineRainVerdict_no_record :
    forecastDate (bareDaily 0).dt = .ok 0 ∧
    determineRainVerdict zeroMath ⟨0, 0, [bareDaily 0], none⟩ ⟨0, 1⟩ 0 = .error "TypeError" ∧
    determineRainVerdict zeroMath
      ⟨0, 0, [bareDaily 0], some [⟨some 3600, some 1, none, none, none, none, none⟩]⟩ ⟨0, 1⟩ 0
      = .error "TypeError" ∧
    determineRainVerdict zeroMath
      ⟨0, 0, [bareDaily 8640000000001, { bareDaily 0 with pop := some 0.9 }], some []⟩ ⟨0, 1⟩ 0
      = .error "RangeError" := by
  refine ⟨?_, ?_, ?_, ?_⟩
  · simp [forecastDate, toISOString, bareDaily, maxTimeValue]
  · simp [determineRainVerdict, findTargetForecast, findForecast, forecastDate, toISOString,
      hourlyForDate, bareDaily, maxTimeValue]
  · simp [determineRainVerdict, findTargetForecast, findForecast, forecastDate, toISOString,
      hourlyForDate, mapHourly, hourlyOut, inTargetDay, targetDateStart, bareDaily, maxTimeValue]
  · simp [determineRainVerdict, findTargetForecast, findForecast, forecastDate, toISOString,
      bareDaily, maxTimeValue]

/-- C21 (amended): `determineRainVerdict` visits the daily entries in order up
to the first one whose UTC calendar date equals the target date. When every
entry before that one has a `dt` that `Date` can represent, the response has an
`hourly` list and every hourly entry of the target day has a representable `dt`
and a `weather` array, it returns a record tagged `["openweathermap"]` built
from that first entry, with one hourly item for each hourly entry of the day;
when the entry is matched but the response has no `hourly` list it throws a
`TypeError`, and when an hourly entry of the day lacks a representable `dt` or a
`weather` array it throws a `RangeError` or a `TypeError`. When every daily
entry has a representable `dt` and none falls on the target date, it returns
exactly the result of `generateSimplePrediction` for the same lat, lon and date,
which is tagged `["climate_forecast"]`. When an entry with an absent or
unrepresentable `dt` is reached before any match, it throws a `RangeError`. -/
theorem determineRainVerdict_source (M : JsMath) (weatherData : WeatherData)
    (targetDate : TargetDate) (daysAhead : Int) :
    (∀ before e after, weatherData.daily = before ++ e :: after →
      (∀ d ∈ before, ∃ date, forecastDate d.dt = .ok date ∧ date ≠ targetDate.day) →
      forecastDate e.dt = .ok targetDate.day →
      (∀ hs, weatherData.hourly = some hs →
        (∀ hour ∈ hs, inTargetDay targetDate hour = true →
          (∃ s, toISOString hour.dt = .ok s) ∧ hour.weather ≠ none) →
        ∃ r, determineRainVerdict M weatherData targetDate daysAhead = .ok r ∧
          r.source = ["openweathermap"] ∧
          hourlyForDate weatherData targetDate = .ok r.hourly ∧
          r.hourly.length = (hs.filter (inTargetDay targetDate)).length ∧
          r.probability = combinedPop (orNum e.pop 0) r.hourly ∧
          (r.verdict, r.confidence)
            = verdictAndConfidence (combinedPop (orNum e.pop 0) r.hourly) (totalPrecip e) ∧
          r.daily.temp = e.temp.getD { day := 20, morn := 15, eve := 18, night := 12 }) ∧
      (weatherData.hourly = none →
        determineRainVerdict M weatherData targetDate daysAhead = .error "TypeError") ∧
      (∀ hs, weatherData.hourly = some hs →
        (∃ hour ∈ hs, inTargetDay targetDate hour = true ∧
          ((∀ s, toISOString hour.dt ≠ .ok s) ∨ hour.weather = none)) →
        ∃ err, determineRainVerdict M weatherData targetDate daysAhead = .error err ∧
          (err = "RangeError" ∨ err = "TypeError"))) ∧
    ((∀ d ∈ weatherData.daily, ∃ date, forecastDate d.dt = .ok date ∧ date ≠ targetDate.day) →
      determineRainVerdict M weatherData targetDate daysAhead
        = .ok (generateSimplePrediction M weatherData.lat weatherData.lon targetDate daysAhead) ∧
      (generateSimplePrediction M weatherData.lat weatherData.lon targetDate daysAhead).source
        = ["climate_forecast"]) ∧
    (∀ before e after, weatherData.daily = before ++ e :: after →
      (∀ d ∈ before, ∃ date, forecastDate d.dt = .ok date ∧ date ≠ targetDate.day) →
      (∀ date, forecastDate e.dt ≠ .ok date) →
      determineRainVerdict M weatherData targetDate daysAhead = .error "RangeError") := by
  refine ⟨?_, ?_, ?_⟩
  · intro before e after hsplit hbefore he
    have hfind : findTargetForecast weatherData targetDate = .ok (some e) := by
      unfold findTargetForecast
      rw [hsplit]
      exact findForecast_match targetDate before e after hbefore he
    refine ⟨?_, ?_, ?_⟩
    · intro hs hhs hall
      obtain ⟨hourly, hhourly, hlen⟩ := hourlyForDate_ok weatherData targetDate hs hhs hall
      obtain ⟨r, hr, h1, h2, h3, h4, _, _, _, _, h5⟩ :=
        determineRainVerdict_of_match M weatherData targetDate daysAhead e hourly hfind hhourly
      rw [← h5] at hhourly hlen h2 h3
      exact ⟨r, hr, h1, hhourly, hlen, h2, h3, h4⟩
    · intro hnone
      have herr : hourlyForDate weatherData targetDate = .error "TypeError" := by
        simp only [hourlyForDate, hnone]
      exact determineRainVerdict_of_hourly_error M weatherData targetDate daysAhead e _ hfind
        herr
    · intro hs hhs hbad
      obtain ⟨err, herr, hkind⟩ := hourlyForDate_error weatherData targetDate hs hhs hbad
      exact ⟨err, determineRainVerdict_of_hourly_error M weatherData targetDate daysAhead e err
        hfind herr, hkind⟩
  · intro hnone
    have hfind : findTargetForecast weatherData targetDate = .ok none :=
      findForecast_none targetDate weatherData.daily hnone
    refine ⟨?_, rfl⟩
    simp only [determineRainVerdict, hfind]
  · intro before e after hsplit hbefore he
    cases hdate : forecastDate e.dt with
    | ok date => exact absurd hdate (he date)
    | error err =>
      have herr := forecastDate_error e.dt err hdate
      subst herr
      have hfind : findTargetForecast weatherData targetDate = .error "RangeError" := by
        unfold findTargetForecast
        rw [hsplit]
        exact findForecast_error targetDate before e after _ hbefore hdate
      simp only [determineRainVerdict, hfind]

/-- Witness for C21: a forecast of two days with one hourly entry on the second,
asked for the second day. -/
theorem determineRainVerdict_source_witness :
    ∃ r, determineRainVerdict zeroMath
        ⟨0, 0, [bareDaily 0, { bareDaily 86400 with pop := some 0.9 }],
          some [⟨some 90000, some 1, none, none, none, none, some []⟩]⟩ ⟨1, 1⟩ 0 = .ok r ∧
      r.source = ["openweathermap"] ∧ r.hourly.length = 1 := by
  obtain ⟨r, hr, hs, _, hlen, _⟩ := ((determineRainVerdict_source zeroMath
    ⟨0, 0, [bareDaily 0, { bareDaily 86400 with pop := some 0.9 }],
      some [⟨some 90000, some 1, none, none, none, none, some []⟩]⟩ ⟨1, 1⟩ 0).1
    [bareDaily 0] { bareDaily 86400 with pop := some 0.9 } [] rfl
    (by
      intro d hd
      simp only [List.mem_singleton] at hd
      subst hd
      exact ⟨0, by simp [forecastDate, toISOString, bareDaily, maxTimeValue], by decide⟩)
    (by simp [forecastDate, toISOString, bareDaily, maxTimeValue])).1
    [⟨some 90000, some 1, none, none, none, none, some []⟩] rfl
    (by
      intro hour hh _
      simp only [List.mem_singleton] at hh
      subst hh
      exact ⟨⟨90000, by simp [toISOString, maxTimeValue]⟩, by simp⟩)
  refine ⟨r, hr, hs, ?_⟩
  rw [hlen]
  simp [inTargetDay, targetDateStart, maxTimeValue]

theorem determineRainVerdict_daily_defaults (M : JsMath) (weatherData : WeatherData)
    (targetDate : TargetDate) (daysAhead : Int) (e : DailyEntry) (hourly : List HourlyOut)
    (hfind : findTargetForecast weatherData targetDate = .ok (some e))
    (hhourly : hourlyForDate weatherData targetDate = .ok hourly) :
    ∃ r, determineRainVerdict M weatherData targetDate daysAhead = .ok r ∧
      (e.clouds = none → r.daily.clouds = 30) ∧
      (∀ v, e.clouds = some v → v ≠ 0 → r.daily.clouds = v) ∧
      (e.clouds = some 0 → r.daily.clouds = 30) := by
  obtain ⟨r, hr, _, _, _, _, _, _, _, hc, _⟩ :=
    determineRainVerdict_of_match M weatherData targetDate daysAhead e hourly hfind hhourly
  refine ⟨r, hr, ?_⟩
  rw [hc, orNum_orNum _ _ (by norm_num)]
  refine ⟨fun h => by simp [h, orNum], fun v h hv => by simp [h, orNum, hv],
    fun h => by simp [h, orNum]⟩

/-- C22 (failing input): a matched entry reporting `clouds = 0` and
`wind_speed = 0` comes back with the sentinels `clouds = 30` and
`wind_speed = 5` in `details.daily` of the returned record, not with the
provider's values; a value that is present and not zero (`humidity = 45`) is
kept. -/
theorem determineRainVerdict_zero_replaced :
    ∃ r, determineRainVerdict zeroMath clearCalmForecast ⟨0, 1⟩ 0 = .ok r ∧
      r.daily.clouds = 30 ∧ r.daily.wind_speed = 5 ∧ r.daily.humidity = 45 := by
  have hfind : findTargetForecast clearCalmForecast ⟨0, 1⟩
      = .ok (some
        { bareDaily 0 with clouds := some 0, wind_speed := some 0, humidity := some 45 }) :=
    bareDaily_found none (some 0) (some 0) (some 45) (some [])
  obtain ⟨r, hr, _, _, _, _, hh, hw, _, hc, _⟩ :=
    determineRainVerdict_of_match zeroMath clearCalmForecast ⟨0, 1⟩ 0 _ [] hfind rfl
  refine ⟨r, hr, ?_, ?_, ?_⟩
  · rw [hc]
    norm_num [orNum, bareDaily]
  · rw [hw]
    norm_num [orNum, bareDaily]
  · rw [hh]
    norm_num [orNum, bareDaily]

/-! ## Theorems: composition of the regional modifiers (historicalData.js) -/

theorem monsoon_contains_iff (lat lon : ℚ) :
    monsoonRegion.contains lat lon = true ↔ (5 ≤ lat ∧ lat ≤ 30 ∧ 60 ≤ lon ∧ lon ≤ 140) := by
  simp [monsoonRegion, Region.contains, and_assoc]

theorem mediterranean_contains_iff (lat lon : ℚ) :
    mediterraneanRegion.contains lat lon = true ↔
      (30 ≤ lat ∧ lat ≤ 45 ∧ -10 ≤ lon ∧ lon ≤ 45) := by
  simp [mediterraneanRegion, Region.contains, and_assoc]

theorem desert_any_iff (lat lon : ℚ) :
    desertRegions.any (fun desert => desert.contains lat lon) = true ↔
      ((20 ≤ lat ∧ lat ≤ 35 ∧ -120 ≤ lon ∧ lon ≤ -100) ∨
        (15 ≤ lat ∧ lat ≤ 35 ∧ 10 ≤ lon ∧ lon ≤ 50) ∨
        (-35 ≤ lat ∧ lat ≤ -15 ∧ 110 ≤ lon ∧ lon ≤ 140)) := by
  simp [desertRegions, Region.contains, and_assoc]

theorem orNum_monsoonModifier (month : Nat) :
    orNum (monsoonModifier month) 1 = (monsoonModifier month).getD 1 := by
  unfold monsoonModifier
  split <;> norm_num [orNum]

theorem orNum_mediterraneanModifier (month : Nat) :
    orNum (mediterraneanModifier month) 1 = (mediterraneanModifier month).getD 1 := by
  unfold mediterraneanModifier
  split <;> norm_num [orNum]

theorem getRegionalModifier_eq (lat lon : ℚ) (month : Nat) :
    getRegionalModifier lat lon month
      = (if monsoonRegion.contains lat lon = true then orNum (monsoonModifier month) 1 else 1)
        * (if mediterraneanRegion.contains lat lon = true then
            orNum (mediterraneanModifier month) 1 else 1)
        * (if desertRegions.any (fun desert => desert.contains lat lon) = true then 0.15
            else 1) := by
  unfold getRegionalModifier
  simp only [desertModifier]
  split_ifs <;> norm_num

/-- C23: `getRegionalModifier` is the product of three factors: the monsoon table
value of the month (1 when the month has no entry) if the point is in the band
lat 5..30 / lon 60..140, else 1; the Mediterranean table value of the month (1
when it has no entry) if the point is in the band lat 30..45 / lon -10..45, else
1; and 0.15 if the point is in at least one desert box, else 1. The product does
not depend on the order of the factors. -/
theorem getRegionalModifier_product (lat lon : ℚ) (month : Nat) :
    ∃ a b c : ℚ,
      a = (if 5 ≤ lat ∧ lat ≤ 30 ∧ 60 ≤ lon ∧ lon ≤ 140 then
        (monsoonModifier month).getD 1 else 1) ∧
      b = (if 30 ≤ lat ∧ lat ≤ 45 ∧ -10 ≤ lon ∧ lon ≤ 45 then
        (mediterraneanModifier month).getD 1 else 1) ∧
      c = (if (20 ≤ lat ∧ lat ≤ 35 ∧ -120 ≤ lon ∧ lon ≤ -100) ∨
          (15 ≤ lat ∧ lat ≤ 35 ∧ 10 ≤ lon ∧ lon ≤ 50) ∨
          (-35 ≤ lat ∧ lat ≤ -15 ∧ 110 ≤ lon ∧ lon ≤ 140) then 0.15 else 1) ∧
      getRegionalModifier lat lon month = a * b * c ∧
      getRegionalModifier lat lon month = a * c * b ∧
      getRegionalModifier lat lon month = b * a * c ∧
      getRegionalModifier lat lon month = b * c * a ∧
      getRegionalModifier lat lon month = c * a * b ∧
      getRegionalModifier lat lon month = c * b * a := by
  have h : getRegionalModifier lat lon month
      = (if 5 ≤ lat ∧ lat ≤ 30 ∧ 60 ≤ lon ∧ lon ≤ 140 then
          (monsoonModifier month).getD 1 else 1)
        * (if 30 ≤ lat ∧ lat ≤ 45 ∧ -10 ≤ lon ∧ lon ≤ 45 then
          (mediterraneanModifier month).getD 1 else 1)
        * (if (20 ≤ lat ∧ lat ≤ 35 ∧ -120 ≤ lon ∧ lon ≤ -100) ∨
            (15 ≤ lat ∧ lat ≤ 35 ∧ 10 ≤ lon ∧ lon ≤ 50) ∨
            (-35 ≤ lat ∧ lat ≤ -15 ∧ 110 ≤ lon ∧ lon ≤ 140) then 0.15 else 1) := by
    rw [getRegionalModifier_eq]
    simp only [monsoon_contains_iff, mediterranean_contains_iff, desert_any_iff,
      orNum_monsoonModifier, orNum_mediterraneanModifier]
  refine ⟨_, _, _, rfl, rfl, rfl, h, ?_, ?_, ?_, ?_, ?_⟩ <;> rw [h] <;> ring

/-- C26: no point lies both in the monsoon band and in a desert box, none lies
both in the monsoon band and in the Mediterranean band, and at most one desert
box contains a given point; a point is in the Mediterranean band and in a desert
box exactly when lat is in 30..35 and lon in 10..45. Hence `getRegionalModifier`
is the monsoon factor alone inside the monsoon band, and otherwise the
Mediterranean factor times the desert factor, the only two that can combine. -/
theorem regional_bands_disjoint (lat lon : ℚ) (month : Nat) :
    ¬ (monsoonRegion.contains lat lon = true ∧
        desertRegions.any (fun desert => desert.contains lat lon) = true) ∧
    ¬ (monsoonRegion.contains lat lon = true ∧ mediterraneanRegion.contains lat lon = true) ∧
    (∀ d1 ∈ desertRegions, ∀ d2 ∈ desertRegions,
      d1.contains lat lon = true → d2.contains lat lon = true → d1 = d2) ∧
    ((mediterraneanRegion.contains lat lon = true ∧
        desertRegions.any (fun desert => desert.contains lat lon) = true) ↔
      (30 ≤ lat ∧ lat ≤ 35 ∧ 10 ≤ lon ∧ lon ≤ 45)) ∧
    (monsoonRegion.contains lat lon = true →
      getRegionalModifier lat lon month = orNum (monsoonModifier month) 1) ∧
    (monsoonRegion.contains lat lon = false →
      getRegionalModifier lat lon month
        = (if mediterraneanRegion.contains lat lon = true then
            orNum (mediterraneanModifier month) 1 else 1)
          * (if desertRegions.any (fun desert => desert.contains lat lon) = true then 0.15
              else 1)) := by
  have h1 : ¬ (monsoonRegion.contains lat lon = true ∧
      desertRegions.any (fun desert => desert.contains lat lon) = true) := by
    rintro ⟨hm, hd⟩
    rw [desert_not_monsoon lat lon hd] at hm
    exact Bool.false_ne_true hm
  have h2 : ¬ (monsoonRegion.contains lat lon = true ∧
      mediterraneanRegion.contains lat lon = true) := by
    rw [monsoon_contains_iff, mediterranean_contains_iff]
    rintro ⟨hm, hmed⟩
    linarith [hm.2.2.1, hmed.2.2.2]
  refine ⟨h1, h2, ?_, ?_, ?_, ?_⟩
  · intro d1 hd1 d2 hd2 hc1 hc2
    simp only [desertRegions, List.mem_cons, List.mem_singleton, List.not_mem_nil,
      or_false] at hd1 hd2
    rcases hd1 with rfl | rfl | rfl <;> rcases hd2 with rfl | rfl | rfl <;>
      first
        | rfl
        | (exfalso
           simp only [Region.contains, Bool.and_eq_true, decide_eq_true_eq] at hc1 hc2
           linarith [hc1.1.2, hc1.2, hc2.1.2, hc2.2])
  · rw [mediterranean_contains_iff, desert_any_iff]
    constructor
    · rintro ⟨hmed, hd | hd | hd⟩
      · linarith [hmed.2.2.1, hd.2.2.2]
      · exact ⟨hmed.1, hd.2.1, hd.2.2.1, hmed.2.2.2⟩
      · linarith [hmed.1, hd.2.1]
    · rintro ⟨a1, a2, a3, a4⟩
      exact ⟨⟨a1, by linarith, by linarith, a4⟩,
        Or.inr (Or.inl ⟨by linarith, a2, a3, by linarith⟩)⟩
  · intro hm
    have hmed : ¬ mediterraneanRegion.contains lat lon = true := fun h => h2 ⟨hm, h⟩
    have hd : ¬ desertRegions.any (fun desert => desert.contains lat lon) = true :=
      fun h => h1 ⟨hm, h⟩
    rw [getRegionalModifier_eq, if_pos hm, if_neg hmed, if_neg hd]
    ring
  · intro hm
    rw [getRegionalModifier_eq, hm]
    simp

/-! ## Theorems: recommendation lists and work status (sectorIntelligence.js) -/

theorem generateAdvancedRecommendations_items (sector : Sector) (weatherData : SectorWeather)
    (clockMonth clockHour : Nat) (r : AdvancedRecommendations)
    (hr : generateAdvancedRecommendations sector weatherData clockMonth clockHour = .ok r) :
    (sector = .agriculture ∧ r.recommendations
        = (generateAgricultureRecommendations (weatherParamsOf weatherData)).take 4) ∨
    (sector = .construction ∧ r.recommendations
        = (generateConstructionRecommendations (weatherParamsOf weatherData)).take 4) ∨
    (sector = .logistics ∧ r.recommendations
        = (generateLogisticsRecommendations (weatherParamsOf weatherData)).take 4) ∨
    (sector = .energy ∧ r.recommendations
        = (generateEnergyRecommendations (weatherParamsOf weatherData)).take 4) ∨
    (sector = .tourism ∧ r.recommendations
        = (generateTourismRecommendations (weatherParamsOf weatherData)).take 4) ∨
    (sector = .water ∧ r.recommendations
        = (generateWaterRecommendations (weatherParamsOf weatherData)).take 4) := by
  have hk : alertLevels "[object Object]" = none := by simp [alertLevels]
  have hk2 : operationalImpact "[object Object]" = none := by simp [operationalImpact]
  cases sector
  case disaster =>
    simp only [generateAdvancedRecommendations, generateDisasterRecommendations,
      LevelArg.propertyKey, hk] at hr
    cases hr
  case industrial =>
    simp only [generateAdvancedRecommendations, generateIndustrialRecommendations,
      LevelArg.propertyKey, hk2] at hr
    cases hr
  all_goals
    have h2 := Except.ok.inj hr
    subst h2
    simp

theorem agriculture_no_flood_items (w : WeatherParams) (h : w.precipitation ≤ 10) :
    ∀ item ∈ generateAgricultureRecommendations w,
      item.title ≠ "Flood Protection Protocol" ∧ item.title ≠ "Flood Route Avoidance" ∧
      item.title ≠ "Tour Modification Required" ∧ item.title ≠ "Flood Management Activation" ∧
      item.title ≠ "Reservoir Level Management" := by
  have h10 : ¬ (w.precipitation > 10) := not_lt.2 h
  have h15 : ¬ (w.precipitation > 15) := not_lt.2 (by linarith)
  have h20 : ¬ (w.precipitation > 20) := not_lt.2 (by linarith)
  simp only [generateAgricultureRecommendations, pushIf, h10, h15, h20, decide_False, if_false,
    Bool.false_or]
  split_ifs <;> simp_all

theorem construction_no_flood_items (w : WeatherParams) (h : w.precipitation ≤ 10) :
    ∀ item ∈ generateConstructionRecommendations w,
      item.title ≠ "Flood Protection Protocol" ∧ item.title ≠ "Flood Route Avoidance" ∧
      item.title ≠ "Tour Modification Required" ∧ item.title ≠ "Flood Management Activation" ∧
      item.title ≠ "Reservoir Level Management" := by
  have h10 : ¬ (w.precipitation > 10) := not_lt.2 h
  have h15 : ¬ (w.precipitation > 15) := not_lt.2 (by linarith)
  have h20 : ¬ (w.precipitation > 20) := not_lt.2 (by linarith)
  simp only [generateConstructionRecommendations, pushIf, h10, h15, h20, decide_False, if_false,
    Bool.false_or]
  split_ifs <;> simp_all

theorem logistics_no_flood_items (w : WeatherParams) (h : w.precipitation ≤ 10) :
    ∀ item ∈ generateLogisticsRecommendations w,
      item.title ≠ "Flood Protection Protocol" ∧ item.title ≠ "Flood Route Avoidance" ∧
      item.title ≠ "Tour Modification Required" ∧ item.title ≠ "Flood Management Activation" ∧
      item.title ≠ "Reservoir Level Management" := by
  have h10 : ¬ (w.precipitation > 10) := not_lt.2 h
  have h15 : ¬ (w.precipitation > 15) := not_lt.2 (by linarith)
  have h20 : ¬ (w.precipitation > 20) := not_lt.2 (by linarith)
  simp only [generateLogisticsRecommendations, pushIf, h10, h15, h20, decide_False, if_false,
    Bool.false_or]
  split_ifs <;> simp_all

theorem energy_no_flood_items (w : WeatherParams) (h : w.precipitation ≤ 10) :
    ∀ item ∈ generateEnergyRecommendations w,
      item.title ≠ "Flood Protection Protocol" ∧ item.title ≠ "Flood Route Avoidance" ∧
      item.title ≠ "Tour Modification Required" ∧ item.title ≠ "Flood Management Activation" ∧
      item.title ≠ "Reservoir Level Management" := by
  have h10 : ¬ (w.precipitation > 10) := not_lt.2 h
  have h15 : ¬ (w.precipitation > 15) := not_lt.2 (by linarith)
  have h20 : ¬ (w.precipitation > 20) := not_lt.2 (by linarith)
  simp only [generateEnergyRecommendations, pushIf, h10, h15, h20, decide_False, if_false,
    Bool.false_or]
  split_ifs <;> simp_all

theorem tourism_no_flood_items (w : WeatherParams) (h : w.precipitation ≤ 10) :
    ∀ item ∈ generateTourismRecommendations w,
      item.title ≠ "Flood Protection Protocol" ∧ item.title ≠ "Flood Route Avoidance" ∧
      item.title ≠ "Tour Modification Required" ∧ item.title ≠ "Flood Management Activation" ∧
      item.title ≠ "Reservoir Level Management" := by
  have h10 : ¬ (w.precipitation > 10) := not_lt.2 h
  have h15 : ¬ (w.precipitation > 15) := not_lt.2 (by linarith)
  have h20 : ¬ (w.precipitation > 20) := not_lt.2 (by linarith)
  simp only [generateTourismRecommendations, pushIf, h10, h15, h20, decide_False, if_false,
    Bool.false_or]
  split_ifs <;> simp_all

theorem water_no_flood_items (w : WeatherParams) (h : w.precipitation ≤ 10) :
    ∀ item ∈ generateWaterRecommendations w,
      item.title ≠ "Flood Protection Protocol" ∧ item.title ≠ "Flood Route Avoidance" ∧
      item.title ≠ "Tour Modification Required" ∧ item.title ≠ "Flood Management Activation" ∧
      item.title ≠ "Reservoir Level Management" := by
  have h10 : ¬ (w.precipitation > 10) := not_lt.2 h
  have h15 : ¬ (w.precipitation > 15) := not_lt.2 (by linarith)
  have h20 : ¬ (w.precipitation > 20) := not_lt.2 (by linarith)
  simp only [generateWaterRecommendations, pushIf, h10, h15, h20, decide_False, if_false,
    Bool.false_or]
  split_ifs <;> simp_all

theorem energy_nonempty (w : WeatherParams) :
    1 ≤ ((generateEnergyRecommendations w).take 4).length := by
  simp only [generateEnergyRecommendations, List.singleton_append, List.cons_append,
    List.length_take, List.length_cons]
  omega


/-- C24 (as stated, refuted): for sector agriculture with probability 0.75,
temperature 18, humidity 80 and wind speed 5.2 the function returns a record
whose recommendations list is empty. -/
theorem generateAdvancedRecommendations_empty_list :
    (0.05 : ℚ) ≤ testAgricultureWeather.probability ∧
    testAgricultureWeather.probability ≤ 0.95 ∧
    ∃ r, generateAdvancedRecommendations .agriculture testAgricultureWeather 0 12 = .ok r ∧
      r.recommendations = [] := by
  have hitems : generateAgricultureRecommendations (weatherParamsOf testAgricultureWeather)
      = [] := by
    norm_num [generateAgricultureRecommendations, weatherParamsOf, testAgricultureWeather,
      temperatureOf, pushIf, TempValue.gt, orNum]
  obtain ⟨r, hr, _⟩ := generateAdvancedRecommendations_other_sectors .agriculture
    testAgricultureWeather 0 12 (by decide) (by decide)
  refine ⟨by norm_num [testAgricultureWeather], by norm_num [testAgricultureWeather], r, hr, ?_⟩
  rcases generateAdvancedRecommendations_items _ _ _ _ r hr with
    h | h | h | h | h | h
  · rw [h.2, hitems]
    rfl
  all_goals exact absurd h.1 (by decide)

/-- C24 (amended): for every supported sector other than disaster and industrial
and every prediction record, `generateAdvancedRecommendations` returns a record
whose recommendations list holds at most four action items; the list may be
empty, and for sector energy it always holds at least one item. -/
theorem generateAdvancedRecommendations_at_most_four (sector : Sector)
    (weatherData : SectorWeather) (clockMonth clockHour : Nat)
    (hd : sector ≠ .disaster) (hi : sector ≠ .industrial) :
    ∃ r, generateAdvancedRecommendations sector weatherData clockMonth clockHour = .ok r ∧
      r.recommendations.length ≤ 4 ∧
      (sector = .energy → 1 ≤ r.recommendations.length) := by
  obtain ⟨r, hr, _, hlen⟩ := generateAdvancedRecommendations_other_sectors sector weatherData
    clockMonth clockHour hd hi
  refine ⟨r, hr, hlen, ?_⟩
  intro he
  rcases generateAdvancedRecommendations_items _ _ _ _ r hr with
    h | h | h | h | h | h
  · exact absurd (he ▸ h.1) (by decide)
  · exact absurd (he ▸ h.1) (by decide)
  · exact absurd (he ▸ h.1) (by decide)
  · rw [h.2]
    exact energy_nonempty _
  · exact absurd (he ▸ h.1) (by decide)
  · exact absurd (he ▸ h.1) (by decide)

/-- Witness for C24: sector energy on the record of the recommendations test. -/
theorem generateAdvancedRecommendations_at_most_four_witness :
    ∃ r, generateAdvancedRecommendations .energy testAgricultureWeather 0 12 = .ok r ∧
      r.recommendations.length ≤ 4 ∧ 1 ≤ r.recommendations.length := by
  obtain ⟨r, h1, h2, h3⟩ := generateAdvancedRecommendations_at_most_four .energy
    testAgricultureWeather 0 12 (by decide) (by decide)
  exact ⟨r, h1, h2, h3 rfl⟩

theorem canWork_false_mono (sector : Sector) (l l' : RainLevel) (h : l.rank ≤ l'.rank)
    (hf : canWorkMatrix sector l = false) : canWorkMatrix sector l' = false := by
  cases sector <;> cases l <;> cases l' <;> simp_all [canWorkMatrix, RainLevel.rank]

theorem rainLevelOf_mono (p q : ℚ) (h : p ≤ q) : (rainLevelOf p).rank ≤ (rainLevelOf q).rank := by
  unfold rainLevelOf
  split_ifs <;> simp [RainLevel.rank] <;> linarith

/-- C27: in `generateWorkStatus`, for every sector, `canWork` false at one rain
level is false at every heavier level (minimal < light < moderate < heavy); the
rain level is monotone non-decreasing in the probability (heavy above 0.7,
moderate above 0.4, light above 0.1, else minimal); hence raising the
probability never turns `canWork` from false to true. -/
theorem canWork_monotone (sector : Sector) :
    (∀ l l' : RainLevel, l.rank ≤ l'.rank → ∀ w w' : SectorWeather,
      (generateWorkStatus sector l w).canWork = false →
      (generateWorkStatus sector l' w').canWork = false) ∧
    (∀ p : ℚ, (rainLevelOf p = .heavy ↔ 0.7 < p) ∧ (rainLevelOf p = .moderate ↔ 0.4 < p ∧ p ≤ 0.7) ∧
      (rainLevelOf p = .light ↔ 0.1 < p ∧ p ≤ 0.4) ∧ (rainLevelOf p = .minimal ↔ p ≤ 0.1)) ∧
    (∀ p q : ℚ, p ≤ q → (rainLevelOf p).rank ≤ (rainLevelOf q).rank) ∧
    (∀ w w' : SectorWeather, w.probability ≤ w'.probability →
      (generateWorkStatus sector (rainLevelOf w.probability) w).canWork = false →
      (generateWorkStatus sector (rainLevelOf w'.probability) w').canWork = false) := by
  refine ⟨?_, ?_, rainLevelOf_mono, ?_⟩
  · intro l l' h w w' hf
    exact canWork_false_mono sector l l' h hf
  · intro p
    unfold rainLevelOf
    refine ⟨?_, ?_, ?_, ?_⟩ <;> split_ifs <;> constructor <;> intro h <;>
      first
        | rfl
        | exact absurd h (by decide)
        | (constructor <;> linarith)
        | linarith
  · intro w w' h hf
    exact canWork_false_mono sector _ _ (rainLevelOf_mono _ _ h) hf

/-- C28: for a prediction record with probability at most 1 the precipitation
estimate is at most 10, so no helper produces 'Flood Protection Protocol',
'Flood Route Avoidance', 'Tour Modification Required', 'Flood Management
Activation' or 'Reservoir Level Management', and no record returned by
`generateAdvancedRecommendations` contains one of them. -/
theorem flood_items_unreachable (weatherData : SectorWeather)
    (hp : weatherData.probability ≤ 1) :
    (weatherParamsOf weatherData).precipitation = weatherData.probability * 10 ∧
    (weatherParamsOf weatherData).precipitation ≤ 10 ∧
    (∀ item ∈ generateAgricultureRecommendations (weatherParamsOf weatherData),
      item.title ≠ "Flood Protection Protocol") ∧
    (∀ item ∈ generateLogisticsRecommendations (weatherParamsOf weatherData),
      item.title ≠ "Flood Route Avoidance") ∧
    (∀ item ∈ generateTourismRecommendations (weatherParamsOf weatherData),
      item.title ≠ "Tour Modification Required") ∧
    (∀ item ∈ generateWaterRecommendations (weatherParamsOf weatherData),
      item.title ≠ "Flood Management Activation" ∧
      item.title ≠ "Reservoir Level Management") ∧
    (∀ (sector : Sector) (clockMonth clockHour : Nat) (r : AdvancedRecommendations),
      generateAdvancedRecommendations sector weatherData clockMonth clockHour = .ok r →
      ∀ item ∈ r.recommendations,
        item.title ≠ "Flood Protection Protocol" ∧ item.title ≠ "Flood Route Avoidance" ∧
        item.title ≠ "Tour Modification Required" ∧
        item.title ≠ "Flood Management Activation" ∧
        item.title ≠ "Reservoir Level Management") := by
  have hprec : (weatherParamsOf weatherData).precipitation = weatherData.probability * 10 := rfl
  have h10 : (weatherParamsOf weatherData).precipitation ≤ 10 := by
    rw [hprec]
    linarith
  refine ⟨hprec, h10, ?_, ?_, ?_, ?_, ?_⟩
  · intro item hmem
    exact (agriculture_no_flood_items _ h10 item hmem).1
  · intro item hmem
    exact (logistics_no_flood_items _ h10 item hmem).2.1
  · intro item hmem
    exact (tourism_no_flood_items _ h10 item hmem).2.2.1
  · intro item hmem
    exact ⟨(water_no_flood_items _ h10 item hmem).2.2.2.1,
      (water_no_flood_items _ h10 item hmem).2.2.2.2⟩
  · intro sector clockMonth clockHour r hr item hmem
    rcases generateAdvancedRecommendations_items _ _ _ _ r hr with
      h | h | h | h | h | h <;> rw [h.2] at hmem
    · exact agriculture_no_flood_items _ h10 item (List.mem_of_mem_take hmem)
    · exact construction_no_flood_items _ h10 item (List.mem_of_mem_take hmem)
    · exact logistics_no_flood_items _ h10 item (List.mem_of_mem_take hmem)
    · exact energy_no_flood_items _ h10 item (List.mem_of_mem_take hmem)
    · exact tourism_no_flood_items _ h10 item (List.mem_of_mem_take hmem)
    · exact water_no_flood_items _ h10 item (List.mem_of_mem_take hmem)

/-- Witness for C28: the record of the recommendations test, probability 0.75. -/
theorem flood_items_unreachable_witness :
    (weatherParamsOf testAgricultureWeather).precipitation ≤ 10 :=
  (flood_items_unreachable testAgricultureWeather (by norm_num [testAgricultureWeather])).2.1

/-! ## Theorems: the climate-zone classifiers and the trainer (modelTrainer.js) -/

theorem getClimateZone_neg (lat : ℚ) : getClimateZone (-lat) = getClimateZone lat := by
  simp only [getClimateZone, abs_neg]

theorem baseTemperatureZone_eq (lat : ℚ) :
    TrainingData.baseTemperatureZone lat = getClimateZone lat := by
  unfold TrainingData.baseTemperatureZone getClimateZone
  simp only []
  split_ifs <;> first | rfl | (exfalso; linarith)

/-- C25: the four latitude-to-zone classifiers agree on every latitude, and each
returns the same zone for `lat` and for `-lat`. -/
theorem climate_zone_classifiers_agree (lat : ℚ) :
    WeatherMLModel.getClimateZone lat = getClimateZone lat ∧
    MlPredictor.getClimateZone lat = getClimateZone lat ∧
    TrainingData.baseTemperatureZone lat = getClimateZone lat ∧
    getClimateZone (-lat) = getClimateZone lat ∧
    WeatherMLModel.getClimateZone (-lat) = WeatherMLModel.getClimateZone lat ∧
    MlPredictor.getClimateZone (-lat) = MlPredictor.getClimateZone lat ∧
    TrainingData.baseTemperatureZone (-lat) = TrainingData.baseTemperatureZone lat := by
  have h1 : ∀ x, WeatherMLModel.getClimateZone x = getClimateZone x := fun _ => rfl
  have h2 : ∀ x, MlPredictor.getClimateZone x = getClimateZone x := fun _ => rfl
  refine ⟨h1 lat, h2 lat, baseTemperatureZone_eq lat, getClimateZone_neg lat, ?_, ?_, ?_⟩
  · rw [h1, h1, getClimateZone_neg]
  · rw [h2, h2, getClimateZone_neg]
  · rw [baseTemperatureZone_eq, baseTemperatureZone_eq, getClimateZone_neg]

theorem epoch_frame (M : JsMath) (t : ModelTrainer) (trainData : List Sample) :
    (t.epoch M trainData).model.weights.dayOfYear = t.model.weights.dayOfYear ∧
    (t.epoch M trainData).model.weights.season = t.model.weights.season ∧
    (t.epoch M trainData).model.weights.climateZone = t.model.weights.climateZone ∧
    (t.epoch M trainData).model.weights.monsoon = t.model.weights.monsoon ∧
    (t.epoch M trainData).model.weights.mediterranean = t.model.weights.mediterranean ∧
    (t.epoch M trainData).model.weights.desert = t.model.weights.desert ∧
    (t.epoch M trainData).model.stats = t.model.stats ∧
    (t.epoch M trainData).learningRate = t.learningRate ∧
    (t.epoch M trainData).epochs = t.epochs :=
  ⟨rfl, rfl, rfl, rfl, rfl, rfl, rfl, rfl, rfl⟩

theorem epochsLoop_frame (M : JsMath) (trainData : List Sample) (n : Nat) (t : ModelTrainer) :
    (ModelTrainer.epochsLoop M trainData n t).model.weights.dayOfYear
      = t.model.weights.dayOfYear ∧
    (ModelTrainer.epochsLoop M trainData n t).model.weights.season = t.model.weights.season ∧
    (ModelTrainer.epochsLoop M trainData n t).model.weights.climateZone
      = t.model.weights.climateZone ∧
    (ModelTrainer.epochsLoop M trainData n t).model.weights.monsoon
      = t.model.weights.monsoon ∧
    (ModelTrainer.epochsLoop M trainData n t).model.weights.mediterranean
      = t.model.weights.mediterranean ∧
    (ModelTrainer.epochsLoop M trainData n t).model.weights.desert = t.model.weights.desert ∧
    (ModelTrainer.epochsLoop M trainData n t).model.stats = t.model.stats := by
  induction n generalizing t with
  | zero => exact ⟨rfl, rfl, rfl, rfl, rfl, rfl, rfl⟩
  | succ n ih =>
    obtain ⟨a1, a2, a3, a4, a5, a6, a7⟩ := ih (t.epoch M trainData)
    obtain ⟨b1, b2, b3, b4, b5, b6, b7, _, _⟩ := epoch_frame M t trainData
    simp only [ModelTrainer.epochsLoop]
    exact ⟨a1.trans b1, a2.trans b2, a3.trans b3, a4.trans b4, a5.trans b5, a6.trans b6,
      a7.trans b7⟩

/-- C29: for a positive sample count, `updateWeights` changes the weights lat,
lon, month, temperature, humidity, pressure, windSpeed and bias, each by minus
`learningRate * (gradient / sampleCount)`, and nothing else: dayOfYear, season,
the climate-zone weights, monsoon, mediterranean, desert and the normalization
statistics are unchanged, and they keep their initial values after any number of
training epochs and after `train`. -/
theorem updateWeights_frame (M : JsMath) (t : ModelTrainer) (gradients : Gradients)
    (sampleCount : Nat) (trainData : List Sample) (hpos : 0 < sampleCount) :
    (0 : ℚ) < sampleCount ∧
    (t.updateWeights gradients sampleCount).model.weights.lat
      = t.model.weights.lat - t.learningRate * (gradients.lat / sampleCount) ∧
    (t.updateWeights gradients sampleCount).model.weights.lon
      = t.model.weights.lon - t.learningRate * (gradients.lon / sampleCount) ∧
    (t.updateWeights gradients sampleCount).model.weights.month
      = t.model.weights.month - t.learningRate * (gradients.month / sampleCount) ∧
    (t.updateWeights gradients sampleCount).model.weights.temperature
      = t.model.weights.temperature - t.learningRate * (gradients.temperature / sampleCount) ∧
    (t.updateWeights gradients sampleCount).model.weights.humidity
      = t.model.weights.humidity - t.learningRate * (gradients.humidity / sampleCount) ∧
    (t.updateWeights gradients sampleCount).model.weights.pressure
      = t.model.weights.pressure - t.learningRate * (gradients.pressure / sampleCount) ∧
    (t.updateWeights gradients sampleCount).model.weights.windSpeed
      = t.model.weights.windSpeed - t.learningRate * (gradients.windSpeed / sampleCount) ∧
    (t.updateWeights gradients sampleCount).model.weights.bias
      = t.model.weights.bias - t.learningRate * (gradients.bias / sampleCount) ∧
    (t.updateWeights gradients sampleCount).model.weights.dayOfYear
      = t.model.weights.dayOfYear ∧
    (t.updateWeights gradients sampleCount).model.weights.season = t.model.weights.season ∧
    (t.updateWeights gradients sampleCount).model.weights.climateZone
      = t.model.weights.climateZone ∧
    (t.updateWeights gradients sampleCount).model.weights.monsoon = t.model.weights.monsoon ∧
    (t.updateWeights gradients sampleCount).model.weights.mediterranean
      = t.model.weights.mediterranean ∧
    (t.updateWeights gradients sampleCount).model.weights.desert = t.model.weights.desert ∧
    (t.updateWeights gradients sampleCount).model.stats = t.model.stats ∧
    (∀ n : Nat,
      (ModelTrainer.epochsLoop M trainData n t).model.weights.dayOfYear
        = t.model.weights.dayOfYear ∧
      (ModelTrainer.epochsLoop M trainData n t).model.weights.season
        = t.model.weights.season ∧
      (ModelTrainer.epochsLoop M trainData n t).model.weights.climateZone
        = t.model.weights.climateZone ∧
      (ModelTrainer.epochsLoop M trainData n t).model.weights.monsoon
        = t.model.weights.monsoon ∧
      (ModelTrainer.epochsLoop M trainData n t).model.weights.mediterranean
        = t.model.weights.mediterranean ∧
      (ModelTrainer.epochsLoop M trainData n t).model.weights.desert
        = t.model.weights.desert ∧
      (ModelTrainer.epochsLoop M trainData n t).model.stats = t.model.stats) ∧
    (t.train M trainData).model.weights.dayOfYear = t.model.weights.dayOfYear ∧
    (t.train M trainData).model.weights.season = t.model.weights.season ∧
    (t.train M trainData).model.weights.climateZone = t.model.weights.climateZone ∧
    (t.train M trainData).model.weights.monsoon = t.model.weights.monsoon ∧
    (t.train M trainData).model.weights.mediterranean = t.model.weights.mediterranean ∧
    (t.train M trainData).model.weights.desert = t.model.weights.desert ∧
    (t.train M trainData).model.stats = t.model.stats := by
  obtain ⟨c1, c2, c3, c4, c5, c6, c7⟩ := epochsLoop_frame M trainData t.epochs t
  exact ⟨by exact_mod_cast hpos, rfl, rfl, rfl, rfl, rfl, rfl, rfl, rfl, rfl, rfl, rfl, rfl, rfl,
    rfl, rfl, fun n => epochsLoop_frame M trainData n t, c1, c2, c3, c4, c5, c6, c7⟩

/-- Witness for C29: the constructor's trainer after training on one sample. -/
theorem updateWeights_frame_witness :
    (ModelTrainer.new.train zeroMath
      [⟨⟨19.076, 72.8777, 7, 196, 2, 28, 85, 1005, 8⟩, 0.9⟩]).model.weights.dayOfYear
      = -0.001 :=
  (updateWeights_frame zeroMath ModelTrainer.new ModelTrainer.initializeGradients 1
    [⟨⟨19.076, 72.8777, 7, 196, 2, 28, 85, 1005, 8⟩, 0.9⟩]
    (by decide)).2.2.2.2.2.2.2.2.2.2.2.2.2.2.2.2.2.1

/-! ## Theorems: csvDataLoader.js -/

theorem jsLt_trans (a b c : JsNumber) (h1 : a.lt b = true) (h2 : b.lt c = true) :
    a.lt c = true := by
  cases a <;> cases b <;> cases c <;> simp_all [JsNumber.lt]
  exact lt_trans h1 h2

theorem jsLt_of_not_lt (a b c : JsNumber) (h1 : a.lt b = true) (h2 : c.lt b = false)
    (h3 : c.lt .posInf = true) : a.lt c = true := by
  cases a <;> cases b <;> cases c <;> simp_all [JsNumber.lt]
  exact lt_of_lt_of_le h1 h2

theorem jsLt_not_closer (d dy : JsNumber) (h1 : d.lt .posInf = true)
    (h2 : dy.lt .posInf = true → d.lt dy = true) : dy.lt d = false := by
  cases d <;> cases dy <;> simp_all [JsNumber.lt]
  exact le_of_lt h2

theorem jsLt_irrefl (d : JsNumber) : d.lt d = false := by
  cases d <;> simp [JsNumber.lt]

theorem jsLt_posInf_iff (d : JsNumber) :
    d.lt .posInf = true ↔ ((∃ q, d = .finite q) ∨ d = .negInf) := by
  cases d <;> simp [JsNumber.lt]

theorem nearestStep_invariant (F : JsFloat) (targetLat targetLon : JsNumber)
    (pre : List CsvRecord) (state : Option CsvRecord × JsNumber) (x : CsvRecord)
    (h : (state = (none, .posInf) ∧
          ∀ y ∈ pre, ∀ dy, recordDistance F targetLat targetLon y = some dy →
            dy.lt .posInf = false) ∨
        ∃ r d before after, state = (some r, d) ∧ pre = before ++ r :: after ∧
          recordDistance F targetLat targetLon r = some d ∧ d.lt .posInf = true ∧
          (∀ y ∈ before, ∀ dy, recordDistance F targetLat targetLon y = some dy →
            dy.lt .posInf = true → d.lt dy = true) ∧
          (∀ y ∈ after, ∀ dy, recordDistance F targetLat targetLon y = some dy →
            dy.lt d = false)) :
    (nearestStep F targetLat targetLon state x = (none, .posInf) ∧
        ∀ y ∈ pre ++ [x], ∀ dy, recordDistance F targetLat targetLon y = some dy →
          dy.lt .posInf = false) ∨
      ∃ r d before after,
        nearestStep F targetLat targetLon state x = (some r, d) ∧
        pre ++ [x] = before ++ r :: after ∧
        recordDistance F targetLat targetLon r = some d ∧ d.lt .posInf = true ∧
        (∀ y ∈ before, ∀ dy, recordDistance F targetLat targetLon y = some dy →
          dy.lt .posInf = true → d.lt dy = true) ∧
        (∀ y ∈ after, ∀ dy, recordDistance F targetLat targetLon y = some dy →
          dy.lt d = false) := by
  cases hx : recordDistance F targetLat targetLon x with
  | none =>
    have hstep : nearestStep F targetLat targetLon state x = state := by
      simp only [nearestStep, hx]
    rw [hstep]
    rcases h with ⟨hs, hall⟩ | ⟨r, d, before, after, hs, hpre, hr, hd, hb, ha⟩
    · left
      refine ⟨hs, ?_⟩
      intro y hy dy hdy
      rcases List.mem_append.1 hy with hy | hy
      · exact hall y hy dy hdy
      · rw [List.mem_singleton.1 hy, hx] at hdy
        cases hdy
    · right
      refine ⟨r, d, before, after ++ [x], hs, by rw [hpre]; simp, hr, hd, hb, ?_⟩
      intro y hy dy hdy
      rcases List.mem_append.1 hy with hy | hy
      · exact ha y hy dy hdy
      · rw [List.mem_singleton.1 hy, hx] at hdy
        cases hdy
  | some dx =>
    rcases h with ⟨hs, hall⟩ | ⟨r, d, before, after, hs, hpre, hr, hd, hb, ha⟩
    · by_cases hlt : dx.lt .posInf = true
      · right
        refine ⟨x, dx, pre, [], ?_, rfl, hx, hlt, ?_, ?_⟩
        · simp only [nearestStep, hx, hs, hlt, if_true]
        · intro y hy dy hdy hfin
          rw [hall y hy dy hdy] at hfin
          cases hfin
        · intro y hy
          cases hy
      · left
        have hlt2 : dx.lt .posInf = false := by simpa using hlt
        refine ⟨?_, ?_⟩
        · simp [nearestStep, hx, hs, hlt2]
        · intro y hy dy hdy
          rcases List.mem_append.1 hy with hy | hy
          · exact hall y hy dy hdy
          · rw [List.mem_singleton.1 hy, hx] at hdy
            cases hdy
            exact hlt2
    · right
      by_cases hlt : dx.lt d = true
      · refine ⟨x, dx, pre, [], ?_, rfl, hx, jsLt_trans dx d .posInf hlt hd, ?_, ?_⟩
        · simp only [nearestStep, hx, hs, hlt, if_true]
        · intro y hy dy hdy hfin
          rw [hpre] at hy
          rcases List.mem_append.1 hy with hy | hy
          · exact jsLt_trans dx d dy hlt (hb y hy dy hdy hfin)
          · rcases List.mem_cons.1 hy with hy | hy
            · rw [hy, hr] at hdy
              cases hdy
              exact hlt
            · exact jsLt_of_not_lt dx d dy hlt (ha y hy dy hdy) hfin
        · intro y hy
          cases hy
      · have hlt2 : dx.lt d = false := by simpa using hlt
        refine ⟨r, d, before, after ++ [x], ?_, by rw [hpre]; simp, hr, hd, hb, ?_⟩
        · simp [nearestStep, hx, hs, hlt2]
        · intro y hy dy hdy
          rcases List.mem_append.1 hy with hy | hy
          · exact ha y hy dy hdy
          · rw [List.mem_singleton.1 hy, hx] at hdy
            cases hdy
            exact hlt2

theorem nearest_foldl_invariant (F : JsFloat) (targetLat targetLon : JsNumber)
    (l pre : List CsvRecord) (state : Option CsvRecord × JsNumber)
    (h : (state = (none, .posInf) ∧
          ∀ y ∈ pre, ∀ dy, recordDistance F targetLat targetLon y = some dy →
            dy.lt .posInf = false) ∨
        ∃ r d before after, state = (some r, d) ∧ pre = before ++ r :: after ∧
          recordDistance F targetLat targetLon r = some d ∧ d.lt .posInf = true ∧
          (∀ y ∈ before, ∀ dy, recordDistance F targetLat targetLon y = some dy →
            dy.lt .posInf = true → d.lt dy = true) ∧
          (∀ y ∈ after, ∀ dy, recordDistance F targetLat targetLon y = some dy →
            dy.lt d = false)) :
    (l.foldl (nearestStep F targetLat targetLon) state = (none, .posInf) ∧
        ∀ y ∈ pre ++ l, ∀ dy, recordDistance F targetLat targetLon y = some dy →
          dy.lt .posInf = false) ∨
      ∃ r d before after,
        l.foldl (nearestStep F targetLat targetLon) state = (some r, d) ∧
        pre ++ l = before ++ r :: after ∧
        recordDistance F targetLat targetLon r = some d ∧ d.lt .posInf = true ∧
        (∀ y ∈ before, ∀ dy, recordDistance F targetLat targetLon y = some dy →
          dy.lt .posInf = true → d.lt dy = true) ∧
        (∀ y ∈ after, ∀ dy, recordDistance F targetLat targetLon y = some dy →
          dy.lt d = false) := by
  induction l generalizing pre state with
  | nil => simpa using h
  | cons x l ih =>
    have hstep := nearestStep_invariant F targetLat targetLon pre state x h
    have := ih (pre ++ [x]) (nearestStep F targetLat targetLon state x) hstep
    simpa [List.foldl_cons, List.append_assoc] using this

/-- C30 (as stated, refuted): a loaded data set whose only record has the
numeric coordinates `1e200` and `0` gives `null` for the target `(0, 0)`: the
square of `1e200` overflows, the distance is `Infinity`, and `Infinity <
Infinity` is false. A `NaN` target gives `null` on a data set with numeric
records as well. -/
theorem findNearestLocation_null_with_numeric_record :
    (sampleFloat.parseColumn (some "1e200")).isNaN = false ∧
    (sampleFloat.parseColumn (some "0")).isNaN = false ∧
    recordDistance sampleFloat (.finite 0) (.finite 0) ⟨some "1e200", some "0", some "Far"⟩
      = some .posInf ∧
    WeatherDataLoader.findNearestLocation ⟨[⟨some "1e200", some "0", some "Far"⟩], true⟩
      sampleFloat (.finite 0) (.finite 0) = none ∧
    (sampleFloat.parseColumn (some "50")).isNaN = false ∧
    sampleLoader.findNearestLocation sampleFloat .nan (.finite 0) = none := by
  have hp1 : sampleFloat.parseColumn (some "1e200") = .finite (10 ^ 200) := by
    simp [JsFloat.parseColumn, sampleFloat]
  have hp0 : sampleFloat.parseColumn (some "0") = .finite 0 := by
    simp [JsFloat.parseColumn, sampleFloat, sampleParseFloat]
  have hp50 : sampleFloat.parseColumn (some "50") = .finite 50 := by
    simp [JsFloat.parseColumn, sampleFloat, sampleParseFloat]
  have hpm1 : sampleFloat.parseColumn (some "19.0760") = .finite 19.076 := by
    simp [JsFloat.parseColumn, sampleFloat, sampleParseFloat]
  have hpm2 : sampleFloat.parseColumn (some "72.8777") = .finite 72.8777 := by
    simp [JsFloat.parseColumn, sampleFloat, sampleParseFloat]
  have hpn : sampleFloat.parseColumn none = .nan := rfl
  have hd : recordDistance sampleFloat (.finite 0) (.finite 0)
      ⟨some "1e200", some "0", some "Far"⟩ = some .posInf := by
    simp only [recordDistance, hp1, hp0]
    norm_num [JsNumber.isNaN, sampleFloat, exactSub, exactPowTwo, exactAdd, exactSqrt,
      JsNumber.ofExact, overflowBound]
  refine ⟨by rw [hp1]; rfl, by rw [hp0]; rfl, hd, ?_, by rw [hp50]; rfl, ?_⟩
  · simp [WeatherDataLoader.findNearestLocation, nearestStep, hd, JsNumber.lt]
  · have h1 : recordDistance sampleFloat .nan (.finite 0) ⟨some "50", some "0", some "North"⟩
        = some .nan := by
      simp only [recordDistance, hp50, hp0]
      norm_num [JsNumber.isNaN, sampleFloat, exactSub, exactPowTwo, exactAdd, exactSqrt,
        JsNumber.ofExact, overflowBound]
    have h2 : recordDistance sampleFloat .nan (.finite 0)
        ⟨some "19.0760", some "72.8777", some "Mumbai"⟩ = some .nan := by
      simp only [recordDistance, hpm1, hpm2]
      norm_num [JsNumber.isNaN, sampleFloat, exactSub, exactPowTwo, exactAdd, exactSqrt,
        JsNumber.ofExact, overflowBound]
    have h3 : recordDistance sampleFloat .nan (.finite 0) ⟨none, some "0", some "Unknown"⟩
        = none := by
      simp only [recordDistance, hpn, hp0]
      simp [JsNumber.isNaN]
    simp [WeatherDataLoader.findNearestLocation, sampleLoader, nearestStep, h1, h2, h3,
      JsNumber.lt]

/-- C30 (amended): for a loaded list of records, a record is skipped when a
coordinate parses to `NaN`, and a record whose computed distance
`sqrt((lat - targetLat)^2 + (lon - targetLon)^2)` is `Infinity` or `NaN` is
never chosen. `findNearestLocation` returns `null` exactly when no record has a
computed distance below `Infinity`; otherwise it returns a record of the list
with such a distance that is strictly smaller than that of every earlier record
with a distance below `Infinity`, and no record of the list has a strictly
smaller computed distance: the first record, in list order, of minimal computed
distance. -/
theorem findNearestLocation_first_minimal (loader : WeatherDataLoader) (F : JsFloat)
    (targetLat targetLon : JsNumber) (hloaded : loader.loaded = true) :
    (∀ x : CsvRecord, recordDistance F targetLat targetLon x = none ↔
      ((F.parseColumn x.latitude).isNaN = true ∨ (F.parseColumn x.longitude).isNaN = true)) ∧
    (∀ x : CsvRecord, (F.parseColumn x.latitude).isNaN = false →
      (F.parseColumn x.longitude).isNaN = false →
      recordDistance F targetLat targetLon x
        = some (F.sqrt (F.add (F.powTwo (F.sub (F.parseColumn x.latitude) targetLat))
            (F.powTwo (F.sub (F.parseColumn x.longitude) targetLon))))) ∧
    (∀ d : JsNumber, d.lt .posInf = true ↔ ((∃ q, d = .finite q) ∨ d = .negInf)) ∧
    (loader.findNearestLocation F targetLat targetLon = none ↔
      ∀ x ∈ loader.data, ∀ d, recordDistance F targetLat targetLon x = some d →
        d.lt .posInf = false) ∧
    (∀ r, loader.findNearestLocation F targetLat targetLon = some r →
      ∃ before after d, loader.data = before ++ r :: after ∧
        recordDistance F targetLat targetLon r = some d ∧ d.lt .posInf = true ∧
        (∀ y ∈ before, ∀ dy, recordDistance F targetLat targetLon y = some dy →
          dy.lt .posInf = true → d.lt dy = true) ∧
        (∀ y ∈ loader.data, ∀ dy, recordDistance F targetLat targetLon y = some dy →
          dy.lt d = false)) := by
  have hinv := nearest_foldl_invariant F targetLat targetLon loader.data []
    (none, .posInf) (Or.inl ⟨rfl, fun y hy => by cases hy⟩)
  simp only [List.nil_append] at hinv
  have hfind : loader.findNearestLocation F targetLat targetLon
      = (loader.data.foldl (nearestStep F targetLat targetLon) (none, .posInf)).1 := by
    unfold WeatherDataLoader.findNearestLocation
    by_cases hlen : loader.data.length = 0
    · have hnil : loader.data = [] := List.length_eq_zero.1 hlen
      simp [hnil]
    · simp [hloaded, hlen]
  refine ⟨?_, ?_, jsLt_posInf_iff, ?_, ?_⟩
  · intro x
    cases h1 : (F.parseColumn x.latitude).isNaN <;>
      cases h2 : (F.parseColumn x.longitude).isNaN <;> simp [recordDistance, h1, h2]
  · intro x h1 h2
    simp [recordDistance, h1, h2]
  · rw [hfind]
    constructor
    · intro hnone
      rcases hinv with ⟨_, hall⟩ | ⟨r, d, before, after, hs, _, _, _, _, _⟩
      · exact hall
      · rw [hs] at hnone
        cases hnone
    · intro hall
      rcases hinv with ⟨hs, _⟩ | ⟨r, d, before, after, hs, hsplit, hr, hd, _, _⟩
      · rw [hs]
      · have hmem : r ∈ loader.data := by
          rw [hsplit]
          simp
        rw [hall r hmem d hr] at hd
        cases hd
  · intro r hr
    rw [hfind] at hr
    rcases hinv with ⟨hs, _⟩ | ⟨r', d, before, after, hs, hsplit, hr', hd, hb, ha⟩
    · rw [hs] at hr
      cases hr
    · rw [hs] at hr
      cases hr
      refine ⟨before, after, d, hsplit, hr', hd, hb, ?_⟩
      intro y hy dy hdy
      rw [hsplit] at hy
      rcases List.mem_append.1 hy with hy | hy
      · exact jsLt_not_closer d dy hd (hb y hy dy hdy)
      · rcases List.mem_cons.1 hy with hy | hy
        · rw [hy, hr'] at hdy
          cases hdy
          exact jsLt_irrefl d
        · exact ha y hy dy hdy

/-- Witness for C30: the sample data set asked for the place of its first
record, which is returned. -/
theorem findNearestLocation_first_minimal_witness :
    sampleLoader.findNearestLocation sampleFloat (.finite 50) (.finite 0) ≠ none := by
  intro h
  have hall := ((findNearestLocation_first_minimal sampleLoader sampleFloat (.finite 50)
    (.finite 0) rfl).2.2.2.1).1 h ⟨some "50", some "0", some "North"⟩ (by simp [sampleLoader])
  have hp0 : sampleFloat.parseColumn (some "0") = .finite 0 := by
    simp [JsFloat.parseColumn, sampleFloat, sampleParseFloat]
  have hp50 : sampleFloat.parseColumn (some "50") = .finite 50 := by
    simp [JsFloat.parseColumn, sampleFloat, sampleParseFloat]
  have hd : recordDistance sampleFloat (.finite 50) (.finite 0)
      ⟨some "50", some "0", some "North"⟩ = some (.finite (Rat.sqrt 0)) := by
    simp only [recordDistance, hp50, hp0]
    norm_num [JsNumber.isNaN, sampleFloat, exactSub, exactPowTwo, exactAdd, exactSqrt,
      JsNumber.ofExact, overflowBound]
  have := hall _ hd
  simp [JsNumber.lt] at this

end RainPredictor
